import Mathlib

/-!
# Two Player Game engine: session protocol and packet layer

A shallow embedding of `TwoPlayerGame_base_packet.{h,cpp}` and
`TwoPlayerGame_base_game.{h,cpp}`.

* Enumerations are inductive types; the integer casts the engine performs on
  `packetSubType_t` are the functions `packetSubType_t.ofBool` and `packetSubType_t.toBool`.
* `uint16_t` counters are natural numbers, reduced modulo `2^16` where the source increments.
* The radio (all of whose methods are pure virtual) is the environment: `baseRadio` holds the
  answers it will give to the successive sends and receive attempts, and a chronological
  trace of every radio operation and every callback invocation.
* The pure virtual game callbacks are the fields of `Handlers`.
* A wait that never ends (`requireType` with no matching packet in the inbox) is `none`.
-/

namespace TwoPlayerGame

/-! ## Enumerations -/

/-- The states of the engine, `enum gameState_t`. -/
inductive gameState_t where
  | OFFERING_GAME
  | SEEKING_GAME
  | MY_TURN
  | OPPONENTS_TURN
  | GAME_OVER
  deriving DecidableEq

/-- The packet type tags, `enum packetType_t`. -/
inductive packetType_t where
  | NO_PACKET_TYPE
  | OFFERING_GAME_PACKET
  | ACCEPTING_GAME_PACKET
  | MOVE_PACKET
  | RESULTS_PACKET
  | FOUND_GAME_PACKET
  | COIN_FLIP_PACKET
  deriving DecidableEq

/-- The packet subtype tags, `enum packetSubType_t`. -/
inductive packetSubType_t where
  | NO_SUBTYPE
  | NORMAL_MOVE
  | PASS_MOVE
  | QUIT_MOVE
  | NORMAL_RESULTS
  | HIT_RESULTS
  | MISS_RESULTS
  | WIN_RESULTS
  | LOSE_RESULTS
  | TIE_RESULTS
  | FLIP_TRUE
  | FLIP_FALSE
  deriving DecidableEq

/-- The integer value of a subtype enumerator. -/
def packetSubType_t.toNat : packetSubType_t → Nat
  | NO_SUBTYPE => 0
  | NORMAL_MOVE => 1
  | PASS_MOVE => 2
  | QUIT_MOVE => 3
  | NORMAL_RESULTS => 4
  | HIT_RESULTS => 5
  | MISS_RESULTS => 6
  | WIN_RESULTS => 7
  | LOSE_RESULTS => 8
  | TIE_RESULTS => 9
  | FLIP_TRUE => 10
  | FLIP_FALSE => 11

/-- The cast `(packetSubType_t)b` of a `bool`: `true` is the integer 1, `false` is 0. -/
def packetSubType_t.ofBool : Bool → packetSubType_t
  | true => NORMAL_MOVE
  | false => NO_SUBTYPE

/-- The cast `(bool)subType`, also the truth value of `if(p.subType)`: non-zero is true. -/
def packetSubType_t.toBool (st : packetSubType_t) : Bool :=
  st.toNat != 0

/-! ## Memory layout parameters -/

/-- The object sizes the source obtains from `sizeof`; they depend on the compiler. -/
structure Layout where
  /-- The value of `sizeof(void*)`. -/
  sizeof_ptr : Nat
  /-- The value of `my_size()` for a `basePacket`. -/
  sizeof_basePacket : Nat
  /-- The value of `my_size()` for the game's Move object. -/
  sizeof_Move : Nat
  /-- The value of `my_size()` for the game's Results object. -/
  sizeof_Results : Nat

/-- The macro `PACKET_OFFSET (2*sizeof(void*))`. -/
def PACKET_OFFSET (L : Layout) : Nat :=
  2 * L.sizeof_ptr

/-- The `uint8_t` length `my_size()-PACKET_OFFSET` handed to the radio. -/
def packetLen (L : Layout) (my_size : Nat) : Nat :=
  (my_size - PACKET_OFFSET L) % 256

/-! ## Packets -/

/-- The transmitted fields of `class basePacket`. The `Radio` pointer is the radio argument of
the methods below. -/
structure basePacket where
  type : packetType_t
  subType : packetSubType_t
  deriving DecidableEq

/-- The transmitted fields of `class baseMove`; `payload` stands for the data members of the
game's derived class. -/
structure baseMove (W : Type) extends basePacket where
  moveNum : Nat
  payload : W
  deriving DecidableEq

/-- The transmitted fields of `class baseResults`; `payload` stands for the data members of the
game's derived class. -/
structure baseResults (W : Type) extends basePacket where
  resultsNum : Nat
  payload : W
  deriving DecidableEq

/-- What travels over the air: the bytes of a packet object past `PACKET_OFFSET`, read as the two
tags, the fields after them (absent when the sender was a plain `basePacket`), and their number
`len`. -/
structure Datagram (W : Type) where
  type : packetType_t
  subType : packetSubType_t
  body : Option (Nat × W)
  len : Nat
  deriving DecidableEq

/-- What one receive attempt meets: nothing (`available()` is false, or the timed wait runs out),
a failed `recv`, or a datagram. -/
inductive rxEvent (W : Type) where
  | idle
  | failed
  | delivered (d : Datagram W)
  deriving DecidableEq

/-- The trace entries: the radio operations with their arguments and answers, and the callback
invocations with their arguments and return values. -/
inductive Event (W : Type) where
  | setup (myPlayerNum otherPlayerNum : Nat)
  | send (d : Datagram W) (ack : Bool)
  | recvTimeout (len timeout : Nat) (got : Option (Datagram W))
  | available (answer : Bool)
  | recv (len : Nat) (got : Option (Datagram W))
  | initialise
  | coinFlip (coin : Bool)
  | processGameOver
  | fatalError (s : String)
  | processFlip (coin : Bool)
  | foundGame
  | decideMyMove
  | generateResults (Move : baseMove W) (over : Bool)
  | processResults (over : Bool)
  deriving DecidableEq

/-- True on the entries made by `Radio->send`. -/
def Event.isSend {W : Type} : Event W → Bool
  | Event.send _ _ => true
  | _ => false

/-- True on the entries made by the receiving operations `available`, `recv`, `recvTimeout`. -/
def Event.isRx {W : Type} : Event W → Bool
  | Event.available _ => true
  | Event.recv _ _ => true
  | Event.recvTimeout _ _ _ => true
  | _ => false

/-- True on the entries made by a call of `fatalError`. -/
def Event.isFatal {W : Type} : Event W → Bool
  | Event.fatalError _ => true
  | _ => false

/-- True on the entries made by a call of `coinFlip`. -/
def Event.isCoinFlip {W : Type} : Event W → Bool
  | Event.coinFlip _ => true
  | _ => false

/-- True on the entries made by a call of `generateResults`. -/
def Event.isGenerateResults {W : Type} : Event W → Bool
  | Event.generateResults _ _ => true
  | _ => false

/-- True on the entries made by a call of `processResults`. -/
def Event.isProcessResults {W : Type} : Event W → Bool
  | Event.processResults _ => true
  | _ => false

/-- The datagrams sent, in order, each with the acknowledgement it got. -/
def sentPackets {W : Type} : List (Event W) → List (Datagram W × Bool)
  | [] => []
  | Event.send d a :: es => (d, a) :: sentPackets es
  | _ :: es => sentPackets es

/-! ## The radio -/

/-- The radio seen from the engine (`class baseRadio`, all methods pure virtual).
`acks` are the answers the successive `send` calls will get (a send past the end of the list is
not acknowledged), `inbox` is what the successive receive attempts will meet (nothing arrives past
the end of the list), `trace` is the chronological record. -/
structure baseRadio (W : Type) where
  acks : List Bool
  inbox : List (rxEvent W)
  trace : List (Event W)

/-- Append one entry to the trace. -/
def baseRadio.log {W : Type} (R : baseRadio W) (e : Event W) : baseRadio W :=
  { R with trace := R.trace ++ [e] }

/-- The call `Radio->send(packet_ptr, len)`: true if the data was acknowledged. -/
def baseRadio.send {W : Type} (R : baseRadio W) (d : Datagram W) : Bool × baseRadio W :=
  match R.acks with
  | [] => (false, { R with trace := R.trace ++ [Event.send d false] })
  | a :: rest => (a, { R with acks := rest, trace := R.trace ++ [Event.send d a] })

/-- The call `Radio->recvTimeout(packet_ptr, &len, timeout)`: one attempt; on success the
datagram and the number of bytes passed back through `len`. -/
def baseRadio.recvTimeout {W : Type} (R : baseRadio W) (len timeout : Nat) :
    Option (Datagram W × Nat) × baseRadio W :=
  match R.inbox with
  | [] => (none, { R with trace := R.trace ++ [Event.recvTimeout len timeout none] })
  | rxEvent.delivered d :: rest =>
      (some (d, min len d.len),
        { R with inbox := rest, trace := R.trace ++ [Event.recvTimeout len timeout (some d)] })
  | _ :: rest =>
      (none, { R with inbox := rest, trace := R.trace ++ [Event.recvTimeout len timeout none] })

/-! ## Packet methods -/

/-- What the base-class methods learn about the object they run on through `this` and the
virtual `my_size()`: its size, its tags, the fields after the tags, and how received bytes land
in it. -/
structure PacketClass (P W : Type) where
  my_size : Layout → Nat
  type : P → packetType_t
  subType : P → packetSubType_t
  body : P → Option (Nat × W)
  setType : packetType_t → P → P
  store : Layout → P → Datagram W → Nat → P

/-- A plain `basePacket`: only the two tags. -/
def basePacketClass (W : Type) : PacketClass basePacket W where
  my_size := fun L => L.sizeof_basePacket
  type := fun p => p.type
  subType := fun p => p.subType
  body := fun _ => none
  setType := fun t p => { p with type := t }
  store := fun _ _ d _ => { type := d.type, subType := d.subType }

/-- The Move object. Received bytes overwrite the tags; the sequence number and the payload are
overwritten when the datagram has them and the `n` bytes copied cover the whole object. A copy
that stops between the tags and the end of the object is not represented: it leaves the
sequence number and the payload as they were. -/
def baseMoveClass (W : Type) : PacketClass (baseMove W) W where
  my_size := fun L => L.sizeof_Move
  type := fun m => m.type
  subType := fun m => m.subType
  body := fun m => some (m.moveNum, m.payload)
  setType := fun t m => { m with type := t }
  store := fun L m d n =>
    match d.body with
    | some (k, w) =>
        if L.sizeof_Move - PACKET_OFFSET L ≤ n then
          { type := d.type, subType := d.subType, moveNum := k, payload := w }
        else { m with type := d.type, subType := d.subType }
    | none => { m with type := d.type, subType := d.subType }

/-- The Results object, as the Move object. -/
def baseResultsClass (W : Type) : PacketClass (baseResults W) W where
  my_size := fun L => L.sizeof_Results
  type := fun r => r.type
  subType := fun r => r.subType
  body := fun r => some (r.resultsNum, r.payload)
  setType := fun t r => { r with type := t }
  store := fun L r d n =>
    match d.body with
    | some (k, w) =>
        if L.sizeof_Results - PACKET_OFFSET L ≤ n then
          { type := d.type, subType := d.subType, resultsNum := k, payload := w }
        else { r with type := d.type, subType := d.subType }
    | none => { r with type := d.type, subType := d.subType }

/-- The bytes `(uint8_t*)this+PACKET_OFFSET` of length `my_size()-PACKET_OFFSET`. -/
def PacketClass.image {P W : Type} (C : PacketClass P W) (L : Layout) (p : P) : Datagram W :=
  { type := C.type p, subType := C.subType p, body := C.body p,
    len := packetLen L (C.my_size L) }

/-- The method `basePacket::send(void)`: one `Radio->send`, whose answer is returned. -/
def basePacket.send {P W : Type} (C : PacketClass P W) (L : Layout) (p : P)
    (R : baseRadio W) : Bool × baseRadio W :=
  R.send (C.image L p)

/-- The method `basePacket::send(packetType_t t) {type=t; return send();}`. -/
def basePacket.sendTyped {P W : Type} (C : PacketClass P W) (L : Layout) (t : packetType_t)
    (p : P) (R : baseRadio W) : Bool × P × baseRadio W :=
  let p1 := C.setType t p
  let r := basePacket.send C L p1 R
  (r.1, p1, r.2)

/-- The method `basePacket::requireTypeTimeout`. -/
def basePacket.requireTypeTimeout {P W : Type} (C : PacketClass P W) (L : Layout)
    (t : packetType_t) (timeout : Nat) (p : P) (R : baseRadio W) : Bool × P × baseRadio W :=
  let len := packetLen L (C.my_size L)
  match R.recvTimeout len timeout with
  | (some (d, n), R1) =>
      let p1 := C.store L p d n
      if C.type p1 = t then (true, p1, R1) else (false, p1, R1)
  | (none, R1) => (false, p, R1)

/-- The loop of `basePacket::requireType`, run over what the receive attempts will meet, with the
current value of the local `len` and the current object. It gives the object on return, the rest
of the inbox and the trace entries made; `none` when the inbox ends before a packet of type `t`
has come (the loop never exits). -/
def basePacket.requireTypeLoop {P W : Type} (C : PacketClass P W) (L : Layout)
    (t : packetType_t) :
    List (rxEvent W) → Nat → P → Option (P × List (rxEvent W) × List (Event W))
  | [], _, _ => none
  | rxEvent.idle :: rest, len, p =>
      (basePacket.requireTypeLoop C L t rest len p).map
        fun r => (r.1, r.2.1, Event.available false :: r.2.2)
  | rxEvent.failed :: rest, len, p =>
      (basePacket.requireTypeLoop C L t rest len p).map
        fun r => (r.1, r.2.1, Event.available true :: Event.recv len none :: r.2.2)
  | rxEvent.delivered d :: rest, len, p =>
      let n := min len d.len
      let p1 := C.store L p d n
      if C.type p1 = t then
        some (p1, rest, [Event.available true, Event.recv len (some d)])
      else
        (basePacket.requireTypeLoop C L t rest n p1).map
          fun r => (r.1, r.2.1, Event.available true :: Event.recv len (some d) :: r.2.2)

/-- The method `basePacket::requireType`. -/
def basePacket.requireType {P W : Type} (C : PacketClass P W) (L : Layout) (t : packetType_t)
    (p : P) (R : baseRadio W) : Option (P × baseRadio W) :=
  match basePacket.requireTypeLoop C L t R.inbox (packetLen L (C.my_size L)) p with
  | none => none
  | some (p1, rest, evs) => some (p1, { R with inbox := rest, trace := R.trace ++ evs })

/-- The method `baseMove::require() {requireType(MOVE_PACKET);}`. -/
def baseMove.require {W : Type} (L : Layout) (m : baseMove W) (R : baseRadio W) :
    Option (baseMove W × baseRadio W) :=
  basePacket.requireType (baseMoveClass W) L packetType_t.MOVE_PACKET m R

/-- The method `baseResults::require() {requireType(RESULTS_PACKET);}`. -/
def baseResults.require {W : Type} (L : Layout) (r : baseResults W) (R : baseRadio W) :
    Option (baseResults W × baseRadio W) :=
  basePacket.requireType (baseResultsClass W) L packetType_t.RESULTS_PACKET r R

/-! ## The game engine -/

/-- The data members of `class baseGame` (the `Radio` pointer apart), with `derived` standing for
the data of the game's derived classes and everything else its callbacks own (boards, screen,
user input, random source). -/
structure baseGame (G W : Type) where
  currentMoveNum : Nat
  Move : baseMove W
  Results : baseResults W
  myPlayerNum : Nat
  otherPlayerNum : Nat
  gameState : gameState_t
  derived : G

/-- The engine with its radio. The radio is kept beside the object handed to the callbacks:
callbacks do not operate the link. -/
structure Session (G W : Type) where
  game : baseGame G W
  Radio : baseRadio W

/-- The virtual methods the game supplies, each with the data it owns.

* `decideMyMove` fills in the move: it reads the Move object, whose `moveNum` the engine has
  just written, and gives the subtype and the payload.
* `generateResults` and `processResults` are methods of the Results object and give its new
  contents; `generateResults` reads the Move it is passed.
* `coinFlip`, `processFlip` and `foundGame` report to the player and draw the coin.
* `initialize`, `processGameOver` and `fatalError` get the whole game object: the bundled games
  restart from them and their `fatalError` writes `gameState`.

All of them may change `derived`, the game's own data. -/
structure Handlers (G W : Type) where
  /-- The method `baseMove::decideMyMove`. -/
  decideMyMove : G → baseMove W → G × packetSubType_t × W
  /-- The method `baseResults::generateResults(baseMove* Move)`; the Boolean is its return
  value, true if the game ended. -/
  generateResults : G → baseMove W → baseResults W → G × baseResults W × Bool
  /-- The method `baseResults::processResults`; the Boolean is its return value. -/
  processResults : G → baseResults W → G × baseResults W × Bool
  /-- The virtual method `baseGame::initialize` as the game overrides it. -/
  initialise : baseGame G W → baseGame G W
  /-- The method `baseGame::coinFlip`. -/
  coinFlip : G → G × Bool
  /-- The method `baseGame::processGameOver`. -/
  processGameOver : baseGame G W → baseGame G W
  /-- The method `baseGame::fatalError(const char* s)`. -/
  fatalError : String → baseGame G W → baseGame G W
  /-- The method `baseGame::processFlip(bool coin)`. -/
  processFlip : Bool → G → G
  /-- The method `baseGame::foundGame`. -/
  foundGame : G → G

/-- The base implementation `virtual void initialize(void){gameState=OFFERING_GAME;}`. -/
def baseGame.initialise {G W : Type} (g : baseGame G W) : baseGame G W :=
  { g with gameState := gameState_t.OFFERING_GAME }

/-- The constructor `baseGame::baseGame`. It leaves `currentMoveNum` and `gameState`
uninitialised; their indeterminate values are the arguments `n0` and `st0`. -/
def baseGame.new {G W : Type} (move_ptr : baseMove W) (results_ptr : baseResults W)
    (isPlayer_1 : Bool) (n0 : Nat) (st0 : gameState_t) (derived : G) : baseGame G W :=
  { currentMoveNum := n0
    Move := move_ptr
    Results := results_ptr
    myPlayerNum := if isPlayer_1 then 1 else 2
    otherPlayerNum := if isPlayer_1 then 2 else 1
    gameState := st0
    derived := derived }

/-- A call of the virtual `fatalError(s)`. -/
def Session.fatalError {G W : Type} (H : Handlers G W) (msg : String) (s : Session G W) :
    Session G W :=
  { game := H.fatalError msg s.game, Radio := s.Radio.log (Event.fatalError msg) }

/-- The method `baseGame::setup`. -/
def baseGame.setup {G W : Type} (H : Handlers G W) (s : Session G W) : Session G W :=
  { game := H.initialise s.game
    Radio := (s.Radio.log (Event.setup s.game.myPlayerNum s.game.otherPlayerNum)).log
      Event.initialise }

/-- The macro `OFFERING_TIMEOUT 1000`. -/
def OFFERING_TIMEOUT : Nat := 1000

/-- The macro `OFFERING_TRIES 2`. -/
def OFFERING_TRIES : Nat := 2

/-- The `for` loop of `baseGame::offeringGame` with `tries` iterations left
(`tries = OFFERING_TRIES - i`), followed by the statement after the loop. -/
def baseGame.offeringLoop {G W : Type} (H : Handlers G W) (L : Layout) :
    Nat → basePacket → Session G W → Session G W
  | 0, _, s => { s with game := { s.game with gameState := gameState_t.SEEKING_GAME } }
  | tries + 1, p, s =>
    match basePacket.sendTyped (basePacketClass W) L packetType_t.OFFERING_GAME_PACKET p
        s.Radio with
    | (true, p1, R1) =>
      match basePacket.requireTypeTimeout (basePacketClass W) L
          packetType_t.ACCEPTING_GAME_PACKET OFFERING_TIMEOUT p1 R1 with
      | (true, p2, R2) =>
        let f := basePacket.sendTyped (basePacketClass W) L packetType_t.FOUND_GAME_PACKET p2 R2
        let c := H.coinFlip s.game.derived
        let p3 : basePacket := { f.2.1 with subType := packetSubType_t.ofBool c.2 }
        let g3 : baseGame G W :=
          { s.game with
              derived := c.1
              gameState := if p3.subType.toBool then gameState_t.MY_TURN
                           else gameState_t.OPPONENTS_TURN }
        let e := basePacket.sendTyped (basePacketClass W) L packetType_t.COIN_FLIP_PACKET p3
          (f.2.2.log (Event.coinFlip c.2))
        { game := g3, Radio := e.2.2 }
      | (false, p2, R2) => baseGame.offeringLoop H L tries p2 { s with Radio := R2 }
    | (false, p1, R1) => baseGame.offeringLoop H L tries p1 { s with Radio := R1 }

/-- The method `baseGame::offeringGame`. The local `basePacket p(Radio)` starts with
`subType=NO_SUBTYPE`; its `type` is not initialised and is written by `send(t)` before it is
read. -/
def baseGame.offeringGame {G W : Type} (H : Handlers G W) (L : Layout) (s : Session G W) :
    Session G W :=
  baseGame.offeringLoop H L OFFERING_TRIES
    { type := packetType_t.NO_PACKET_TYPE, subType := packetSubType_t.NO_SUBTYPE }
    { s with game := { s.game with currentMoveNum := 1 } }

/-- The method `baseGame::seekingGame`; `none` when one of its waits never ends. -/
def baseGame.seekingGame {G W : Type} (H : Handlers G W) (L : Layout) (s : Session G W) :
    Option (Session G W) :=
  match basePacket.requireType (basePacketClass W) L packetType_t.OFFERING_GAME_PACKET
      { type := packetType_t.NO_PACKET_TYPE, subType := packetSubType_t.NO_SUBTYPE }
      s.Radio with
  | none => none
  | some (p1, R1) =>
    match basePacket.sendTyped (basePacketClass W) L packetType_t.ACCEPTING_GAME_PACKET p1
        R1 with
    | (false, _, R2) =>
      some (Session.fatalError H "No ack during Accepting Game" { s with Radio := R2 })
    | (true, p2, R2) =>
      match basePacket.requireType (basePacketClass W) L packetType_t.FOUND_GAME_PACKET p2
          R2 with
      | none => none
      | some (p3, R3) =>
        match basePacket.requireType (basePacketClass W) L packetType_t.COIN_FLIP_PACKET p3
            (R3.log Event.foundGame) with
        | none => none
        | some (p4, R4) =>
          let d5 := H.processFlip p4.subType.toBool (H.foundGame s.game.derived)
          let g6 : baseGame G W :=
            { s.game with
                derived := d5
                gameState := if p4.subType.toBool then gameState_t.OPPONENTS_TURN
                             else gameState_t.MY_TURN }
          some { game := { g6 with currentMoveNum := 1 }
                 Radio := R4.log (Event.processFlip p4.subType.toBool) }

/-- The method `baseGame::doMyTurn`; `none` when the wait for the results never ends. -/
def baseGame.doMyTurn {G W : Type} (H : Handlers G W) (L : Layout) (s : Session G W) :
    Option (Session G W) :=
  let m0 : baseMove W := { s.game.Move with moveNum := s.game.currentMoveNum }
  let d := H.decideMyMove s.game.derived m0
  let g1 : baseGame G W :=
    { s.game with Move := { m0 with subType := d.2.1, payload := d.2.2 }, derived := d.1 }
  match basePacket.send (baseMoveClass W) L g1.Move (s.Radio.log Event.decideMyMove) with
  | (false, R1) => some (Session.fatalError H "No ack from send move" { game := g1, Radio := R1 })
  | (true, R1) =>
    match baseResults.require L g1.Results R1 with
    | none => none
    | some (res, R2) =>
      let g2 : baseGame G W := { g1 with Results := res }
      if g2.Results.resultsNum ≠ g2.currentMoveNum then
        some (Session.fatalError H "Results number mismatch error." { game := g2, Radio := R2 })
      else
        let r := H.processResults g2.derived g2.Results
        let g3 : baseGame G W :=
          { g2 with
              derived := r.1
              Results := r.2.1
              gameState := if r.2.2 then gameState_t.GAME_OVER else gameState_t.OPPONENTS_TURN }
        some { game := { g3 with currentMoveNum := (g3.currentMoveNum + 1) % 65536 }
               Radio := R2.log (Event.processResults r.2.2) }

/-- The method `baseGame::doOpponentsTurn`; `none` when the wait for the move never ends. -/
def baseGame.doOpponentsTurn {G W : Type} (H : Handlers G W) (L : Layout) (s : Session G W) :
    Option (Session G W) :=
  match baseMove.require L s.game.Move s.Radio with
  | none => none
  | some (mv, R1) =>
    let g1 : baseGame G W := { s.game with Move := mv }
    let g2 : baseGame G W :=
      { g1 with currentMoveNum := if g1.Move.moveNum = 0 then 0 else g1.currentMoveNum }
    if g2.Move.moveNum ≠ g2.currentMoveNum ∧ g2.Move.moveNum > 0 then
      some (Session.fatalError H "Opponents move number mismatch error."
        { game := g2, Radio := R1 })
    else
      let r := H.generateResults g2.derived g2.Move g2.Results
      let g3 : baseGame G W :=
        { g2 with
            derived := r.1
            Results := r.2.1
            gameState := if r.2.2 then gameState_t.GAME_OVER else gameState_t.MY_TURN }
      let snd := basePacket.send (baseResultsClass W) L g3.Results
        (R1.log (Event.generateResults g2.Move r.2.2))
      some { game := { g3 with currentMoveNum := (g3.currentMoveNum + 1) % 65536 }
             Radio := snd.2 }

/-- The method `baseGame::gameOver`. -/
def baseGame.gameOver {G W : Type} (H : Handlers G W) (s : Session G W) : Session G W :=
  { game := { H.processGameOver s.game with gameState := gameState_t.OFFERING_GAME }
    Radio := s.Radio.log Event.processGameOver }

/-- The method `baseGame::loopContents`. -/
def baseGame.loopContents {G W : Type} (H : Handlers G W) (L : Layout) (s : Session G W) :
    Option (Session G W) :=
  match s.game.gameState with
  | gameState_t.OFFERING_GAME => some (baseGame.offeringGame H L s)
  | gameState_t.SEEKING_GAME => baseGame.seekingGame H L s
  | gameState_t.MY_TURN => baseGame.doMyTurn H L s
  | gameState_t.OPPONENTS_TURN => baseGame.doOpponentsTurn H L s
  | gameState_t.GAME_OVER => some (baseGame.gameOver H s)

/-- The trace entries made between the session `s` and the later session `t`. -/
def Session.traceSince {G W : Type} (s t : Session G W) : List (Event W) :=
  t.Radio.trace.drop s.Radio.trace.length

/-! ## A small game used to run the engine on concrete inputs -/

/-- Sizes of a 32-bit build: 4-byte pointers, a 16-byte `basePacket`, 20-byte Move and Results. -/
def demoLayout : Layout :=
  { sizeof_ptr := 4, sizeof_basePacket := 16, sizeof_Move := 20, sizeof_Results := 20 }

/-- Handlers of a toy game whose own data is a number. The move payload is that number; the
results echo the move number as the bundled games do (`resultsNum = Move->moveNum`) and end the
game on payload 9; the coin comes from the parity of the number; `fatalError` ends the game as
the bundled games do (`gameState= GAME_OVER`). -/
def demoHandlers : Handlers Nat Nat where
  decideMyMove := fun g _ => (g + 1, packetSubType_t.NORMAL_MOVE, g)
  generateResults := fun g m r =>
    (g, { r with resultsNum := m.moveNum,
                 subType := if m.payload = 9 then packetSubType_t.WIN_RESULTS
                            else packetSubType_t.NORMAL_RESULTS },
      decide (m.payload = 9))
  processResults := fun g r => (g, r, decide (r.subType = packetSubType_t.WIN_RESULTS))
  initialise := fun g => g
  coinFlip := fun g => (g, decide (g % 2 = 0))
  processGameOver := fun g => g
  fatalError := fun _ g => { g with gameState := gameState_t.GAME_OVER }
  processFlip := fun _ g => g
  foundGame := fun g => g

/-- A Move object as the `baseMove` constructor leaves it, with sequence number `n`. -/
def demoMove (n : Nat) : baseMove Nat :=
  { type := packetType_t.MOVE_PACKET, subType := packetSubType_t.NORMAL_MOVE, moveNum := n,
    payload := 0 }

/-- A Results object as the `baseResults` constructor leaves it, with sequence number `n`. -/
def demoResults (n : Nat) : baseResults Nat :=
  { type := packetType_t.RESULTS_PACKET, subType := packetSubType_t.NORMAL_RESULTS,
    resultsNum := n, payload := 0 }

/-- A session of player 1 in state `st` with counter `n`, the given link answers and an empty
trace. -/
def demoSession (st : gameState_t) (n : Nat) (acks : List Bool) (inbox : List (rxEvent Nat)) :
    Session Nat Nat :=
  { game := baseGame.new (demoMove 0) (demoResults 0) true n st 0
    Radio := { acks := acks, inbox := inbox, trace := [] } }

/-- The datagram of a control packet of type `t` and subtype `st` under `demoLayout`. -/
def demoControl (t : packetType_t) (st : packetSubType_t) : Datagram Nat :=
  { type := t, subType := st, body := none, len := 8 }

/-- The datagram of a Move numbered `n` with payload `w` under `demoLayout`. -/
def demoMoveDatagram (n w : Nat) : Datagram Nat :=
  { type := packetType_t.MOVE_PACKET, subType := packetSubType_t.NORMAL_MOVE,
    body := some (n, w), len := 12 }

/-- The datagram of a Result numbered `n` with subtype `st` under `demoLayout`. -/
def demoResultsDatagram (n : Nat) (st : packetSubType_t) : Datagram Nat :=
  { type := packetType_t.RESULTS_PACKET, subType := st, body := some (n, 0), len := 12 }

/-- Session of peer A in the witness and the counterexample of C3: counter `n`, its send will
be acknowledged, and the link will bring results number `n`. -/
def peerA (n : Nat) : Session Nat Nat :=
  demoSession gameState_t.MY_TURN n [true]
    [rxEvent.delivered (demoResultsDatagram n packetSubType_t.NORMAL_RESULTS)]

/-- Session of peer B in the witness and the counterexample of C3: counter `n`, and the link
will bring move number `n`. -/
def peerB (n : Nat) : Session Nat Nat :=
  demoSession gameState_t.OPPONENTS_TURN n [true] [rxEvent.delivered (demoMoveDatagram n 0)]

/-- An inbox for the seeking peer: an idle poll, the offer, a stray move, the found packet and
the flip packet with subtype `st`. -/
def seekerInbox (st : packetSubType_t) : List (rxEvent Nat) :=
  [rxEvent.idle,
   rxEvent.delivered (demoControl packetType_t.OFFERING_GAME_PACKET packetSubType_t.NO_SUBTYPE),
   rxEvent.delivered (demoMoveDatagram 1 0),
   rxEvent.delivered (demoControl packetType_t.FOUND_GAME_PACKET packetSubType_t.NO_SUBTYPE),
   rxEvent.delivered (demoControl packetType_t.COIN_FLIP_PACKET st)]

/-! ## Predicates on the trace of an offering step -/

/-- True on the entry of a timed wait that got a datagram of type `ACCEPTING_GAME_PACKET`. -/
def Event.isAccept {W : Type} : Event W → Bool
  | Event.recvTimeout _ _ (some d) => decide (d.type = packetType_t.ACCEPTING_GAME_PACKET)
  | _ => false

/-- The datagram of the control packet of type `t` and subtype `st` sent from a plain
`basePacket`. -/
def controlDatagram (W : Type) (L : Layout) (t : packetType_t) (st : packetSubType_t) :
    Datagram W :=
  { type := t, subType := st, body := none, len := packetLen L L.sizeof_basePacket }

/-- The accept path of an offering step that started with the game object `g`, had at most `k`
tries, made the trace entries `evs` and ended with the game object `g1`: some offers, the last
one answered by an accept, then one found packet and one flip packet whose subtype is the cast
of the coin; `coinFlip` called once, `fatalError` never; the coin decides the state. -/
def AcceptPath {G W : Type} (H : Handlers G W) (L : Layout) (k : Nat) (g g1 : baseGame G W)
    (evs : List (Event W)) : Prop :=
  ∃ (offers : List (Datagram W × Bool)) (st : packetSubType_t) (aF aC : Bool),
    sentPackets evs = offers ++
      [(controlDatagram W L packetType_t.FOUND_GAME_PACKET st, aF),
       (controlDatagram W L packetType_t.COIN_FLIP_PACKET
          (packetSubType_t.ofBool (H.coinFlip g.derived).2), aC)] ∧
    (∀ x ∈ offers, x.1.type = packetType_t.OFFERING_GAME_PACKET) ∧
    1 ≤ offers.length ∧ offers.length ≤ k ∧
    evs.countP Event.isAccept = 1 ∧
    evs.filter Event.isCoinFlip = [Event.coinFlip (H.coinFlip g.derived).2] ∧
    evs.countP Event.isFatal = 0 ∧
    g1 = { g with
            derived := (H.coinFlip g.derived).1
            gameState := if (H.coinFlip g.derived).2 then gameState_t.MY_TURN
                         else gameState_t.OPPONENTS_TURN }

/-- The give-up path of an offering step: `k` offers and nothing else sent, no accept received,
no callback called, and the state set to `SEEKING_GAME`. -/
def GiveUpPath {G W : Type} (k : Nat) (g g1 : baseGame G W) (evs : List (Event W)) : Prop :=
  (sentPackets evs).length = k ∧
  (∀ x ∈ sentPackets evs, x.1.type = packetType_t.OFFERING_GAME_PACKET) ∧
  evs.countP Event.isAccept = 0 ∧
  evs.countP Event.isCoinFlip = 0 ∧
  evs.countP Event.isFatal = 0 ∧
  g1 = { g with gameState := gameState_t.SEEKING_GAME }

/-! ## Predicates on traces and states used by the statements about steps -/

/-- True on the entry of a send of a datagram of type `OFFERING_GAME_PACKET`. -/
def Event.isOffer {W : Type} : Event W → Bool
  | Event.send d _ => decide (d.type = packetType_t.OFFERING_GAME_PACKET)
  | _ => false

/-- True on the entry of an acknowledged send of a datagram of type
`ACCEPTING_GAME_PACKET`. -/
def Event.isAcceptAcked {W : Type} : Event W → Bool
  | Event.send d true => decide (d.type = packetType_t.ACCEPTING_GAME_PACKET)
  | _ => false

/-- True on the entry of a `recv` that brought a datagram of type `t`. -/
def Event.isRecvOf {W : Type} (t : packetType_t) : Event W → Bool
  | Event.recv _ (some d) => decide (d.type = t)
  | _ => false

/-- True on the entries made by the radio operations: the sends and the receiving operations. -/
def Event.isRadio {W : Type} (e : Event W) : Bool :=
  e.isSend || e.isRx

/-- True on the entry made by a call of `processGameOver`. -/
def Event.isProcessGameOver {W : Type} : Event W → Bool
  | Event.processGameOver => true
  | _ => false

/-- True on the entries made by a call of `foundGame` or of `processFlip`. -/
def Event.isFoundOrFlip {W : Type} : Event W → Bool
  | Event.foundGame => true
  | Event.processFlip _ => true
  | _ => false

/-- The two turn states. -/
def gameState_t.isTurn : gameState_t → Bool
  | MY_TURN => true
  | OPPONENTS_TURN => true
  | _ => false

/-- The transition graph of the engine: `a.mayStepTo b` when one step may take state `a` to
state `b`. -/
def gameState_t.mayStepTo : gameState_t → gameState_t → Bool
  | OFFERING_GAME, b => b = MY_TURN || b = OPPONENTS_TURN || b = SEEKING_GAME
  | SEEKING_GAME, b => b = MY_TURN || b = OPPONENTS_TURN || b = SEEKING_GAME
  | MY_TURN, b => b = OPPONENTS_TURN || b = GAME_OVER || b = MY_TURN
  | OPPONENTS_TURN, b => b = MY_TURN || b = GAME_OVER || b = OPPONENTS_TURN
  | GAME_OVER, b => b = OFFERING_GAME

/-- A completed offer/accept handshake in the trace entries of one step. On the offering side:
a timed wait returned an accept and the coin was flipped. On the seeking side: an offer was
received, the accept was sent and acknowledged, and the found and the flip packets were
received. -/
def handshake {W : Type} (evs : List (Event W)) : Bool :=
  (evs.any Event.isAccept && evs.any Event.isCoinFlip) ||
  (evs.any (Event.isRecvOf packetType_t.OFFERING_GAME_PACKET) && evs.any Event.isAcceptAcked &&
    evs.any (Event.isRecvOf packetType_t.FOUND_GAME_PACKET) &&
    evs.any (Event.isRecvOf packetType_t.COIN_FLIP_PACKET))

/-- The main program `void loop() { Game.loopContents(); }` run `n` times; `none` when one of
the steps never returns. -/
def baseGame.mainLoop {G W : Type} (H : Handlers G W) (L : Layout) :
    Nat → Session G W → Option (Session G W)
  | 0, s => some s
  | n + 1, s => (baseGame.loopContents H L s).bind (baseGame.mainLoop H L n)

/-- The datagrams the receiving operations brought, in order. -/
def receivedPackets {W : Type} : List (Event W) → List (Datagram W)
  | [] => []
  | Event.recv _ (some d) :: es => d :: receivedPackets es
  | Event.recvTimeout _ _ (some d) :: es => d :: receivedPackets es
  | _ :: es => receivedPackets es

/-- The datagrams among what the receive attempts will meet, in order. -/
def deliveredPackets {W : Type} : List (rxEvent W) → List (Datagram W)
  | [] => []
  | rxEvent.delivered d :: xs => d :: deliveredPackets xs
  | _ :: xs => deliveredPackets xs

/-- The call `requireType(t)` on the object `p`, with the inbox `pre ++ delivered d :: rest`,
returns having consumed the inbox up to and including `d`: the rest of the inbox is `rest`, the
datagrams received are those of `pre` followed by `d`, nothing was sent, and the object has
type `t`. -/
def requireTypeConsumes {P W : Type} (C : PacketClass P W) (L : Layout) (t : packetType_t)
    (p : P) (acks : List Bool) (pre : List (rxEvent W)) (d : Datagram W)
    (rest : List (rxEvent W)) (tr : List (Event W)) : Prop :=
  ∃ (p1 : P) (evs : List (Event W)),
    basePacket.requireType C L t p ⟨acks, pre ++ rxEvent.delivered d :: rest, tr⟩ =
      some (p1, ⟨acks, rest, tr ++ evs⟩) ∧
    C.type p1 = t ∧
    receivedPackets evs = deliveredPackets pre ++ [d] ∧
    (∀ e ∈ evs, e.isRx = true)

/-- Two inboxes that are equal, or differ in one place where the first has a packet of a type
other than `ACCEPTING_GAME_PACKET` and the second has nothing. -/
def wrongTypeOrNothing {W : Type} (i j : List (rxEvent W)) : Prop :=
  i = j ∨ ∃ (pre : List (rxEvent W)) (d : Datagram W) (post : List (rxEvent W)),
    i = pre ++ rxEvent.delivered d :: post ∧ j = pre ++ rxEvent.idle :: post ∧
    d.type ≠ packetType_t.ACCEPTING_GAME_PACKET

/-- True on the entries that show an offer was accepted: a timed wait that got an accept, or an
acknowledged send of an accept. -/
def Event.isAcceptance {W : Type} (e : Event W) : Bool :=
  e.isAccept || e.isAcceptAcked

/-- The states of a game in progress or just ended: the two turn states and `GAME_OVER`. -/
def gameState_t.inGame : gameState_t → Bool
  | MY_TURN => true
  | OPPONENTS_TURN => true
  | GAME_OVER => true
  | _ => false

/-- The Move object that `doMyTurn` sends: the session's Move with the counter written into
`moveNum` and the subtype and payload that `decideMyMove` then gave. -/
def baseGame.sentMove {G W : Type} (H : Handlers G W) (g : baseGame G W) : baseMove W :=
  { g.Move with
      moveNum := g.currentMoveNum
      subType := (H.decideMyMove g.derived { g.Move with moveNum := g.currentMoveNum }).2.1
      payload := (H.decideMyMove g.derived { g.Move with moveNum := g.currentMoveNum }).2.2 }

/-- Handlers of the toy game for a game class that leaves `gameState` to the engine: no
override of `initialize`, so the base implementation runs, and a `fatalError` that only
reports. The other callbacks are those of `demoHandlers`. -/
def plainHandlers : Handlers Nat Nat :=
  { demoHandlers with
      initialise := baseGame.initialise
      fatalError := fun _ g => g }

/-- A session before `setup()`: the constructor has run, `gameState` and `currentMoveNum` hold
the indeterminate values `GAME_OVER` and 7; the link will acknowledge the first send and bring
an accept. -/
def freshSession : Session Nat Nat :=
  demoSession gameState_t.GAME_OVER 7 [true]
    [rxEvent.delivered (demoControl packetType_t.ACCEPTING_GAME_PACKET
      packetSubType_t.NO_SUBTYPE)]

/-- True on the entry of a timed wait, `recvTimeout`. -/
def Event.isTimedWait {W : Type} : Event W → Bool
  | Event.recvTimeout _ _ _ => true
  | _ => false

/-- True on the entry of an acknowledged send of a datagram of type `OFFERING_GAME_PACKET`. -/
def Event.isOfferAcked {W : Type} : Event W → Bool
  | Event.send d true => decide (d.type = packetType_t.OFFERING_GAME_PACKET)
  | _ => false

/-- The timeout argument of a timed wait. -/
def Event.waitTimeout {W : Type} : Event W → Option Nat
  | Event.recvTimeout _ T _ => some T
  | _ => none

/-- In the trace entries `evs` there are as many timed waits as acknowledged offers, and every
timed wait has the timeout `OFFERING_TIMEOUT`. -/
def WaitsMatchAcks {W : Type} (evs : List (Event W)) : Prop :=
  evs.countP Event.isTimedWait = evs.countP Event.isOfferAcked ∧
  ∀ e ∈ evs, ∀ T : Nat, e.waitTimeout = some T → T = OFFERING_TIMEOUT

/-- What the link brings to a peer that waits for move number 4: first a stray 8-byte offer,
then the 12-byte Move numbered 4 with payload 7. -/
def strayThenMove : List (rxEvent Nat) :=
  [rxEvent.delivered (demoControl packetType_t.OFFERING_GAME_PACKET packetSubType_t.NO_SUBTYPE),
   rxEvent.delivered (demoMoveDatagram 4 7)]

/-- A session in mid-game: three moves are completed, the counter is 4, the Move object still
holds move number 3, and the link will bring `strayThenMove`. -/
def midGameSession : Session Nat Nat :=
  { game := baseGame.new (demoMove 3) (demoResults 3) true 4 gameState_t.OPPONENTS_TURN 0
    Radio := { acks := [true], inbox := strayThenMove, trace := [] } }

/-- True on the entry made by a call of `initialize`. -/
def Event.isInitialise {W : Type} : Event W → Bool
  | Event.initialise => true
  | _ => false

/-! ## The bundled games: what the engine does not see

The three example games keep their state in global variables and draw on the screen; the
display, the sound and the delays have no effect on that state and are left out. A `switch` of
a value-returning method that handles only some subtypes lets control flow off the end of the
method on the others: the value the caller then reads is not determined by the source, and is
the field `flowOffEnd` of the game's state. An access through an index outside an array is
not represented: a store leaves the array as it was, a read gives the first enumerator. -/

/-- The cast `(packetSubType_t)n` of an integer within the enumeration. -/
def packetSubType_t.cast : Nat → packetSubType_t
  | 1 => NORMAL_MOVE
  | 2 => PASS_MOVE
  | 3 => QUIT_MOVE
  | 4 => NORMAL_RESULTS
  | 5 => HIT_RESULTS
  | 6 => MISS_RESULTS
  | 7 => WIN_RESULTS
  | 8 => LOSE_RESULTS
  | 9 => TIE_RESULTS
  | 10 => FLIP_TRUE
  | 11 => FLIP_FALSE
  | _ => NO_SUBTYPE

/-! ### Tic-tac-toe (`examples/tic-tac-toe/tictactoe.h`) -/

/-- The enumeration `squares_t`, the possible contents of a square. -/
inductive squares_t where
  | SQUARE_EMPTY
  | SQUARE_X
  | SQUARE_O
  deriving DecidableEq

/-- The enumeration `win_t`, the ways to win. -/
inductive win_t where
  | NO_WIN
  | TOP_ROW
  | MIDDLE_ROW
  | BOTTOM_ROW
  | LEFT_COLUMN
  | MIDDLE_COLUMN
  | RIGHT_COLUMN
  | DESCENDING_DIAGONAL
  | ASCENDING_DIAGONAL
  | TIE
  deriving DecidableEq

/-- The integer value of a `win_t` enumerator. -/
def win_t.toNat : win_t → Nat
  | NO_WIN => 0
  | TOP_ROW => 1
  | MIDDLE_ROW => 2
  | BOTTOM_ROW => 3
  | LEFT_COLUMN => 4
  | MIDDLE_COLUMN => 5
  | RIGHT_COLUMN => 6
  | DESCENDING_DIAGONAL => 7
  | ASCENDING_DIAGONAL => 8
  | TIE => 9

/-- The cast `(win_t)n` of an integer within the enumeration. -/
def win_t.cast : Nat → win_t
  | 1 => TOP_ROW
  | 2 => MIDDLE_ROW
  | 3 => BOTTOM_ROW
  | 4 => LEFT_COLUMN
  | 5 => MIDDLE_COLUMN
  | 6 => RIGHT_COLUMN
  | 7 => DESCENDING_DIAGONAL
  | 8 => ASCENDING_DIAGONAL
  | 9 => TIE
  | _ => NO_WIN

/-- The global variables of the tic-tac-toe game that its Results methods use: `board[9]`,
`mySymbol`, `opponentsSymbol`. -/
structure TTT_Globals where
  board : List squares_t
  mySymbol : squares_t
  opponentsSymbol : squares_t
  flowOffEnd : Bool

/-- The read `board[i]`. -/
def TTT_Globals.sq (g : TTT_Globals) (i : Nat) : squares_t :=
  g.board.getD i squares_t.SQUARE_EMPTY

/-- The function `checkForWin`: the count of the empty squares and the return of `TIE`, then the
loop over `i = 0, 1, 2` that tests row `i` and then column `i`, then the two diagonals. -/
def checkForWin (g : TTT_Globals) : win_t :=
  let countEmpty := (List.range 9).countP fun i => decide (g.sq i = squares_t.SQUARE_EMPTY)
  if countEmpty = 0 then win_t.TIE
  else
    match (List.range 3).findSome? fun i =>
        if g.sq (i * 3) = g.opponentsSymbol ∧ g.sq (i * 3) = g.sq (i * 3 + 1) ∧
            g.sq (i * 3) = g.sq (i * 3 + 2) then
          some (win_t.cast (win_t.TOP_ROW.toNat + i))
        else if g.sq i = g.opponentsSymbol ∧ g.sq i = g.sq (i + 3) ∧
            g.sq i = g.sq (i + 6) then
          some (win_t.cast (win_t.LEFT_COLUMN.toNat + i))
        else none with
    | some w => w
    | none =>
      if g.sq 0 = g.opponentsSymbol ∧ g.sq 0 = g.sq 4 ∧ g.sq 0 = g.sq 8 then
        win_t.DESCENDING_DIAGONAL
      else if g.sq 2 = g.opponentsSymbol ∧ g.sq 2 = g.sq 4 ∧ g.sq 2 = g.sq 6 then
        win_t.ASCENDING_DIAGONAL
      else win_t.NO_WIN

/-- The method `TTT_Results::generateResults`. The payload of the Move is its `square`, that of
the Results is the integer value of its `Win`. -/
def TTT_Results.generateResults (g : TTT_Globals) (M : baseMove Nat) (r : baseResults Nat) :
    TTT_Globals × baseResults Nat × Bool :=
  let g1 : TTT_Globals := { g with board := g.board.set M.payload g.opponentsSymbol }
  let r1 : baseResults Nat := { r with resultsNum := M.moveNum }
  match M.subType with
  | packetSubType_t.NORMAL_MOVE =>
    let r2 : baseResults Nat := { r1 with payload := (checkForWin g1).toNat }
    match checkForWin g1 with
    | win_t.TIE => (g1, { r2 with subType := packetSubType_t.TIE_RESULTS }, true)
    | win_t.NO_WIN => (g1, { r2 with subType := packetSubType_t.NORMAL_RESULTS }, false)
    | _ => (g1, { r2 with subType := packetSubType_t.WIN_RESULTS }, true)
  | packetSubType_t.QUIT_MOVE =>
    (g1, { r1 with subType := packetSubType_t.LOSE_RESULTS }, true)
  | _ => (g1, r1, g.flowOffEnd)

/-- The method `TTT_Results::processResults`. -/
def TTT_Results.processResults (g : TTT_Globals) (r : baseResults Nat) :
    TTT_Globals × baseResults Nat × Bool :=
  match r.subType with
  | packetSubType_t.NORMAL_RESULTS => (g, r, false)
  | packetSubType_t.WIN_RESULTS => (g, r, true)
  | packetSubType_t.TIE_RESULTS => (g, r, true)
  | packetSubType_t.LOSE_RESULTS => (g, r, true)
  | _ => (g, r, g.flowOffEnd)

/-- The board of player O before the ninth move of a game: X holds squares 0, 2, 4, 7, O holds
1, 3, 5, 8, and square 6 is empty. -/
def lastSquareBoard : TTT_Globals :=
  { board := [squares_t.SQUARE_X, squares_t.SQUARE_O, squares_t.SQUARE_X,
              squares_t.SQUARE_O, squares_t.SQUARE_X, squares_t.SQUARE_O,
              squares_t.SQUARE_EMPTY, squares_t.SQUARE_X, squares_t.SQUARE_O]
    mySymbol := squares_t.SQUARE_O
    opponentsSymbol := squares_t.SQUARE_X
    flowOffEnd := false }

/-- The ninth move: X takes square 6. -/
def lastSquareMove : baseMove Nat :=
  { type := packetType_t.MOVE_PACKET, subType := packetSubType_t.NORMAL_MOVE, moveNum := 9,
    payload := 6 }

/-! ### The demonstration game (`examples/myDemoDebug/myDemoDebug.h`) -/

/-- What the Results methods of the demonstration game use besides their arguments: the values
the successive calls of `random()` will return. -/
structure myDemo_Globals where
  randoms : List Nat
  flowOffEnd : Bool

/-- The conversion of an `int` to `int16_t`. -/
def int16_t (x : Int) : Int :=
  (x + 32768) % 65536 - 32768

/-- The method `myDemoResults::generateResults`. The payload of the Move is `Data[4]`, that of
the Results is its `Data`; `random(3)` is the next value of the source modulo 3. -/
def myDemoResults.generateResults (g : myDemo_Globals) (M : baseMove (List Int))
    (r : baseResults (List Int)) : myDemo_Globals × baseResults (List Int) × Bool :=
  let Data : Int := int16_t (M.payload.getD 0 0 + M.payload.getD 1 0 + M.payload.getD 2 0)
  let r1 : baseResults (List Int) := { r with resultsNum := M.moveNum, payload := [Data] }
  match M.subType with
  | packetSubType_t.NORMAL_MOVE =>
    if M.payload.getD 3 0 = Data then
      (g, { r1 with subType := packetSubType_t.WIN_RESULTS }, true)
    else if M.payload.getD 3 0 = -Data then
      (g, { r1 with subType := packetSubType_t.LOSE_RESULTS }, true)
    else if M.payload.getD 0 0 = M.payload.getD 1 0 ∧ M.payload.getD 0 0 = M.payload.getD 2 0 ∧
        M.payload.getD 0 0 = M.payload.getD 3 0 then
      (g, { r1 with subType := packetSubType_t.TIE_RESULTS }, true)
    else
      let st : packetSubType_t :=
        packetSubType_t.cast (packetSubType_t.NORMAL_RESULTS.toNat + g.randoms.headD 0 % 3)
      ({ g with randoms := g.randoms.tail }, { r1 with subType := st }, false)
  | packetSubType_t.PASS_MOVE =>
    (g, { r1 with subType := packetSubType_t.NORMAL_RESULTS }, false)
  | packetSubType_t.QUIT_MOVE =>
    (g, { r1 with subType := packetSubType_t.LOSE_RESULTS }, true)
  | _ => (g, r1, g.flowOffEnd)

/-- The method `myDemoResults::processResults`. -/
def myDemoResults.processResults (g : myDemo_Globals) (r : baseResults (List Int)) :
    myDemo_Globals × baseResults (List Int) × Bool :=
  match r.subType with
  | packetSubType_t.NORMAL_RESULTS => (g, r, false)
  | packetSubType_t.HIT_RESULTS => (g, r, false)
  | packetSubType_t.MISS_RESULTS => (g, r, false)
  | packetSubType_t.WIN_RESULTS => (g, r, true)
  | packetSubType_t.LOSE_RESULTS => (g, r, true)
  | packetSubType_t.TIE_RESULTS => (g, r, true)
  | _ => (g, r, g.flowOffEnd)

/-! ### Battleship (`examples/battleship/Battleship.h`, `board_setup.h`) -/

/-- The enumeration `grid_t`, the possible contents of a grid location. -/
inductive grid_t where
  | GRID_EMPTY
  | GRID_MISS
  | GRID_HIT
  | GRID_SHIP_HIT
  | GRID_CURSOR
  | GRID_SHIP_0
  | GRID_SHIP_1
  | GRID_SHIP_2
  | GRID_SHIP_3
  | GRID_SHIP_4
  deriving DecidableEq

/-- The integer value of a `grid_t` enumerator. -/
def grid_t.toNat : grid_t → Nat
  | GRID_EMPTY => 0
  | GRID_MISS => 1
  | GRID_HIT => 2
  | GRID_SHIP_HIT => 3
  | GRID_CURSOR => 4
  | GRID_SHIP_0 => 5
  | GRID_SHIP_1 => 6
  | GRID_SHIP_2 => 7
  | GRID_SHIP_3 => 8
  | GRID_SHIP_4 => 9

/-- The cast `(grid_t)n` of an integer within the enumeration. -/
def grid_t.cast : Nat → grid_t
  | 1 => GRID_MISS
  | 2 => GRID_HIT
  | 3 => GRID_SHIP_HIT
  | 4 => GRID_CURSOR
  | 5 => GRID_SHIP_0
  | 6 => GRID_SHIP_1
  | 7 => GRID_SHIP_2
  | 8 => GRID_SHIP_3
  | 9 => GRID_SHIP_4
  | _ => GRID_EMPTY

/-- The structure `ship_t` without its two strings: `int8_t index`, `uint8_t hits`,
`bool vertical`, `bool sunk`, `const uint8_t length`. -/
structure ship_t where
  index : Int
  hits : Nat
  vertical : Bool
  sunk : Bool
  length : Nat
  deriving DecidableEq

/-- The data members the Battleship packet classes add: `BShip_Move` adds `shot`;
`BShip_Results` adds `shipDestroyed` and `shot`. A Move does not use `shipDestroyed`. -/
structure BShip_Fields where
  shipDestroyed : Int
  shot : Nat
  deriving DecidableEq

/-- The global variables of Battleship: `Ships[5]`, `EnemyShips[5]`, `EnemyHits`, `radar[100]`,
`sea[100]`. -/
structure BShip_Globals where
  Ships : List ship_t
  EnemyShips : List Bool
  EnemyHits : Nat
  radar : List grid_t
  sea : List grid_t
  flowOffEnd : Bool

/-- The read `Ships[i]`. -/
def BShip_Globals.ship (g : BShip_Globals) (i : Nat) : ship_t :=
  g.Ships.getD i { index := -1, hits := 0, vertical := false, sunk := false, length := 0 }

/-- The index expression `Ships[i].index + ((Ships[i].vertical)?j*10:j)`, an `int`. -/
def ship_t.square (s : ship_t) (j : Nat) : Int :=
  s.index + (if s.vertical then (j : Int) * 10 else (j : Int))

/-- The store `a[i] = v` through an `int` index. -/
def storeAt {α : Type} (a : List α) (i : Int) (v : α) : List α :=
  if 0 ≤ i then a.set i.toNat v else a

/-- The function `testLoc(i)`: true if there is a conflict. `Testing` is a `uint8_t`. -/
def testLoc (g : BShip_Globals) (i : Nat) : Bool :=
  let s := g.ship i
  if (if s.vertical then decide (s.index + 10 * ((s.length : Int) - 1) > 100)
      else decide (Int.tdiv s.index 10 < Int.tdiv (s.index + (s.length : Int) - 1) 10)) then
    true
  else
    (List.range i).any fun j =>
      decide (i ≠ j) && (List.range s.length).any fun k =>
        decide (g.sea.getD ((s.square k) % 256).toNat grid_t.GRID_EMPTY ≠ grid_t.GRID_EMPTY)

/-- The function `placeShip(i)`. -/
def placeShip (g : BShip_Globals) (i : Nat) : BShip_Globals :=
  { g with
      sea := (List.range (g.ship i).length).foldl
        (fun sea j => storeAt sea ((g.ship i).square j)
          (grid_t.cast (grid_t.GRID_SHIP_0.toNat + i)))
        g.sea }

/-- The method `BShip_Game::initialize` with the compile-time switch `SELF_TEST` off. The call
`placeShips()`, a menu with random or manual placement, is represented by its outcome, the
array `placed` it leaves in `Ships`; the squares it writes are those the loop writes again. -/
def BShip_Game.newGame (placed : List ship_t) (g : BShip_Globals) : BShip_Globals :=
  let g1 : BShip_Globals :=
    { g with
        sea := List.replicate 100 grid_t.GRID_EMPTY
        radar := List.replicate 100 grid_t.GRID_EMPTY
        Ships := placed }
  let g2 : BShip_Globals := (List.range 5).foldl
    (fun h i =>
      { h with
          EnemyShips := h.EnemyShips.set i false
          sea := (List.range (h.ship i).length).foldl
            (fun (sea : List grid_t) (j : Nat) => storeAt sea
              ((h.ship i).index + (j : Int) * (if (h.ship i).vertical then 10 else 1))
              (if (h.ship i).sunk then grid_t.GRID_HIT
               else grid_t.cast (grid_t.GRID_SHIP_0.toNat + i)))
            h.sea })
    g1
  { g2 with EnemyHits := 0 }

/-- The method `BShip_Results::generateResults`. -/
def BShip_Results.generateResults (g : BShip_Globals) (M : baseMove BShip_Fields)
    (r : baseResults BShip_Fields) : BShip_Globals × baseResults BShip_Fields × Bool :=
  let shot := M.payload.shot
  let r1 : baseResults BShip_Fields :=
    { r with resultsNum := M.moveNum, payload := { shipDestroyed := -1, shot := shot } }
  match M.subType with
  | packetSubType_t.NORMAL_MOVE =>
    if grid_t.GRID_SHIP_0.toNat ≤ (g.sea.getD shot grid_t.GRID_EMPTY).toNat then
      let shipHit := (g.sea.getD shot grid_t.GRID_EMPTY).toNat - grid_t.GRID_SHIP_0.toNat
      let hit : ship_t := { g.ship shipHit with hits := ((g.ship shipHit).hits + 1) % 256 }
      let sunkNow : Bool := decide (hit.length = hit.hits)
      let g1 : BShip_Globals :=
        { g with
            sea := g.sea.set shot grid_t.GRID_HIT
            Ships := g.Ships.set shipHit (if sunkNow then { hit with sunk := true } else hit)
            EnemyHits := (g.EnemyHits + 1) % 256 }
      let r2 : baseResults BShip_Fields :=
        if sunkNow then { r1 with payload := { shipDestroyed := shipHit, shot := shot } }
        else r1
      if g1.EnemyHits = 17 then
        (g1, { r2 with subType := packetSubType_t.WIN_RESULTS }, true)
      else (g1, { r2 with subType := packetSubType_t.HIT_RESULTS }, false)
    else
      ({ g with sea := g.sea.set shot grid_t.GRID_MISS },
        { r1 with subType := packetSubType_t.MISS_RESULTS }, false)
  | packetSubType_t.QUIT_MOVE =>
    (g, { r1 with subType := packetSubType_t.LOSE_RESULTS }, true)
  | _ => (g, r1, g.flowOffEnd)

/-- The method `BShip_Results::processResults`. -/
def BShip_Results.processResults (g : BShip_Globals) (r : baseResults BShip_Fields) :
    BShip_Globals × baseResults BShip_Fields × Bool :=
  let hit : BShip_Globals :=
    { g with
        radar := g.radar.set r.payload.shot grid_t.GRID_HIT
        EnemyShips := if 0 ≤ r.payload.shipDestroyed then
            g.EnemyShips.set r.payload.shipDestroyed.toNat true
          else g.EnemyShips }
  match r.subType with
  | packetSubType_t.MISS_RESULTS =>
    ({ g with radar := g.radar.set r.payload.shot grid_t.GRID_MISS }, r, false)
  | packetSubType_t.WIN_RESULTS => (hit, r, true)
  | packetSubType_t.HIT_RESULTS => (hit, r, false)
  | packetSubType_t.LOSE_RESULTS => (g, r, true)
  | _ => (g, r, g.flowOffEnd)

/-- The five ships with the lengths of the source, not yet hit, as `placeShips()` may leave
them: the Carrier vertical at index 60, the others horizontal in the first four rows. -/
def carrierAtSixty : List ship_t :=
  [{ index := 60, hits := 0, vertical := true, sunk := false, length := 5 },
   { index := 0, hits := 0, vertical := false, sunk := false, length := 4 },
   { index := 10, hits := 0, vertical := false, sunk := false, length := 3 },
   { index := 20, hits := 0, vertical := false, sunk := false, length := 3 },
   { index := 30, hits := 0, vertical := false, sunk := false, length := 2 }]

/-- The globals when `placeShips()` tests the Carrier: the sea and the radar are empty. -/
def emptySea (ships : List ship_t) : BShip_Globals :=
  { Ships := ships
    EnemyShips := List.replicate 5 false
    EnemyHits := 0
    radar := List.replicate 100 grid_t.GRID_EMPTY
    sea := List.replicate 100 grid_t.GRID_EMPTY
    flowOffEnd := false }

/-- A handler set for two tic-tac-toe devices: the Results methods are those of the source;
`initialize` and `processGameOver` clear the board and `fatalError` ends the game, as in the
source; `decideMyMove`, which reads the buttons, stands for a player who presses SELECT with
the cursor where it starts, on the first empty square, and `coinFlip`, which draws a random
number, for a draw of 1. -/
def tttHandlers : Handlers TTT_Globals Nat where
  decideMyMove := fun g _ =>
    let square : Nat := ((List.range 9).findSome? fun i =>
      if g.sq i = squares_t.SQUARE_EMPTY then some i else none).getD 9
    ({ g with board := g.board.set square g.mySymbol }, packetSubType_t.NORMAL_MOVE, square)
  generateResults := TTT_Results.generateResults
  processResults := TTT_Results.processResults
  initialise := fun g =>
    { g with derived := { g.derived with board := List.replicate 9 squares_t.SQUARE_EMPTY } }
  coinFlip := fun g => (g, true)
  processGameOver := fun g =>
    { g with derived := { g.derived with board := List.replicate 9 squares_t.SQUARE_EMPTY } }
  fatalError := fun _ g => { g with gameState := gameState_t.GAME_OVER }
  processFlip := fun _ g => g
  foundGame := fun g => g

/-- Player O waits for the ninth move with `lastSquareBoard`; the link will bring it. -/
def tttAnswerer : Session TTT_Globals Nat :=
  { game := baseGame.new (demoMove 8) (demoResults 8) false 9 gameState_t.OPPONENTS_TURN
      lastSquareBoard
    Radio := { acks := [true], inbox := [rxEvent.delivered (demoMoveDatagram 9 6)],
               trace := [] } }

/-- Player X is about to make the ninth move; its board is `lastSquareBoard` seen from the other
side. The link will acknowledge the Move and bring the Result numbered 9 with subtype `st`. -/
def tttMover (st : packetSubType_t) : Session TTT_Globals Nat :=
  { game := baseGame.new (demoMove 8) (demoResults 8) true 9 gameState_t.MY_TURN
      { lastSquareBoard with
          mySymbol := squares_t.SQUARE_X, opponentsSymbol := squares_t.SQUARE_O }
    Radio := { acks := [true], inbox := [rxEvent.delivered (demoResultsDatagram 9 st)],
               trace := [] } }

/-- The game-ended flag of `gen` on a Move whose subtype it handles is the flag `proc` gives
on a Results object that carries the subtype `gen` produced, whatever the rest of that object
and the state of the device that runs `proc`. -/
def EndAgreed {G W : Type}
    (gen : G → baseMove W → baseResults W → G × baseResults W × Bool)
    (proc : G → baseResults W → G × baseResults W × Bool)
    (handled : packetSubType_t → Bool) : Prop :=
  ∀ (g : G) (M : baseMove W) (r : baseResults W) (g2 : G) (res : baseResults W),
    handled M.subType = true → res.subType = (gen g M r).2.1.subType →
    (proc g2 res).2.2 = (gen g M r).2.2

/-- The Move subtypes that the `switch` of `generateResults` handles in tic-tac-toe and in
Battleship: `NORMAL_MOVE` and `QUIT_MOVE`. -/
def normalOrQuit (st : packetSubType_t) : Bool :=
  decide (st = packetSubType_t.NORMAL_MOVE) || decide (st = packetSubType_t.QUIT_MOVE)

/-- The Move subtypes that the `switch` of `generateResults` handles in the demonstration game:
`NORMAL_MOVE`, `PASS_MOVE` and `QUIT_MOVE`. -/
def normalPassOrQuit (st : packetSubType_t) : Bool :=
  decide (st = packetSubType_t.NORMAL_MOVE) || decide (st = packetSubType_t.PASS_MOVE) ||
    decide (st = packetSubType_t.QUIT_MOVE)

/-- The number of squares of the sea that still carry ship `i`, not yet hit. -/
def BShip_Globals.afloat (g : BShip_Globals) (i : Nat) : Nat :=
  g.sea.count (grid_t.cast (grid_t.GRID_SHIP_0.toNat + i))

/-- The number of squares of the sea that still carry a ship. -/
def BShip_Globals.afloatAll (g : BShip_Globals) : Nat :=
  g.afloat 0 + g.afloat 1 + g.afloat 2 + g.afloat 3 + g.afloat 4

/-- The sum of the hit counts of the five ships. -/
def BShip_Globals.hitsAll (g : BShip_Globals) : Nat :=
  (g.ship 0).hits + (g.ship 1).hits + (g.ship 2).hits + (g.ship 3).hits + (g.ship 4).hits

/-- The state of a board in play: the sea has 100 squares, the five ships have the lengths 5, 4,
3, 3, 2, the hits of each ship and its squares still on the sea add up to its length, a ship is
marked sunk exactly when its hits equal its length, and `EnemyHits` is the sum of the hit
counts. -/
def Fleet (g : BShip_Globals) : Prop :=
  g.sea.length = 100 ∧ g.Ships.map ship_t.length = [5, 4, 3, 3, 2] ∧
  (∀ i : Nat, i < 5 → (g.ship i).hits + g.afloat i = (g.ship i).length) ∧
  (∀ i : Nat, i < 5 → ((g.ship i).sunk = true ↔ (g.ship i).hits = (g.ship i).length)) ∧
  g.EnemyHits = g.hitsAll

/-- A freshly set up board: the sea has 100 squares, the five ships have the lengths 5, 4, 3,
3, 2 and each of them lies on the sea with all its squares, which is what a placement on
disjoint squares of the board gives; no ship has a hit or is marked sunk, and `EnemyHits` is
0. -/
def FreshFleet (g : BShip_Globals) : Prop :=
  g.sea.length = 100 ∧ g.Ships.map ship_t.length = [5, 4, 3, 3, 2] ∧
  (∀ i : Nat, i < 5 →
    (g.ship i).hits = 0 ∧ (g.ship i).sunk = false ∧ g.afloat i = (g.ship i).length) ∧
  g.EnemyHits = 0

/-- True when the square `shot` of the sea carries a ship that was not hit there. -/
def BShip_Globals.isShipSquare (g : BShip_Globals) (shot : Nat) : Bool :=
  decide (grid_t.GRID_SHIP_0.toNat ≤ (g.sea.getD shot grid_t.GRID_EMPTY).toNat)

/-- The successive calls of `generateResults` on the Moves `moves`, each on the Results object
the call before left: the final globals and Results object. -/
def BShip_play (g : BShip_Globals) (r : baseResults BShip_Fields) :
    List (baseMove BShip_Fields) → BShip_Globals × baseResults BShip_Fields
  | [] => (g, r)
  | M :: moves =>
    BShip_play (BShip_Results.generateResults g M r).1
      (BShip_Results.generateResults g M r).2.1 moves

/-- The squares the five ships lie on, in the order of the ships. -/
def shipSquares (ships : List ship_t) : List Int :=
  ships.flatMap fun s => (List.range s.length).map s.square

/-- Five ships as `placeShips()` may leave them: not hit, horizontal, one in each of the first
five rows. -/
def rowFleet : List ship_t :=
  [{ index := 0, hits := 0, vertical := false, sunk := false, length := 5 },
   { index := 10, hits := 0, vertical := false, sunk := false, length := 4 },
   { index := 20, hits := 0, vertical := false, sunk := false, length := 3 },
   { index := 30, hits := 0, vertical := false, sunk := false, length := 3 },
   { index := 40, hits := 0, vertical := false, sunk := false, length := 2 }]

/-- The Move numbered `n` that fires at the square `shot`. -/
def shotAt (n shot : Nat) : baseMove BShip_Fields :=
  { type := packetType_t.MOVE_PACKET, subType := packetSubType_t.NORMAL_MOVE, moveNum := n,
    payload := { shipDestroyed := 0, shot := shot } }

/-- Sixteen Moves that hit every square of `rowFleet` but square 41. -/
def sixteenHits : List (baseMove BShip_Fields) :=
  [shotAt 1 0, shotAt 2 1, shotAt 3 2, shotAt 4 3, shotAt 5 4, shotAt 6 10, shotAt 7 11,
   shotAt 8 12, shotAt 9 13, shotAt 10 20, shotAt 11 21, shotAt 12 22, shotAt 13 30,
   shotAt 14 31, shotAt 15 32, shotAt 16 40]

/-- A Results object of Battleship as its constructor leaves it. -/
def BShip_noResults : baseResults BShip_Fields :=
  { type := packetType_t.RESULTS_PACKET, subType := packetSubType_t.NORMAL_RESULTS,
    resultsNum := 0, payload := { shipDestroyed := -1, shot := 0 } }

/-! ## Theorems -/

/-! ### General facts about traces and waits -/

theorem sentPackets_append {W : Type} (a b : List (Event W)) :
    sentPackets (a ++ b) = sentPackets a ++ sentPackets b := by
  induction a with
  | nil => rfl
  | cons e es ih => cases e <;> simp [sentPackets, ih]

theorem sentPackets_of_isRx {W : Type} (evs : List (Event W))
    (h : ∀ e ∈ evs, e.isRx = true) : sentPackets evs = [] := by
  induction evs with
  | nil => rfl
  | cons e es ih =>
    have he := h e (List.mem_cons_self e es)
    have hes : ∀ x ∈ es, x.isRx = true := fun x hx => h x (List.mem_cons_of_mem e hx)
    cases e <;> simp_all [sentPackets, Event.isRx]

theorem countP_of_isRx {W : Type} (q : Event W → Bool) (evs : List (Event W))
    (hq : ∀ e, e.isRx = true → q e = false) (h : ∀ e ∈ evs, e.isRx = true) :
    evs.countP q = 0 := by
  rw [List.countP_eq_zero]
  intro e he
  simp [hq e (h e he)]

theorem filter_of_isRx {W : Type} (q : Event W → Bool) (evs : List (Event W))
    (hq : ∀ e, e.isRx = true → q e = false) (h : ∀ e ∈ evs, e.isRx = true) :
    evs.filter q = [] := by
  rw [List.filter_eq_nil_iff]
  intro e he
  simp [hq e (h e he)]

theorem isRx_not_processResults {W : Type} (e : Event W) (h : e.isRx = true) :
    e.isProcessResults = false := by
  cases e <;> simp_all [Event.isRx, Event.isProcessResults]

theorem isRx_not_generateResults {W : Type} (e : Event W) (h : e.isRx = true) :
    e.isGenerateResults = false := by
  cases e <;> simp_all [Event.isRx, Event.isGenerateResults]

theorem isRx_not_fatal {W : Type} (e : Event W) (h : e.isRx = true) :
    e.isFatal = false := by
  cases e <;> simp_all [Event.isRx, Event.isFatal]

theorem isRx_not_coinFlip {W : Type} (e : Event W) (h : e.isRx = true) :
    e.isCoinFlip = false := by
  cases e <;> simp_all [Event.isRx, Event.isCoinFlip]

theorem traceSince_eq {G W : Type} (s t : Session G W) (evs : List (Event W))
    (h : t.Radio.trace = s.Radio.trace ++ evs) : s.traceSince t = evs := by
  simp [Session.traceSince, h]

/-- When the loop of `requireType` exits, the object holds a packet of the required type, and
the loop has made receive entries only. -/
theorem requireTypeLoop_exit {P W : Type} (C : PacketClass P W) (L : Layout) (t : packetType_t) :
    ∀ (inbox : List (rxEvent W)) (len : Nat) (p p1 : P) (rest : List (rxEvent W))
      (evs : List (Event W)),
      basePacket.requireTypeLoop C L t inbox len p = some (p1, rest, evs) →
      C.type p1 = t ∧ ∀ e ∈ evs, e.isRx = true := by
  intro inbox
  induction inbox with
  | nil => intro len p p1 rest evs h; simp [basePacket.requireTypeLoop] at h
  | cons x xs ih =>
    intro len p p1 rest evs h
    cases x with
    | idle =>
      simp only [basePacket.requireTypeLoop, Option.map_eq_some'] at h
      obtain ⟨r, hr, heq⟩ := h
      obtain ⟨q1, q2, q3⟩ := r
      simp only [Prod.mk.injEq] at heq
      obtain ⟨h1, h2, h3⟩ := heq
      subst h1 h2 h3
      have := ih len p q1 q2 q3 hr
      refine ⟨this.1, ?_⟩
      intro e he
      simp only [List.mem_cons] at he
      rcases he with he | he
      · subst he; rfl
      · exact this.2 e he
    | failed =>
      simp only [basePacket.requireTypeLoop, Option.map_eq_some'] at h
      obtain ⟨r, hr, heq⟩ := h
      obtain ⟨q1, q2, q3⟩ := r
      simp only [Prod.mk.injEq] at heq
      obtain ⟨h1, h2, h3⟩ := heq
      subst h1 h2 h3
      have := ih len p q1 q2 q3 hr
      refine ⟨this.1, ?_⟩
      intro e he
      simp only [List.mem_cons] at he
      rcases he with he | he | he
      · subst he; rfl
      · subst he; rfl
      · exact this.2 e he
    | delivered d =>
      simp only [basePacket.requireTypeLoop] at h
      split at h
      · rename_i hty
        simp only [Option.some.injEq, Prod.mk.injEq] at h
        obtain ⟨h1, h2, h3⟩ := h
        subst h1 h2 h3
        refine ⟨hty, ?_⟩
        intro e he
        simp only [List.mem_cons, List.mem_singleton, List.not_mem_nil, or_false] at he
        rcases he with he | he
        · subst he; rfl
        · subst he; rfl
      · simp only [Option.map_eq_some'] at h
        obtain ⟨r, hr, heq⟩ := h
        obtain ⟨q1, q2, q3⟩ := r
        simp only [Prod.mk.injEq] at heq
        obtain ⟨h1, h2, h3⟩ := heq
        subst h1 h2 h3
        have := ih _ _ q1 q2 q3 hr
        refine ⟨this.1, ?_⟩
        intro e he
        simp only [List.mem_cons] at he
        rcases he with he | he | he
        · subst he; rfl
        · subst he; rfl
        · exact this.2 e he

/-! ### The turn states -/

/-- C1. `doMyTurn`, success path. For every session with counter `n`: if the Move send is
acknowledged and the wait for the results returns with a Results object whose `resultsNum` is
`n`, then the step returns; it sent exactly one datagram, acknowledged, which is the Move object
and carries `moveNum = n`; `processResults` was called exactly once and `fatalError` never;
`gameState` is `GAME_OVER` when `processResults` returned true and `OPPONENTS_TURN` when it
returned false; and `currentMoveNum` is `n + 1` modulo `2^16`. -/
theorem doMyTurn_success {G W : Type} (H : Handlers G W) (L : Layout) (s : Session G W)
    (n : Nat) (acks : List Bool) (res : baseResults W) (rest : List (rxEvent W))
    (evs : List (Event W))
    (hn : s.game.currentMoveNum = n)
    (hack : s.Radio.acks = true :: acks)
    (hrecv : basePacket.requireTypeLoop (baseResultsClass W) L packetType_t.RESULTS_PACKET
      s.Radio.inbox (packetLen L L.sizeof_Results) s.game.Results = some (res, rest, evs))
    (hnum : res.resultsNum = n) :
    ∃ t : Session G W, baseGame.doMyTurn H L s = some t ∧
      sentPackets (s.traceSince t) = [((baseMoveClass W).image L t.game.Move, true)] ∧
      ((baseMoveClass W).image L t.game.Move).body = some (n, t.game.Move.payload) ∧
      (s.traceSince t).filter Event.isProcessResults =
        [Event.processResults (H.processResults (H.decideMyMove s.game.derived
          { s.game.Move with moveNum := n }).1 res).2.2] ∧
      (s.traceSince t).countP Event.isFatal = 0 ∧
      t.game.gameState =
        (if (H.processResults (H.decideMyMove s.game.derived
            { s.game.Move with moveNum := n }).1 res).2.2
          then gameState_t.GAME_OVER else gameState_t.OPPONENTS_TURN) ∧
      t.game.currentMoveNum = (n + 1) % 65536 := by
  obtain ⟨-, hrx⟩ := requireTypeLoop_exit _ L _ _ _ _ _ _ _ hrecv
  subst hn
  have hne : ¬ res.resultsNum ≠ s.game.currentMoveNum := by simp [hnum]
  have hrecv2 : basePacket.requireTypeLoop (baseResultsClass W) L packetType_t.RESULTS_PACKET
      s.Radio.inbox (packetLen L ((baseResultsClass W).my_size L)) s.game.Results
      = some (res, rest, evs) := hrecv
  generalize hdo : baseGame.doMyTurn H L s = r
  simp only [baseGame.doMyTurn, basePacket.send, baseRadio.send, baseRadio.log, hack,
    baseResults.require, basePacket.requireType, hrecv2, hne, if_false] at hdo
  subst hdo
  refine ⟨_, rfl, ?_, ?_, ?_, ?_, ?_, ?_⟩
  · simp [Session.traceSince, sentPackets_append, sentPackets, sentPackets_of_isRx evs hrx]
  · simp [PacketClass.image, baseMoveClass]
  · simp [Session.traceSince, List.filter_append, Event.isProcessResults,
      filter_of_isRx _ evs isRx_not_processResults hrx]
  · simp [Session.traceSince, Event.isFatal, countP_of_isRx _ evs isRx_not_fatal hrx]
  · simp
  · simp

/-- Witness for C1: move 3 is acknowledged and answered, after an idle poll, by results
number 3 announcing a win; the step ends in `GAME_OVER` with counter 4. -/
theorem doMyTurn_success_witness :
    ∃ t : Session Nat Nat,
      baseGame.doMyTurn demoHandlers demoLayout
        (demoSession gameState_t.MY_TURN 3 [true]
          [rxEvent.idle,
            rxEvent.delivered (demoResultsDatagram 3 packetSubType_t.WIN_RESULTS)]) = some t ∧
      t.game.gameState = gameState_t.GAME_OVER ∧ t.game.currentMoveNum = 4 :=
  (doMyTurn_success demoHandlers demoLayout
    (demoSession gameState_t.MY_TURN 3 [true]
      [rxEvent.idle, rxEvent.delivered (demoResultsDatagram 3 packetSubType_t.WIN_RESULTS)])
    3 []
    { type := packetType_t.RESULTS_PACKET, subType := packetSubType_t.WIN_RESULTS,
      resultsNum := 3, payload := 0 }
    []
    [Event.available false, Event.available true,
      Event.recv 12 (some (demoResultsDatagram 3 packetSubType_t.WIN_RESULTS))]
    rfl rfl rfl rfl).imp
    fun _ h => ⟨h.1, h.2.2.2.2.2.1, h.2.2.2.2.2.2⟩

/-- C2. `doOpponentsTurn`, success path. For every session with counter `n`, `n` not 0: if the
wait for the move returns with a Move object whose `moveNum` is `n`, then the step returns;
`generateResults` was called exactly once, with that Move; `gameState` is `GAME_OVER` when it
returned true and `MY_TURN` when it returned false; exactly one datagram was sent, the Results
object that `generateResults` produced; `fatalError` was not called; and `currentMoveNum` is
`n + 1` modulo `2^16`. -/
theorem doOpponentsTurn_success {G W : Type} (H : Handlers G W) (L : Layout) (s : Session G W)
    (n : Nat) (mv : baseMove W) (rest : List (rxEvent W)) (evs : List (Event W))
    (hn : s.game.currentMoveNum = n)
    (hrecv : basePacket.requireTypeLoop (baseMoveClass W) L packetType_t.MOVE_PACKET
      s.Radio.inbox (packetLen L L.sizeof_Move) s.game.Move = some (mv, rest, evs))
    (hnum : mv.moveNum = n) (hn0 : n ≠ 0) :
    ∃ t : Session G W, baseGame.doOpponentsTurn H L s = some t ∧
      (s.traceSince t).filter Event.isGenerateResults =
        [Event.generateResults mv (H.generateResults s.game.derived mv s.game.Results).2.2] ∧
      t.game.gameState =
        (if (H.generateResults s.game.derived mv s.game.Results).2.2
          then gameState_t.GAME_OVER else gameState_t.MY_TURN) ∧
      (sentPackets (s.traceSince t)).map Prod.fst =
        [(baseResultsClass W).image L t.game.Results] ∧
      t.game.Results = (H.generateResults s.game.derived mv s.game.Results).2.1 ∧
      (s.traceSince t).countP Event.isFatal = 0 ∧
      t.game.currentMoveNum = (n + 1) % 65536 := by
  obtain ⟨-, hrx⟩ := requireTypeLoop_exit _ L _ _ _ _ _ _ _ hrecv
  subst hnum
  have hrecv2 : basePacket.requireTypeLoop (baseMoveClass W) L packetType_t.MOVE_PACKET
      s.Radio.inbox (packetLen L ((baseMoveClass W).my_size L)) s.game.Move
      = some (mv, rest, evs) := hrecv
  generalize hdo : baseGame.doOpponentsTurn H L s = r
  cases hacks : s.Radio.acks with
  | nil =>
    simp only [baseGame.doOpponentsTurn, baseMove.require, basePacket.requireType, hrecv2, hn0,
      if_false, hn, ne_eq, not_true_eq_false, false_and, basePacket.send, baseRadio.send,
      baseRadio.log, hacks] at hdo
    subst hdo
    refine ⟨_, rfl, ?_, ?_, ?_, ?_, ?_, ?_⟩
    · simp [Session.traceSince, List.filter_append, Event.isGenerateResults,
        filter_of_isRx _ evs isRx_not_generateResults hrx]
    · simp
    · simp [Session.traceSince, sentPackets_append, sentPackets,
        sentPackets_of_isRx evs hrx]
    · simp
    · simp [Session.traceSince, Event.isFatal, countP_of_isRx _ evs isRx_not_fatal hrx]
    · simp
  | cons a acks =>
    simp only [baseGame.doOpponentsTurn, baseMove.require, basePacket.requireType, hrecv2, hn0,
      if_false, hn, ne_eq, not_true_eq_false, false_and, basePacket.send, baseRadio.send,
      baseRadio.log, hacks] at hdo
    subst hdo
    refine ⟨_, rfl, ?_, ?_, ?_, ?_, ?_, ?_⟩
    · simp [Session.traceSince, List.filter_append, Event.isGenerateResults,
        filter_of_isRx _ evs isRx_not_generateResults hrx]
    · simp
    · simp [Session.traceSince, sentPackets_append, sentPackets,
        sentPackets_of_isRx evs hrx]
    · simp
    · simp [Session.traceSince, Event.isFatal, countP_of_isRx _ evs isRx_not_fatal hrx]
    · simp

/-- Witness for C2: with counter 3, move number 3 arrives; the toy game goes on, the step ends
in `MY_TURN` with counter 4. -/
theorem doOpponentsTurn_success_witness :
    ∃ t : Session Nat Nat,
      baseGame.doOpponentsTurn demoHandlers demoLayout
        (demoSession gameState_t.OPPONENTS_TURN 3 [true]
          [rxEvent.delivered (demoMoveDatagram 3 5)]) = some t ∧
      t.game.gameState = gameState_t.MY_TURN ∧ t.game.currentMoveNum = 4 :=
  (doOpponentsTurn_success demoHandlers demoLayout
    (demoSession gameState_t.OPPONENTS_TURN 3 [true] [rxEvent.delivered (demoMoveDatagram 3 5)])
    3
    { type := packetType_t.MOVE_PACKET, subType := packetSubType_t.NORMAL_MOVE, moveNum := 3,
      payload := 5 }
    []
    [Event.available true, Event.recv 12 (some (demoMoveDatagram 3 5))]
    rfl rfl rfl (by decide)).imp
    fun _ h => ⟨h.1, h.2.2.1, h.2.2.2.2.2.2⟩

/-- C8. `doMyTurn`, result mismatch. For every session with counter `n`: if the Move send is
acknowledged and the wait for the results returns with a Results object whose `resultsNum`
differs from `n`, then the step returns after calling `fatalError` exactly once and
`processResults` not at all, and its final game object is what the `fatalError` handler made of
a game object `g` in which the engine has left `gameState` as it was at the start of the step
and `currentMoveNum` at `n`: the engine itself neither advances the state nor increments the
counter. -/
theorem doMyTurn_results_mismatch {G W : Type} (H : Handlers G W) (L : Layout)
    (s : Session G W) (n : Nat) (acks : List Bool) (res : baseResults W)
    (rest : List (rxEvent W)) (evs : List (Event W))
    (hn : s.game.currentMoveNum = n)
    (hack : s.Radio.acks = true :: acks)
    (hrecv : basePacket.requireTypeLoop (baseResultsClass W) L packetType_t.RESULTS_PACKET
      s.Radio.inbox (packetLen L L.sizeof_Results) s.game.Results = some (res, rest, evs))
    (hnum : res.resultsNum ≠ n) :
    ∃ t : Session G W, baseGame.doMyTurn H L s = some t ∧
      (s.traceSince t).filter Event.isFatal =
        [Event.fatalError "Results number mismatch error."] ∧
      (s.traceSince t).countP Event.isProcessResults = 0 ∧
      ∃ g : baseGame G W, t.game = H.fatalError "Results number mismatch error." g ∧
        g.gameState = s.game.gameState ∧ g.currentMoveNum = n ∧ g.Results = res := by
  obtain ⟨-, hrx⟩ := requireTypeLoop_exit _ L _ _ _ _ _ _ _ hrecv
  subst hn
  have hrecv2 : basePacket.requireTypeLoop (baseResultsClass W) L packetType_t.RESULTS_PACKET
      s.Radio.inbox (packetLen L ((baseResultsClass W).my_size L)) s.game.Results
      = some (res, rest, evs) := hrecv
  generalize hdo : baseGame.doMyTurn H L s = r
  simp only [baseGame.doMyTurn, basePacket.send, baseRadio.send, baseRadio.log, hack,
    baseResults.require, basePacket.requireType, hrecv2, hnum, if_true, ne_eq,
    not_false_eq_true, Session.fatalError] at hdo
  subst hdo
  refine ⟨_, rfl, ?_, ?_, _, rfl, rfl, rfl, rfl⟩
  · simp [Session.traceSince, List.filter_append, Event.isFatal,
      filter_of_isRx _ evs isRx_not_fatal hrx]
  · simp [Session.traceSince, Event.isProcessResults,
      countP_of_isRx _ evs isRx_not_processResults hrx]

/-- Witness for C8 (Scenario C): move 3 is acknowledged and answered by results number 4; the
toy `fatalError` handler then ends the game and the counter is still 3. -/
theorem doMyTurn_results_mismatch_witness :
    ∃ t : Session Nat Nat,
      baseGame.doMyTurn demoHandlers demoLayout
        (demoSession gameState_t.MY_TURN 3 [true]
          [rxEvent.delivered (demoResultsDatagram 4 packetSubType_t.NORMAL_RESULTS)]) = some t ∧
      (Session.traceSince
        (demoSession gameState_t.MY_TURN 3 [true]
          [rxEvent.delivered (demoResultsDatagram 4 packetSubType_t.NORMAL_RESULTS)])
        t).filter Event.isFatal = [Event.fatalError "Results number mismatch error."] :=
  (doMyTurn_results_mismatch demoHandlers demoLayout
    (demoSession gameState_t.MY_TURN 3 [true]
      [rxEvent.delivered (demoResultsDatagram 4 packetSubType_t.NORMAL_RESULTS)])
    3 []
    { type := packetType_t.RESULTS_PACKET, subType := packetSubType_t.NORMAL_RESULTS,
      resultsNum := 4, payload := 0 }
    []
    [Event.available true,
      Event.recv 12 (some (demoResultsDatagram 4 packetSubType_t.NORMAL_RESULTS))]
    rfl rfl rfl (by decide)).imp
    fun _ h => ⟨h.1, h.2.1⟩

/-- C9. `doOpponentsTurn`, move mismatch. For every session with counter `n`: if the wait for
the move returns with a Move object whose `moveNum` is neither 0 nor `n`, then the step returns
after calling `fatalError` exactly once; `generateResults` was not called and nothing was sent;
and the final game object is what the `fatalError` handler made of the game object in which
only the Move object has changed: the engine leaves `gameState` and `currentMoveNum` as they
were. -/
theorem doOpponentsTurn_move_mismatch {G W : Type} (H : Handlers G W) (L : Layout)
    (s : Session G W) (n : Nat) (mv : baseMove W) (rest : List (rxEvent W))
    (evs : List (Event W))
    (hn : s.game.currentMoveNum = n)
    (hrecv : basePacket.requireTypeLoop (baseMoveClass W) L packetType_t.MOVE_PACKET
      s.Radio.inbox (packetLen L L.sizeof_Move) s.game.Move = some (mv, rest, evs))
    (h0 : mv.moveNum ≠ 0) (hnum : mv.moveNum ≠ n) :
    ∃ t : Session G W, baseGame.doOpponentsTurn H L s = some t ∧
      (s.traceSince t).filter Event.isFatal =
        [Event.fatalError "Opponents move number mismatch error."] ∧
      (s.traceSince t).countP Event.isGenerateResults = 0 ∧
      sentPackets (s.traceSince t) = [] ∧
      t.game = H.fatalError "Opponents move number mismatch error."
        { s.game with Move := mv } := by
  obtain ⟨-, hrx⟩ := requireTypeLoop_exit _ L _ _ _ _ _ _ _ hrecv
  subst hn
  have hrecv2 : basePacket.requireTypeLoop (baseMoveClass W) L packetType_t.MOVE_PACKET
      s.Radio.inbox (packetLen L ((baseMoveClass W).my_size L)) s.game.Move
      = some (mv, rest, evs) := hrecv
  have hpos : mv.moveNum > 0 := Nat.pos_of_ne_zero h0
  generalize hdo : baseGame.doOpponentsTurn H L s = r
  simp only [baseGame.doOpponentsTurn, baseMove.require, basePacket.requireType, hrecv2, h0,
    if_false, hnum, ne_eq, not_false_eq_true, hpos, and_self, if_true, Session.fatalError,
    baseRadio.log] at hdo
  subst hdo
  refine ⟨_, rfl, ?_, ?_, ?_, rfl⟩
  · simp [Session.traceSince, List.filter_append, Event.isFatal,
      filter_of_isRx _ evs isRx_not_fatal hrx]
  · simp [Session.traceSince, Event.isGenerateResults,
      countP_of_isRx _ evs isRx_not_generateResults hrx]
  · simp [Session.traceSince, sentPackets_append, sentPackets, sentPackets_of_isRx evs hrx]

/-- Witness for C9: with counter 3, move number 5 arrives. -/
theorem doOpponentsTurn_move_mismatch_witness :
    ∃ t : Session Nat Nat,
      baseGame.doOpponentsTurn demoHandlers demoLayout
        (demoSession gameState_t.OPPONENTS_TURN 3 [true]
          [rxEvent.delivered (demoMoveDatagram 5 0)]) = some t ∧
      sentPackets (Session.traceSince
        (demoSession gameState_t.OPPONENTS_TURN 3 [true]
          [rxEvent.delivered (demoMoveDatagram 5 0)]) t) = [] ∧
      t.game.currentMoveNum = 3 :=
  (doOpponentsTurn_move_mismatch demoHandlers demoLayout
    (demoSession gameState_t.OPPONENTS_TURN 3 [true] [rxEvent.delivered (demoMoveDatagram 5 0)])
    3
    { type := packetType_t.MOVE_PACKET, subType := packetSubType_t.NORMAL_MOVE, moveNum := 5,
      payload := 0 }
    []
    [Event.available true, Event.recv 12 (some (demoMoveDatagram 5 0))]
    rfl rfl (by decide) (by decide)).imp
    fun _ h => ⟨h.1, h.2.2.2.1, by rw [h.2.2.2.2]; rfl⟩

/-- C10. `doOpponentsTurn`, bootstrap move. For every session, whatever its counter: if the wait
for the move returns with a Move object whose `moveNum` is 0, then the step does exactly what it
does from the same session with counter 0; it returns, `fatalError` was not called,
`generateResults` was called once with that Move, one datagram was sent, the Results object, and
the step ends with `currentMoveNum = 1`. -/
theorem doOpponentsTurn_bootstrap {G W : Type} (H : Handlers G W) (L : Layout)
    (s : Session G W) (mv : baseMove W) (rest : List (rxEvent W)) (evs : List (Event W))
    (hrecv : basePacket.requireTypeLoop (baseMoveClass W) L packetType_t.MOVE_PACKET
      s.Radio.inbox (packetLen L L.sizeof_Move) s.game.Move = some (mv, rest, evs))
    (h0 : mv.moveNum = 0) :
    ∃ t : Session G W, baseGame.doOpponentsTurn H L s = some t ∧
      baseGame.doOpponentsTurn H L { s with game := { s.game with currentMoveNum := 0 } }
        = some t ∧
      (s.traceSince t).countP Event.isFatal = 0 ∧
      (s.traceSince t).filter Event.isGenerateResults =
        [Event.generateResults mv (H.generateResults s.game.derived mv s.game.Results).2.2] ∧
      (sentPackets (s.traceSince t)).map Prod.fst =
        [(baseResultsClass W).image L t.game.Results] ∧
      t.game.currentMoveNum = 1 := by
  obtain ⟨-, hrx⟩ := requireTypeLoop_exit _ L _ _ _ _ _ _ _ hrecv
  have hrecv2 : basePacket.requireTypeLoop (baseMoveClass W) L packetType_t.MOVE_PACKET
      s.Radio.inbox (packetLen L ((baseMoveClass W).my_size L)) s.game.Move
      = some (mv, rest, evs) := hrecv
  generalize hdo : baseGame.doOpponentsTurn H L s = r
  generalize hdz : baseGame.doOpponentsTurn H L
    { s with game := { s.game with currentMoveNum := 0 } } = z
  cases hacks : s.Radio.acks with
  | nil =>
    simp only [baseGame.doOpponentsTurn, baseMove.require, basePacket.requireType, hrecv2, h0,
      if_true, ne_eq, not_true_eq_false, false_and, if_false, basePacket.send, baseRadio.send,
      baseRadio.log, hacks] at hdo hdz
    subst hdo hdz
    refine ⟨_, rfl, rfl, ?_, ?_, ?_, ?_⟩
    · simp [Session.traceSince, Event.isFatal, countP_of_isRx _ evs isRx_not_fatal hrx]
    · simp [Session.traceSince, List.filter_append, Event.isGenerateResults,
        filter_of_isRx _ evs isRx_not_generateResults hrx]
    · simp [Session.traceSince, sentPackets_append, sentPackets,
        sentPackets_of_isRx evs hrx]
    · simp
  | cons a acks =>
    simp only [baseGame.doOpponentsTurn, baseMove.require, basePacket.requireType, hrecv2, h0,
      if_true, ne_eq, not_true_eq_false, false_and, if_false, basePacket.send, baseRadio.send,
      baseRadio.log, hacks] at hdo hdz
    subst hdo hdz
    refine ⟨_, rfl, rfl, ?_, ?_, ?_, ?_⟩
    · simp [Session.traceSince, Event.isFatal, countP_of_isRx _ evs isRx_not_fatal hrx]
    · simp [Session.traceSince, List.filter_append, Event.isGenerateResults,
        filter_of_isRx _ evs isRx_not_generateResults hrx]
    · simp [Session.traceSince, sentPackets_append, sentPackets,
        sentPackets_of_isRx evs hrx]
    · simp

/-- Witness for C10 (Scenario D): with counter 1, move number 0 arrives; the step ends with
counter 1 and no fatal error. -/
theorem doOpponentsTurn_bootstrap_witness :
    ∃ t : Session Nat Nat,
      baseGame.doOpponentsTurn demoHandlers demoLayout
        (demoSession gameState_t.OPPONENTS_TURN 1 [true]
          [rxEvent.delivered (demoMoveDatagram 0 0)]) = some t ∧
      (Session.traceSince
        (demoSession gameState_t.OPPONENTS_TURN 1 [true]
          [rxEvent.delivered (demoMoveDatagram 0 0)]) t).countP Event.isFatal = 0 ∧
      t.game.currentMoveNum = 1 :=
  (doOpponentsTurn_bootstrap demoHandlers demoLayout
    (demoSession gameState_t.OPPONENTS_TURN 1 [true] [rxEvent.delivered (demoMoveDatagram 0 0)])
    { type := packetType_t.MOVE_PACKET, subType := packetSubType_t.NORMAL_MOVE, moveNum := 0,
      payload := 0 }
    []
    [Event.available true, Event.recv 12 (some (demoMoveDatagram 0 0))]
    rfl rfl).imp
    fun _ h => ⟨h.1, h.2.2.1, h.2.2.2.2.2⟩

/-! ### A move and its results between two peers -/

/-- Whatever the results are, an acknowledged `doMyTurn` returns once its wait does, and every
datagram it sent carries the sequence number the counter had. -/
theorem doMyTurn_sends_tagged {G W : Type} (H : Handlers G W) (L : Layout) (s : Session G W)
    (acks : List Bool) (res : baseResults W) (rest : List (rxEvent W)) (evs : List (Event W))
    (hack : s.Radio.acks = true :: acks)
    (hrecv : basePacket.requireTypeLoop (baseResultsClass W) L packetType_t.RESULTS_PACKET
      s.Radio.inbox (packetLen L L.sizeof_Results) s.game.Results = some (res, rest, evs)) :
    ∃ t : Session G W, baseGame.doMyTurn H L s = some t ∧
      ∀ x ∈ sentPackets (s.traceSince t),
        ∃ w, x.1.body = some (s.game.currentMoveNum, w) := by
  obtain ⟨-, hrx⟩ := requireTypeLoop_exit _ L _ _ _ _ _ _ _ hrecv
  have hrecv2 : basePacket.requireTypeLoop (baseResultsClass W) L packetType_t.RESULTS_PACKET
      s.Radio.inbox (packetLen L ((baseResultsClass W).my_size L)) s.game.Results
      = some (res, rest, evs) := hrecv
  generalize hdo : baseGame.doMyTurn H L s = r
  by_cases hnum : res.resultsNum = s.game.currentMoveNum
  · simp only [baseGame.doMyTurn, basePacket.send, baseRadio.send, baseRadio.log, hack,
      baseResults.require, basePacket.requireType, hrecv2, hnum, ne_eq, not_true_eq_false,
      if_false] at hdo
    subst hdo
    refine ⟨_, rfl, ?_⟩
    simp [Session.traceSince, sentPackets_append, sentPackets, sentPackets_of_isRx evs hrx,
      PacketClass.image, baseMoveClass]
  · simp only [baseGame.doMyTurn, basePacket.send, baseRadio.send, baseRadio.log, hack,
      baseResults.require, basePacket.requireType, hrecv2, hnum, if_true, ne_eq,
      not_false_eq_true, Session.fatalError] at hdo
    subst hdo
    refine ⟨_, rfl, ?_⟩
    simp [Session.traceSince, sentPackets_append, sentPackets, sentPackets_of_isRx evs hrx,
      PacketClass.image, baseMoveClass]

/-- An acknowledged `doMyTurn` whose results carry the counter value calls no `fatalError` and
increments the counter. -/
theorem doMyTurn_counter {G W : Type} (H : Handlers G W) (L : Layout) (s : Session G W)
    (acks : List Bool) (res : baseResults W) (rest : List (rxEvent W)) (evs : List (Event W))
    (hack : s.Radio.acks = true :: acks)
    (hrecv : basePacket.requireTypeLoop (baseResultsClass W) L packetType_t.RESULTS_PACKET
      s.Radio.inbox (packetLen L L.sizeof_Results) s.game.Results = some (res, rest, evs))
    (hnum : res.resultsNum = s.game.currentMoveNum) :
    ∃ t : Session G W, baseGame.doMyTurn H L s = some t ∧
      (s.traceSince t).countP Event.isFatal = 0 ∧
      t.game.currentMoveNum = (s.game.currentMoveNum + 1) % 65536 := by
  obtain ⟨-, hrx⟩ := requireTypeLoop_exit _ L _ _ _ _ _ _ _ hrecv
  have hrecv2 : basePacket.requireTypeLoop (baseResultsClass W) L packetType_t.RESULTS_PACKET
      s.Radio.inbox (packetLen L ((baseResultsClass W).my_size L)) s.game.Results
      = some (res, rest, evs) := hrecv
  generalize hdo : baseGame.doMyTurn H L s = r
  simp only [baseGame.doMyTurn, basePacket.send, baseRadio.send, baseRadio.log, hack,
    baseResults.require, basePacket.requireType, hrecv2, hnum, ne_eq, not_true_eq_false,
    if_false] at hdo
  subst hdo
  refine ⟨_, rfl, ?_, ?_⟩
  · simp [Session.traceSince, Event.isFatal, countP_of_isRx _ evs isRx_not_fatal hrx]
  · simp

/-- A `doOpponentsTurn` whose move carries the counter value calls no `fatalError`, increments
the counter, and sends nothing but the Results object `generateResults` made. -/
theorem doOpponentsTurn_counter {G W : Type} (H : Handlers G W) (L : Layout)
    (s : Session G W) (mv : baseMove W) (rest : List (rxEvent W)) (evs : List (Event W))
    (hrecv : basePacket.requireTypeLoop (baseMoveClass W) L packetType_t.MOVE_PACKET
      s.Radio.inbox (packetLen L L.sizeof_Move) s.game.Move = some (mv, rest, evs))
    (hnum : mv.moveNum = s.game.currentMoveNum) :
    ∃ t : Session G W, baseGame.doOpponentsTurn H L s = some t ∧
      (s.traceSince t).countP Event.isFatal = 0 ∧
      t.game.currentMoveNum = (s.game.currentMoveNum + 1) % 65536 ∧
      ∀ x ∈ sentPackets (s.traceSince t),
        x.1 = (baseResultsClass W).image L
          (H.generateResults s.game.derived mv s.game.Results).2.1 := by
  obtain ⟨-, hrx⟩ := requireTypeLoop_exit _ L _ _ _ _ _ _ _ hrecv
  have hrecv2 : basePacket.requireTypeLoop (baseMoveClass W) L packetType_t.MOVE_PACKET
      s.Radio.inbox (packetLen L ((baseMoveClass W).my_size L)) s.game.Move
      = some (mv, rest, evs) := hrecv
  have hcnt : (if s.game.currentMoveNum = 0 then 0 else s.game.currentMoveNum)
      = s.game.currentMoveNum := by
    split
    · rename_i h0; exact h0.symm
    · rfl
  generalize hdo : baseGame.doOpponentsTurn H L s = r
  cases hacks : s.Radio.acks with
  | nil =>
    simp only [baseGame.doOpponentsTurn, baseMove.require, basePacket.requireType, hrecv2,
      hcnt, hnum, ne_eq, not_true_eq_false, false_and, if_false, basePacket.send,
      baseRadio.send, baseRadio.log, hacks] at hdo
    subst hdo
    refine ⟨_, rfl, ?_, ?_, ?_⟩
    · simp [Session.traceSince, Event.isFatal, countP_of_isRx _ evs isRx_not_fatal hrx]
    · simp
    · simp [Session.traceSince, sentPackets_append, sentPackets, sentPackets_of_isRx evs hrx]
  | cons a acks =>
    simp only [baseGame.doOpponentsTurn, baseMove.require, basePacket.requireType, hrecv2,
      hcnt, hnum, ne_eq, not_true_eq_false, false_and, if_false, basePacket.send,
      baseRadio.send, baseRadio.log, hacks] at hdo
    subst hdo
    refine ⟨_, rfl, ?_, ?_, ?_⟩
    · simp [Session.traceSince, Event.isFatal, countP_of_isRx _ evs isRx_not_fatal hrx]
    · simp
    · simp [Session.traceSince, sentPackets_append, sentPackets, sentPackets_of_isRx evs hrx]

/-- C3, as amended. Round trip on both peers: peer A runs `doMyTurn` and peer B runs
`doOpponentsTurn`, both from counter `n`. A's send is acknowledged, the Move object B holds when
its wait returns is a datagram A sent, the Results object A holds when its wait returns is a
datagram B sent, and B's `generateResults` copies the move number into `resultsNum`. Then both
steps return, neither peer has called `fatalError`, and both counters are `n + 1` modulo `2^16`
(so `n + 1` whenever `n < 65535`). The bound `1 ≤ n` of the claim is not needed. -/
theorem round_trip_counters {G W : Type} (HA HB : Handlers G W) (L : Layout)
    (sA sB : Session G W) (n : Nat) (acksA : List Bool)
    (mvB : baseMove W) (restB : List (rxEvent W)) (evsB : List (Event W))
    (resA : baseResults W) (restA : List (rxEvent W)) (evsA : List (Event W))
    (hnA : sA.game.currentMoveNum = n) (hnB : sB.game.currentMoveNum = n)
    (hackA : sA.Radio.acks = true :: acksA)
    (hrecvB : basePacket.requireTypeLoop (baseMoveClass W) L packetType_t.MOVE_PACKET
      sB.Radio.inbox (packetLen L L.sizeof_Move) sB.game.Move = some (mvB, restB, evsB))
    (hrecvA : basePacket.requireTypeLoop (baseResultsClass W) L packetType_t.RESULTS_PACKET
      sA.Radio.inbox (packetLen L L.sizeof_Results) sA.game.Results = some (resA, restA, evsA))
    (hlinkAB : ∀ tA, baseGame.doMyTurn HA L sA = some tA →
      ∃ ack, ((baseMoveClass W).image L mvB, ack) ∈ sentPackets (sA.traceSince tA))
    (hlinkBA : ∀ tB, baseGame.doOpponentsTurn HB L sB = some tB →
      ∃ ack, ((baseResultsClass W).image L resA, ack) ∈ sentPackets (sB.traceSince tB))
    (hcopy : ∀ g m r, (HB.generateResults g m r).2.1.resultsNum = m.moveNum) :
    ∃ tA tB : Session G W,
      baseGame.doMyTurn HA L sA = some tA ∧ baseGame.doOpponentsTurn HB L sB = some tB ∧
      (sA.traceSince tA).countP Event.isFatal = 0 ∧
      (sB.traceSince tB).countP Event.isFatal = 0 ∧
      tA.game.currentMoveNum = (n + 1) % 65536 ∧
      tB.game.currentMoveNum = (n + 1) % 65536 := by
  -- the move B holds carries A's counter
  obtain ⟨tA0, htA0, hsentA⟩ := doMyTurn_sends_tagged HA L sA acksA resA restA evsA hackA hrecvA
  obtain ⟨ackA, hmemA⟩ := hlinkAB tA0 htA0
  obtain ⟨w, hw⟩ := hsentA _ hmemA
  have hmv : mvB.moveNum = sB.game.currentMoveNum := by
    simp only [PacketClass.image, baseMoveClass, Option.some.injEq, Prod.mk.injEq] at hw
    rw [hw.1, hnA, hnB]
  -- B answers it
  obtain ⟨tB, htB, hfB, hcB, hsentB⟩ :=
    doOpponentsTurn_counter HB L sB mvB restB evsB hrecvB hmv
  obtain ⟨ackB, hmemB⟩ := hlinkBA tB htB
  have himg := hsentB _ hmemB
  have hres : resA.resultsNum = sA.game.currentMoveNum := by
    simp only [PacketClass.image, baseResultsClass, Datagram.mk.injEq, Option.some.injEq,
      Prod.mk.injEq] at himg
    rw [himg.2.2.1.1, hcopy, hmv, hnB, hnA]
  -- A accepts the answer
  obtain ⟨tA, htA, hfA, hcA⟩ := doMyTurn_counter HA L sA acksA resA restA evsA hackA hrecvA hres
  exact ⟨tA, tB, htA, htB, hfA, hfB, by rw [hcA, hnA], by rw [hcB, hnB]⟩

/-- Witness for C3 as amended: the round trip of move 3 leaves both counters at 4. -/
theorem round_trip_counters_witness :
    ∃ tA tB : Session Nat Nat,
      baseGame.doMyTurn demoHandlers demoLayout (peerA 3) = some tA ∧
      baseGame.doOpponentsTurn demoHandlers demoLayout (peerB 3) = some tB ∧
      tA.game.currentMoveNum = 4 ∧ tB.game.currentMoveNum = 4 :=
  (round_trip_counters demoHandlers demoHandlers demoLayout (peerA 3) (peerB 3) 3 []
    { type := packetType_t.MOVE_PACKET, subType := packetSubType_t.NORMAL_MOVE, moveNum := 3,
      payload := 0 }
    [] [Event.available true, Event.recv 12 (some (demoMoveDatagram 3 0))]
    { type := packetType_t.RESULTS_PACKET, subType := packetSubType_t.NORMAL_RESULTS,
      resultsNum := 3, payload := 0 }
    [] [Event.available true,
      Event.recv 12 (some (demoResultsDatagram 3 packetSubType_t.NORMAL_RESULTS))]
    rfl rfl rfl rfl rfl
    (fun tA h => ⟨true, by
      have h2 : tA = _ := (Option.some.inj h).symm
      subst h2
      decide⟩)
    (fun tB h => ⟨true, by
      have h2 : tB = _ := (Option.some.inj h).symm
      subst h2
      decide⟩)
    (fun _ _ _ => rfl)).imp
    fun _ h => h.imp fun _ k => ⟨k.1, k.2.1, k.2.2.2.2.1, k.2.2.2.2.2⟩

/-- Counterexample to C3 as stated. Peer A is in `MY_TURN` and peer B in `OPPONENTS_TURN`, both
with counter 65535, which is at least 1. A's send is acknowledged; the one datagram A sends is
the one in B's inbox; the one datagram B sends, with `resultsNum` copied from the move, is the
one in A's inbox. Neither peer calls `fatalError`, and both counters end at 0, not at
65535 + 1. -/
theorem round_trip_counterexample :
    (peerA 65535).game.gameState = gameState_t.MY_TURN ∧
    (peerB 65535).game.gameState = gameState_t.OPPONENTS_TURN ∧
    (peerA 65535).game.currentMoveNum = 65535 ∧
    (peerB 65535).game.currentMoveNum = 65535 ∧
    1 ≤ 65535 ∧
    (baseGame.doMyTurn demoHandlers demoLayout (peerA 65535)).map
        (fun t => (sentPackets t.Radio.trace, t.Radio.trace.countP Event.isFatal,
          t.game.currentMoveNum))
      = some ([(demoMoveDatagram 65535 0, true)], 0, 0) ∧
    (peerB 65535).Radio.inbox = [rxEvent.delivered (demoMoveDatagram 65535 0)] ∧
    (baseGame.doOpponentsTurn demoHandlers demoLayout (peerB 65535)).map
        (fun t => (sentPackets t.Radio.trace, t.Radio.trace.countP Event.isFatal,
          t.game.currentMoveNum))
      = some ([(demoResultsDatagram 65535 packetSubType_t.NORMAL_RESULTS, true)], 0, 0) ∧
    (peerA 65535).Radio.inbox =
      [rxEvent.delivered (demoResultsDatagram 65535 packetSubType_t.NORMAL_RESULTS)] ∧
    (0 : Nat) ≠ 65535 + 1 := by
  refine ⟨rfl, rfl, rfl, rfl, by decide, ?_, rfl, ?_, rfl, by decide⟩
  · decide
  · decide

/-! ### The offering state -/

theorem toBool_ofBool (b : Bool) : (packetSubType_t.ofBool b).toBool = b := by
  cases b <;> rfl

theorem filter_eq_nil_of_countP {W : Type} (q : Event W → Bool) (evs : List (Event W))
    (h : evs.countP q = 0) : evs.filter q = [] := by
  rw [List.filter_eq_nil_iff]
  rw [List.countP_eq_zero] at h
  exact h

/-- A try that got no accept, put in front of what the rest of the loop did. -/
theorem outcome_after_failed_try {G W : Type} (H : Handlers G W) (L : Layout) (k : Nat)
    (g g1 : baseGame G W) (e1 evs : List (Event W)) (o : Datagram W) (a : Bool)
    (hsent : sentPackets e1 = [(o, a)]) (ho : o.type = packetType_t.OFFERING_GAME_PACKET)
    (hacc : e1.countP Event.isAccept = 0) (hcf : e1.countP Event.isCoinFlip = 0)
    (hft : e1.countP Event.isFatal = 0)
    (h : AcceptPath H L k g g1 evs ∨ GiveUpPath k g g1 evs) :
    AcceptPath H L (k + 1) g g1 (e1 ++ evs) ∨ GiveUpPath (k + 1) g g1 (e1 ++ evs) := by
  rcases h with h | h
  · obtain ⟨offers, st, aF, aC, hs, hall, h1, hk, hA, hC, hF, hg⟩ := h
    refine Or.inl ⟨(o, a) :: offers, st, aF, aC, ?_, ?_, ?_, ?_, ?_, ?_, ?_, hg⟩
    · rw [sentPackets_append, hsent, hs]; rfl
    · intro x hx
      rcases List.mem_cons.mp hx with hx | hx
      · rw [hx]; exact ho
      · exact hall x hx
    · simp
    · simpa using hk
    · rw [List.countP_append, hacc, hA]
    · rw [List.filter_append, filter_eq_nil_of_countP _ _ hcf, hC]; rfl
    · rw [List.countP_append, hft, hF]
  · obtain ⟨hlen, hall, hA, hC, hF, hg⟩ := h
    refine Or.inr ⟨?_, ?_, ?_, ?_, ?_, hg⟩
    · rw [sentPackets_append, hsent]; simp [hlen]
    · intro x hx
      rw [sentPackets_append, hsent] at hx
      rcases List.mem_append.mp hx with hx | hx
      · rw [List.mem_singleton.mp hx]; exact ho
      · exact hall x hx
    · rw [List.countP_append, hacc, hA]
    · rw [List.countP_append, hcf, hC]
    · rw [List.countP_append, hft, hF]

/-- Every run of the offering loop with `k` tries left takes the accept path or the give-up
path. -/
theorem offeringLoop_outcome {G W : Type} (H : Handlers G W) (L : Layout) :
    ∀ (k : Nat) (p : basePacket) (s : Session G W),
      ∃ evs : List (Event W),
        (baseGame.offeringLoop H L k p s).Radio.trace = s.Radio.trace ++ evs ∧
        (AcceptPath H L k s.game (baseGame.offeringLoop H L k p s).game evs ∨
          GiveUpPath k s.game (baseGame.offeringLoop H L k p s).game evs) := by
  intro k
  induction k with
  | zero =>
    intro p s
    refine ⟨[], by simp [baseGame.offeringLoop], Or.inr ?_⟩
    simp [GiveUpPath, baseGame.offeringLoop, sentPackets]
  | succ k ih =>
    intro p s
    obtain ⟨g, ⟨acks, inbox, tr⟩⟩ := s
    rcases acks with _ | ⟨a, acks⟩
    · -- the offer is not acknowledged (no answer left)
      obtain ⟨evs, htr, hout⟩ := ih
        { type := packetType_t.OFFERING_GAME_PACKET, subType := p.subType }
        ⟨g, ⟨[], inbox, tr ++ [Event.send
          (controlDatagram W L packetType_t.OFFERING_GAME_PACKET p.subType) false]⟩⟩
      refine ⟨[Event.send (controlDatagram W L packetType_t.OFFERING_GAME_PACKET p.subType)
        false] ++ evs, ?_, ?_⟩
      · exact htr.trans (by simp)
      · exact outcome_after_failed_try H L k _ _ _ evs _ false rfl rfl rfl rfl rfl hout
    · cases a with
      | false =>
        obtain ⟨evs, htr, hout⟩ := ih
          { type := packetType_t.OFFERING_GAME_PACKET, subType := p.subType }
          ⟨g, ⟨acks, inbox, tr ++ [Event.send
            (controlDatagram W L packetType_t.OFFERING_GAME_PACKET p.subType) false]⟩⟩
        refine ⟨[Event.send (controlDatagram W L packetType_t.OFFERING_GAME_PACKET p.subType)
          false] ++ evs, ?_, ?_⟩
        · exact htr.trans (by simp)
        · exact outcome_after_failed_try H L k _ _ _ evs _ false rfl rfl rfl rfl rfl hout
      | true =>
        rcases inbox with _ | ⟨x, inbox⟩
        · -- acknowledged, then the wait runs out
          obtain ⟨evs, htr, hout⟩ := ih
            { type := packetType_t.OFFERING_GAME_PACKET, subType := p.subType }
            ⟨g, ⟨acks, [], tr ++ [Event.send
                (controlDatagram W L packetType_t.OFFERING_GAME_PACKET p.subType) true] ++
              [Event.recvTimeout (packetLen L L.sizeof_basePacket) OFFERING_TIMEOUT none]⟩⟩
          refine ⟨[Event.send (controlDatagram W L packetType_t.OFFERING_GAME_PACKET p.subType)
            true, Event.recvTimeout (packetLen L L.sizeof_basePacket) OFFERING_TIMEOUT none]
            ++ evs, ?_, ?_⟩
          · exact htr.trans (by simp)
          · exact outcome_after_failed_try H L k _ _ _ evs _ true rfl rfl rfl rfl rfl hout
        · cases x with
          | idle =>
            obtain ⟨evs, htr, hout⟩ := ih
              { type := packetType_t.OFFERING_GAME_PACKET, subType := p.subType }
              ⟨g, ⟨acks, inbox, tr ++ [Event.send
                  (controlDatagram W L packetType_t.OFFERING_GAME_PACKET p.subType) true] ++
                [Event.recvTimeout (packetLen L L.sizeof_basePacket) OFFERING_TIMEOUT none]⟩⟩
            refine ⟨[Event.send
              (controlDatagram W L packetType_t.OFFERING_GAME_PACKET p.subType) true,
              Event.recvTimeout (packetLen L L.sizeof_basePacket) OFFERING_TIMEOUT none]
              ++ evs, ?_, ?_⟩
            · exact htr.trans (by simp)
            · exact outcome_after_failed_try H L k _ _ _ evs _ true rfl rfl rfl rfl rfl hout
          | failed =>
            obtain ⟨evs, htr, hout⟩ := ih
              { type := packetType_t.OFFERING_GAME_PACKET, subType := p.subType }
              ⟨g, ⟨acks, inbox, tr ++ [Event.send
                  (controlDatagram W L packetType_t.OFFERING_GAME_PACKET p.subType) true] ++
                [Event.recvTimeout (packetLen L L.sizeof_basePacket) OFFERING_TIMEOUT none]⟩⟩
            refine ⟨[Event.send
              (controlDatagram W L packetType_t.OFFERING_GAME_PACKET p.subType) true,
              Event.recvTimeout (packetLen L L.sizeof_basePacket) OFFERING_TIMEOUT none]
              ++ evs, ?_, ?_⟩
            · exact htr.trans (by simp)
            · exact outcome_after_failed_try H L k _ _ _ evs _ true rfl rfl rfl rfl rfl hout
          | delivered d =>
            by_cases hd : d.type = packetType_t.ACCEPTING_GAME_PACKET
            · -- the accept
              have hacc : ∀ (acks0 : List Bool) (aF aC : Bool) (R : baseRadio W),
                  R.trace = tr ++ [Event.send
                    (controlDatagram W L packetType_t.OFFERING_GAME_PACKET p.subType) true,
                    Event.recvTimeout (packetLen L L.sizeof_basePacket) OFFERING_TIMEOUT
                      (some d),
                    Event.send (controlDatagram W L packetType_t.FOUND_GAME_PACKET d.subType)
                      aF,
                    Event.coinFlip (H.coinFlip g.derived).2,
                    Event.send (controlDatagram W L packetType_t.COIN_FLIP_PACKET
                      (packetSubType_t.ofBool (H.coinFlip g.derived).2)) aC] →
                  baseGame.offeringLoop H L (k + 1) p ⟨g, ⟨true :: acks0,
                    rxEvent.delivered d :: inbox, tr⟩⟩ =
                    ⟨{ g with
                        derived := (H.coinFlip g.derived).1
                        gameState := if (H.coinFlip g.derived).2 then gameState_t.MY_TURN
                                     else gameState_t.OPPONENTS_TURN }, R⟩ →
                  ∃ evs : List (Event W),
                    (baseGame.offeringLoop H L (k + 1) p ⟨g, ⟨true :: acks0,
                      rxEvent.delivered d :: inbox, tr⟩⟩).Radio.trace = tr ++ evs ∧
                    (AcceptPath H L (k + 1) g (baseGame.offeringLoop H L (k + 1) p
                        ⟨g, ⟨true :: acks0, rxEvent.delivered d :: inbox, tr⟩⟩).game evs ∨
                      GiveUpPath (k + 1) g (baseGame.offeringLoop H L (k + 1) p
                        ⟨g, ⟨true :: acks0, rxEvent.delivered d :: inbox, tr⟩⟩).game
                        evs) := by
                intro acks0 aF aC R hR hloop
                rw [hloop]
                refine ⟨_, hR, Or.inl ⟨[(controlDatagram W L
                  packetType_t.OFFERING_GAME_PACKET p.subType, true)], d.subType, aF, aC,
                  rfl, ?_, by simp, by simp, ?_, rfl, rfl, rfl⟩⟩
                · intro x hx
                  rw [List.mem_singleton.mp hx]
                  rfl
                · simp [Event.isAccept, hd]
              rcases acks with _ | ⟨aF, _ | ⟨aC, acks⟩⟩
              · refine hacc [] false false ⟨[], inbox, _⟩ rfl ?_
                simp [baseGame.offeringLoop, basePacket.sendTyped, basePacket.send,
                  baseRadio.send, basePacket.requireTypeTimeout, baseRadio.recvTimeout,
                  basePacketClass, hd, PacketClass.image, controlDatagram, toBool_ofBool,
                  baseRadio.log]
              · refine hacc [aF] aF false ⟨[], inbox, _⟩ rfl ?_
                simp [baseGame.offeringLoop, basePacket.sendTyped, basePacket.send,
                  baseRadio.send, basePacket.requireTypeTimeout, baseRadio.recvTimeout,
                  basePacketClass, hd, PacketClass.image, controlDatagram, toBool_ofBool,
                  baseRadio.log]
              · refine hacc (aF :: aC :: acks) aF aC ⟨acks, inbox, _⟩ rfl ?_
                simp [baseGame.offeringLoop, basePacket.sendTyped, basePacket.send,
                  baseRadio.send, basePacket.requireTypeTimeout, baseRadio.recvTimeout,
                  basePacketClass, hd, PacketClass.image, controlDatagram, toBool_ofBool,
                  baseRadio.log]
            · -- a packet of another type
              obtain ⟨evs, htr, hout⟩ := ih
                { type := d.type, subType := d.subType }
                ⟨g, ⟨acks, inbox, tr ++ [Event.send
                    (controlDatagram W L packetType_t.OFFERING_GAME_PACKET p.subType) true] ++
                  [Event.recvTimeout (packetLen L L.sizeof_basePacket) OFFERING_TIMEOUT
                    (some d)]⟩⟩
              have hloop : baseGame.offeringLoop H L (k + 1) p ⟨g, ⟨true :: acks,
                  rxEvent.delivered d :: inbox, tr⟩⟩ =
                baseGame.offeringLoop H L k { type := d.type, subType := d.subType }
                  ⟨g, ⟨acks, inbox, tr ++ [Event.send
                    (controlDatagram W L packetType_t.OFFERING_GAME_PACKET p.subType) true] ++
                  [Event.recvTimeout (packetLen L L.sizeof_basePacket) OFFERING_TIMEOUT
                    (some d)]⟩⟩ := by
                simp [baseGame.offeringLoop, basePacket.sendTyped, basePacket.send,
                  baseRadio.send, basePacket.requireTypeTimeout, baseRadio.recvTimeout,
                  basePacketClass, hd, PacketClass.image, controlDatagram]
              rw [hloop]
              refine ⟨[Event.send
                (controlDatagram W L packetType_t.OFFERING_GAME_PACKET p.subType) true,
                Event.recvTimeout (packetLen L L.sizeof_basePacket) OFFERING_TIMEOUT (some d)]
                ++ evs, ?_, ?_⟩
              · exact htr.trans (by simp)
              · refine outcome_after_failed_try H L k _ _ _ evs _ true rfl rfl ?_ rfl rfl hout
                simp [Event.isAccept, hd]

/-- C4. `offeringGame`, accept path. For every run in which a timed wait returns a packet of
type `ACCEPTING_GAME_PACKET` (which only happens after an acknowledged offer, on the first or
the second try): the datagrams sent are one or two offers followed by exactly one found packet
and then one flip packet, and nothing after them; the flip packet's subtype is the cast of the
coin, non-zero exactly when the coin is true; `coinFlip` was called exactly once; and the step
ends with `currentMoveNum = 1` and `gameState = MY_TURN` if the coin is true, `OPPONENTS_TURN`
if it is false. The acknowledgements `aF` and `aC` of the found and flip packets are
arbitrary. -/
theorem offeringGame_accept {G W : Type} (H : Handlers G W) (L : Layout) (s : Session G W)
    (hacc : ∃ e ∈ s.traceSince (baseGame.offeringGame H L s), e.isAccept = true) :
    ∃ (offers : List (Datagram W × Bool)) (st : packetSubType_t) (aF aC : Bool),
      sentPackets (s.traceSince (baseGame.offeringGame H L s)) = offers ++
        [(controlDatagram W L packetType_t.FOUND_GAME_PACKET st, aF),
         (controlDatagram W L packetType_t.COIN_FLIP_PACKET
            (packetSubType_t.ofBool (H.coinFlip s.game.derived).2), aC)] ∧
      (∀ x ∈ offers, x.1.type = packetType_t.OFFERING_GAME_PACKET) ∧
      1 ≤ offers.length ∧ offers.length ≤ OFFERING_TRIES ∧
      ((packetSubType_t.ofBool (H.coinFlip s.game.derived).2).toNat ≠ 0 ↔
        (H.coinFlip s.game.derived).2 = true) ∧
      (s.traceSince (baseGame.offeringGame H L s)).filter Event.isCoinFlip =
        [Event.coinFlip (H.coinFlip s.game.derived).2] ∧
      (baseGame.offeringGame H L s).game.currentMoveNum = 1 ∧
      (baseGame.offeringGame H L s).game.gameState =
        (if (H.coinFlip s.game.derived).2 then gameState_t.MY_TURN
         else gameState_t.OPPONENTS_TURN) := by
  obtain ⟨evs, htr, hout⟩ := offeringLoop_outcome H L OFFERING_TRIES
    { type := packetType_t.NO_PACKET_TYPE, subType := packetSubType_t.NO_SUBTYPE }
    { s with game := { s.game with currentMoveNum := 1 } }
  have hts : s.traceSince (baseGame.offeringGame H L s) = evs :=
    traceSince_eq s _ evs htr
  rw [hts] at hacc ⊢
  rcases hout with hA | hG
  · obtain ⟨offers, st, aF, aC, hs, hall, h1, hk, -, hC, -, hg⟩ := hA
    refine ⟨offers, st, aF, aC, hs, hall, h1, hk, ?_, hC, ?_, ?_⟩
    · cases (H.coinFlip s.game.derived).2 <;> simp [packetSubType_t.ofBool,
        packetSubType_t.toNat]
    · exact (congrArg baseGame.currentMoveNum hg).trans rfl
    · exact (congrArg baseGame.gameState hg).trans rfl
  · obtain ⟨e, he, hacc⟩ := hacc
    have h0 := hG.2.2.1
    rw [List.countP_eq_zero] at h0
    exact absurd hacc (h0 e he)

/-- Witness for C4: the first offer is not acknowledged, the second is and is answered by an
accept; the toy coin is true, the found packet is acknowledged and the flip packet is not. -/
theorem offeringGame_accept_witness :
    (baseGame.offeringGame demoHandlers demoLayout
      (demoSession gameState_t.OFFERING_GAME 7 [false, true, true, false]
        [rxEvent.delivered (demoControl packetType_t.ACCEPTING_GAME_PACKET
          packetSubType_t.NO_SUBTYPE)])).game.currentMoveNum = 1 ∧
    (baseGame.offeringGame demoHandlers demoLayout
      (demoSession gameState_t.OFFERING_GAME 7 [false, true, true, false]
        [rxEvent.delivered (demoControl packetType_t.ACCEPTING_GAME_PACKET
          packetSubType_t.NO_SUBTYPE)])).game.gameState = gameState_t.MY_TURN :=
  (offeringGame_accept demoHandlers demoLayout
    (demoSession gameState_t.OFFERING_GAME 7 [false, true, true, false]
      [rxEvent.delivered (demoControl packetType_t.ACCEPTING_GAME_PACKET
        packetSubType_t.NO_SUBTYPE)])
    ⟨Event.recvTimeout 8 1000 (some (demoControl packetType_t.ACCEPTING_GAME_PACKET
      packetSubType_t.NO_SUBTYPE)), by decide, rfl⟩).elim
    fun _ h => h.elim fun _ h => h.elim fun _ h => h.elim fun _ h =>
      ⟨h.2.2.2.2.2.2.1, h.2.2.2.2.2.2.2⟩

/-- C7. `offeringGame`, give-up path. For every run in which no timed wait returns a packet of
type `ACCEPTING_GAME_PACKET` (each offer is unacknowledged, or its wait runs out, or it gets a
packet of another type): exactly `OFFERING_TRIES = 2` datagrams were sent, all of them offers;
`coinFlip` and `fatalError` were never called; and the step ends with
`gameState = SEEKING_GAME`. -/
theorem offeringGame_give_up {G W : Type} (H : Handlers G W) (L : Layout) (s : Session G W)
    (hno : ∀ e ∈ s.traceSince (baseGame.offeringGame H L s), e.isAccept = false) :
    (sentPackets (s.traceSince (baseGame.offeringGame H L s))).length = OFFERING_TRIES ∧
    OFFERING_TRIES = 2 ∧
    (∀ x ∈ sentPackets (s.traceSince (baseGame.offeringGame H L s)),
      x.1.type = packetType_t.OFFERING_GAME_PACKET) ∧
    (s.traceSince (baseGame.offeringGame H L s)).countP Event.isCoinFlip = 0 ∧
    (s.traceSince (baseGame.offeringGame H L s)).countP Event.isFatal = 0 ∧
    (baseGame.offeringGame H L s).game.gameState = gameState_t.SEEKING_GAME := by
  obtain ⟨evs, htr, hout⟩ := offeringLoop_outcome H L OFFERING_TRIES
    { type := packetType_t.NO_PACKET_TYPE, subType := packetSubType_t.NO_SUBTYPE }
    { s with game := { s.game with currentMoveNum := 1 } }
  have hts : s.traceSince (baseGame.offeringGame H L s) = evs :=
    traceSince_eq s _ evs htr
  rw [hts] at hno ⊢
  rcases hout with hA | hG
  · obtain ⟨offers, st, aF, aC, -, -, -, -, hacc, -, -, -⟩ := hA
    have h0 : evs.countP Event.isAccept = 0 := by
      rw [List.countP_eq_zero]
      intro e he
      simp [hno e he]
    rw [h0] at hacc
    exact absurd hacc (by decide)
  · obtain ⟨hlen, hall, -, hC, hF, hg⟩ := hG
    exact ⟨hlen, rfl, hall, hC, hF, (congrArg baseGame.gameState hg).trans rfl⟩

/-- Witness for C7 (Scenario B): the first offer is acknowledged and answered by a packet of
another type, the second is not acknowledged; the step ends in `SEEKING_GAME`. -/
theorem offeringGame_give_up_witness :
    (sentPackets (baseGame.offeringGame demoHandlers demoLayout
      (demoSession gameState_t.OFFERING_GAME 7 [true, false]
        [rxEvent.delivered (demoControl packetType_t.OFFERING_GAME_PACKET
          packetSubType_t.NO_SUBTYPE)])).Radio.trace).length = 2 ∧
    (baseGame.offeringGame demoHandlers demoLayout
      (demoSession gameState_t.OFFERING_GAME 7 [true, false]
        [rxEvent.delivered (demoControl packetType_t.OFFERING_GAME_PACKET
          packetSubType_t.NO_SUBTYPE)])).game.gameState = gameState_t.SEEKING_GAME :=
  have h := offeringGame_give_up demoHandlers demoLayout
    (demoSession gameState_t.OFFERING_GAME 7 [true, false]
      [rxEvent.delivered (demoControl packetType_t.OFFERING_GAME_PACKET
        packetSubType_t.NO_SUBTYPE)])
    (by decide)
  ⟨h.1, h.2.2.2.2.2⟩

/-! ### The seeking state -/

theorem toBool_iff (st : packetSubType_t) : st.toBool = true ↔ st.toNat ≠ 0 := by
  simp [packetSubType_t.toBool]

/-- The run of `seekingGame` when its accept is acknowledged and its three waits return. -/
theorem seekingGame_run {G W : Type} (H : Handlers G W) (L : Layout) (s : Session G W)
    (acks : List Bool) (p1 p3 p4 : basePacket) (rest1 rest2 rest3 : List (rxEvent W))
    (evs1 evs2 evs3 : List (Event W))
    (hoffer : basePacket.requireTypeLoop (basePacketClass W) L
      packetType_t.OFFERING_GAME_PACKET s.Radio.inbox (packetLen L L.sizeof_basePacket)
      { type := packetType_t.NO_PACKET_TYPE, subType := packetSubType_t.NO_SUBTYPE }
      = some (p1, rest1, evs1))
    (hack : s.Radio.acks = true :: acks)
    (hfound : basePacket.requireTypeLoop (basePacketClass W) L
      packetType_t.FOUND_GAME_PACKET rest1 (packetLen L L.sizeof_basePacket)
      { p1 with type := packetType_t.ACCEPTING_GAME_PACKET } = some (p3, rest2, evs2))
    (hflip : basePacket.requireTypeLoop (basePacketClass W) L
      packetType_t.COIN_FLIP_PACKET rest2 (packetLen L L.sizeof_basePacket) p3
      = some (p4, rest3, evs3)) :
    baseGame.seekingGame H L s = some
      { game :=
          { s.game with
              derived := H.processFlip p4.subType.toBool (H.foundGame s.game.derived)
              gameState := if p4.subType.toBool then gameState_t.OPPONENTS_TURN
                           else gameState_t.MY_TURN
              currentMoveNum := 1 }
        Radio :=
          { acks := acks
            inbox := rest3
            trace := s.Radio.trace ++ (evs1 ++
              [Event.send (controlDatagram W L packetType_t.ACCEPTING_GAME_PACKET p1.subType)
                true] ++ evs2 ++ [Event.foundGame] ++ evs3 ++
              [Event.processFlip p4.subType.toBool]) } } := by
  have h1 : basePacket.requireTypeLoop (basePacketClass W) L
      packetType_t.OFFERING_GAME_PACKET s.Radio.inbox
      (packetLen L ((basePacketClass W).my_size L))
      { type := packetType_t.NO_PACKET_TYPE, subType := packetSubType_t.NO_SUBTYPE }
      = some (p1, rest1, evs1) := hoffer
  have h2 : basePacket.requireTypeLoop (basePacketClass W) L
      packetType_t.FOUND_GAME_PACKET rest1 (packetLen L ((basePacketClass W).my_size L))
      ((basePacketClass W).setType packetType_t.ACCEPTING_GAME_PACKET p1)
      = some (p3, rest2, evs2) := hfound
  have h3 : basePacket.requireTypeLoop (basePacketClass W) L
      packetType_t.COIN_FLIP_PACKET rest2 (packetLen L ((basePacketClass W).my_size L)) p3
      = some (p4, rest3, evs3) := hflip
  simp only [baseGame.seekingGame, basePacket.requireType, h1, basePacket.sendTyped,
    basePacket.send, baseRadio.send, hack, h2, baseRadio.log, h3]
  simp [PacketClass.image, controlDatagram, basePacketClass]

/-- C5. `seekingGame`, success path. For every run in which the wait for the offer returns, the
accept is acknowledged, and the waits for the found packet and for the flip packet return: the
step returns; its trace is the receive entries of the first wait (ending with a packet of type
`OFFERING_GAME_PACKET`), the one send, of the accept, the receive entries of the second wait
(ending with `FOUND_GAME_PACKET`), one call of `foundGame`, the receive entries of the third
wait (ending with `COIN_FLIP_PACKET`), and one call of `processFlip` with the cast of the
received subtype; exactly one datagram was sent; and the step ends with `currentMoveNum = 1`
and `gameState = OPPONENTS_TURN` if the received flip subtype is non-zero, `MY_TURN` if it is
zero. -/
theorem seekingGame_success {G W : Type} (H : Handlers G W) (L : Layout) (s : Session G W)
    (acks : List Bool) (p1 p3 p4 : basePacket) (rest1 rest2 rest3 : List (rxEvent W))
    (evs1 evs2 evs3 : List (Event W))
    (hoffer : basePacket.requireTypeLoop (basePacketClass W) L
      packetType_t.OFFERING_GAME_PACKET s.Radio.inbox (packetLen L L.sizeof_basePacket)
      { type := packetType_t.NO_PACKET_TYPE, subType := packetSubType_t.NO_SUBTYPE }
      = some (p1, rest1, evs1))
    (hack : s.Radio.acks = true :: acks)
    (hfound : basePacket.requireTypeLoop (basePacketClass W) L
      packetType_t.FOUND_GAME_PACKET rest1 (packetLen L L.sizeof_basePacket)
      { p1 with type := packetType_t.ACCEPTING_GAME_PACKET } = some (p3, rest2, evs2))
    (hflip : basePacket.requireTypeLoop (basePacketClass W) L
      packetType_t.COIN_FLIP_PACKET rest2 (packetLen L L.sizeof_basePacket) p3
      = some (p4, rest3, evs3)) :
    ∃ t : Session G W, baseGame.seekingGame H L s = some t ∧
      s.traceSince t = evs1 ++
        [Event.send (controlDatagram W L packetType_t.ACCEPTING_GAME_PACKET p1.subType)
          true] ++ evs2 ++ [Event.foundGame] ++ evs3 ++
        [Event.processFlip (decide (p4.subType.toNat ≠ 0))] ∧
      (∀ e ∈ evs1 ++ evs2 ++ evs3, e.isRx = true) ∧
      p1.type = packetType_t.OFFERING_GAME_PACKET ∧
      p3.type = packetType_t.FOUND_GAME_PACKET ∧
      p4.type = packetType_t.COIN_FLIP_PACKET ∧
      sentPackets (s.traceSince t) =
        [(controlDatagram W L packetType_t.ACCEPTING_GAME_PACKET p1.subType, true)] ∧
      t.game.currentMoveNum = 1 ∧
      t.game.gameState =
        (if p4.subType.toNat ≠ 0 then gameState_t.OPPONENTS_TURN else gameState_t.MY_TURN) := by
  obtain ⟨ht1, hrx1⟩ := requireTypeLoop_exit _ L _ _ _ _ _ _ _ hoffer
  obtain ⟨ht3, hrx2⟩ := requireTypeLoop_exit _ L _ _ _ _ _ _ _ hfound
  obtain ⟨ht4, hrx3⟩ := requireTypeLoop_exit _ L _ _ _ _ _ _ _ hflip
  have hb : p4.subType.toBool = decide (p4.subType.toNat ≠ 0) := by
    by_cases h : p4.subType.toNat = 0 <;> simp [packetSubType_t.toBool, h]
  refine ⟨_, seekingGame_run H L s acks p1 p3 p4 rest1 rest2 rest3 evs1 evs2 evs3 hoffer hack
    hfound hflip, ?_, ?_, ht1, ht3, ht4, ?_, rfl, ?_⟩
  · rw [traceSince_eq s _ _ rfl, hb]
  · intro e he
    rcases List.mem_append.mp he with he | he
    · rcases List.mem_append.mp he with he | he
      · exact hrx1 e he
      · exact hrx2 e he
    · exact hrx3 e he
  · rw [traceSince_eq s _ _ rfl]
    simp [sentPackets_append, sentPackets, sentPackets_of_isRx _ hrx1,
      sentPackets_of_isRx _ hrx2, sentPackets_of_isRx _ hrx3]
  · show (if p4.subType.toBool = true then gameState_t.OPPONENTS_TURN
      else gameState_t.MY_TURN) = _
    rw [hb]
    simp

/-- Witness for C5: the flip packet arrives with subtype 1; the seeker ends in
`OPPONENTS_TURN` with counter 1. -/
theorem seekingGame_success_witness :
    ∃ t : Session Nat Nat,
      baseGame.seekingGame demoHandlers demoLayout
        (demoSession gameState_t.SEEKING_GAME 7 [true]
          (seekerInbox packetSubType_t.NORMAL_MOVE)) = some t ∧
      t.game.currentMoveNum = 1 ∧ t.game.gameState = gameState_t.OPPONENTS_TURN :=
  (seekingGame_success demoHandlers demoLayout
    (demoSession gameState_t.SEEKING_GAME 7 [true] (seekerInbox packetSubType_t.NORMAL_MOVE))
    []
    { type := packetType_t.OFFERING_GAME_PACKET, subType := packetSubType_t.NO_SUBTYPE }
    { type := packetType_t.FOUND_GAME_PACKET, subType := packetSubType_t.NO_SUBTYPE }
    { type := packetType_t.COIN_FLIP_PACKET, subType := packetSubType_t.NORMAL_MOVE }
    [rxEvent.delivered (demoMoveDatagram 1 0),
     rxEvent.delivered (demoControl packetType_t.FOUND_GAME_PACKET packetSubType_t.NO_SUBTYPE),
     rxEvent.delivered (demoControl packetType_t.COIN_FLIP_PACKET packetSubType_t.NORMAL_MOVE)]
    [rxEvent.delivered (demoControl packetType_t.COIN_FLIP_PACKET packetSubType_t.NORMAL_MOVE)]
    []
    [Event.available false, Event.available true,
      Event.recv 8 (some (demoControl packetType_t.OFFERING_GAME_PACKET
        packetSubType_t.NO_SUBTYPE))]
    [Event.available true, Event.recv 8 (some (demoMoveDatagram 1 0)),
      Event.available true,
      Event.recv 8 (some (demoControl packetType_t.FOUND_GAME_PACKET
        packetSubType_t.NO_SUBTYPE))]
    [Event.available true,
      Event.recv 8 (some (demoControl packetType_t.COIN_FLIP_PACKET
        packetSubType_t.NORMAL_MOVE))]
    rfl rfl rfl rfl).imp
    fun _ h => ⟨h.1, h.2.2.2.2.2.2.2.1, h.2.2.2.2.2.2.2.2⟩

/-! ### The handshake between two peers -/

/-- C6. Complementary turn order. The offering peer A completes the accept path of
`offeringGame` with coin `b`; the seeking peer B runs `seekingGame`, its accept is acknowledged
and its three waits return, and the flip packet B holds when its last wait returns is a datagram
A sent. Then B's step returns, A is in `MY_TURN` and B in `OPPONENTS_TURN` when `b` is true,
and A is in `OPPONENTS_TURN` and B in `MY_TURN` when `b` is false; in both cases one peer is in
`MY_TURN` and the other in `OPPONENTS_TURN`. -/
theorem complementary_turn_order {G W : Type} (HA HB : Handlers G W) (L : Layout)
    (sA sB : Session G W) (b : Bool)
    (acks : List Bool) (p1 p3 p4 : basePacket) (rest1 rest2 rest3 : List (rxEvent W))
    (evs1 evs2 evs3 : List (Event W))
    (hacc : ∃ e ∈ sA.traceSince (baseGame.offeringGame HA L sA), e.isAccept = true)
    (hb : (HA.coinFlip sA.game.derived).2 = b)
    (hoffer : basePacket.requireTypeLoop (basePacketClass W) L
      packetType_t.OFFERING_GAME_PACKET sB.Radio.inbox (packetLen L L.sizeof_basePacket)
      { type := packetType_t.NO_PACKET_TYPE, subType := packetSubType_t.NO_SUBTYPE }
      = some (p1, rest1, evs1))
    (hack : sB.Radio.acks = true :: acks)
    (hfound : basePacket.requireTypeLoop (basePacketClass W) L
      packetType_t.FOUND_GAME_PACKET rest1 (packetLen L L.sizeof_basePacket)
      { p1 with type := packetType_t.ACCEPTING_GAME_PACKET } = some (p3, rest2, evs2))
    (hflip : basePacket.requireTypeLoop (basePacketClass W) L
      packetType_t.COIN_FLIP_PACKET rest2 (packetLen L L.sizeof_basePacket) p3
      = some (p4, rest3, evs3))
    (hsame : ∃ ack, ((basePacketClass W).image L p4, ack) ∈
      sentPackets (sA.traceSince (baseGame.offeringGame HA L sA))) :
    ∃ tB : Session G W, baseGame.seekingGame HB L sB = some tB ∧
      (baseGame.offeringGame HA L sA).game.gameState =
        (if b then gameState_t.MY_TURN else gameState_t.OPPONENTS_TURN) ∧
      tB.game.gameState =
        (if b then gameState_t.OPPONENTS_TURN else gameState_t.MY_TURN) ∧
      (((baseGame.offeringGame HA L sA).game.gameState = gameState_t.MY_TURN ∧
          tB.game.gameState = gameState_t.OPPONENTS_TURN) ∨
        ((baseGame.offeringGame HA L sA).game.gameState = gameState_t.OPPONENTS_TURN ∧
          tB.game.gameState = gameState_t.MY_TURN)) := by
  obtain ⟨ht4, -⟩ := requireTypeLoop_exit _ L _ _ _ _ _ _ _ hflip
  have ht4b : p4.type = packetType_t.COIN_FLIP_PACKET := ht4
  obtain ⟨evs, htr, hout⟩ := offeringLoop_outcome HA L OFFERING_TRIES
    { type := packetType_t.NO_PACKET_TYPE, subType := packetSubType_t.NO_SUBTYPE }
    { sA with game := { sA.game with currentMoveNum := 1 } }
  have hts : sA.traceSince (baseGame.offeringGame HA L sA) = evs :=
    traceSince_eq sA _ evs htr
  rw [hts] at hacc hsame
  rcases hout with hA | hG
  · obtain ⟨offers, st, aF, aC, hs, hall, -, -, -, -, -, hg⟩ := hA
    have hgA : (baseGame.offeringGame HA L sA).game.gameState =
        (if b then gameState_t.MY_TURN else gameState_t.OPPONENTS_TURN) := by
      rw [← hb]
      exact (congrArg baseGame.gameState hg).trans rfl
    -- the packet B holds is the flip packet A sent
    have hsub : p4.subType = packetSubType_t.ofBool b := by
      obtain ⟨ack, hmem⟩ := hsame
      rw [hs] at hmem
      rcases List.mem_append.mp hmem with hmem | hmem
      · have := hall _ hmem
        simp [PacketClass.image, basePacketClass, ht4b] at this
      · simp only [List.mem_cons, Prod.mk.injEq, List.mem_singleton, List.not_mem_nil,
          or_false] at hmem
        rcases hmem with hmem | hmem
        · have := congrArg Datagram.type hmem.1
          simp [PacketClass.image, basePacketClass, controlDatagram, ht4b] at this
        · have := congrArg Datagram.subType hmem.1
          simpa [PacketClass.image, basePacketClass, controlDatagram, hb] using this
    have hgB : (if p4.subType.toBool then gameState_t.OPPONENTS_TURN
        else gameState_t.MY_TURN) =
        (if b then gameState_t.OPPONENTS_TURN else gameState_t.MY_TURN) := by
      rw [hsub, toBool_ofBool]
    refine ⟨_, seekingGame_run HB L sB acks p1 p3 p4 rest1 rest2 rest3 evs1 evs2 evs3 hoffer
      hack hfound hflip, hgA, hgB, ?_⟩
    rw [hgA]
    cases b
    · exact Or.inr ⟨rfl, hgB⟩
    · exact Or.inl ⟨rfl, hgB⟩
  · obtain ⟨e, he, hacc⟩ := hacc
    have h0 := hG.2.2.1
    rw [List.countP_eq_zero] at h0
    exact absurd hacc (h0 e he)

/-- Witness for C6 (Scenario A): peer 1 offers, peer 2 accepts in time, the toy coin is true;
peer 1 ends in `MY_TURN` and peer 2 in `OPPONENTS_TURN`. -/
theorem complementary_turn_order_witness :
    ∃ tB : Session Nat Nat,
      baseGame.seekingGame demoHandlers demoLayout
        (demoSession gameState_t.SEEKING_GAME 7 [true]
          (seekerInbox packetSubType_t.NORMAL_MOVE)) = some tB ∧
      (baseGame.offeringGame demoHandlers demoLayout
        (demoSession gameState_t.OFFERING_GAME 7 [true, true, true]
          [rxEvent.delivered (demoControl packetType_t.ACCEPTING_GAME_PACKET
            packetSubType_t.NO_SUBTYPE)])).game.gameState = gameState_t.MY_TURN ∧
      tB.game.gameState = gameState_t.OPPONENTS_TURN :=
  (complementary_turn_order demoHandlers demoHandlers demoLayout
    (demoSession gameState_t.OFFERING_GAME 7 [true, true, true]
      [rxEvent.delivered (demoControl packetType_t.ACCEPTING_GAME_PACKET
        packetSubType_t.NO_SUBTYPE)])
    (demoSession gameState_t.SEEKING_GAME 7 [true] (seekerInbox packetSubType_t.NORMAL_MOVE))
    true
    []
    { type := packetType_t.OFFERING_GAME_PACKET, subType := packetSubType_t.NO_SUBTYPE }
    { type := packetType_t.FOUND_GAME_PACKET, subType := packetSubType_t.NO_SUBTYPE }
    { type := packetType_t.COIN_FLIP_PACKET, subType := packetSubType_t.NORMAL_MOVE }
    [rxEvent.delivered (demoMoveDatagram 1 0),
     rxEvent.delivered (demoControl packetType_t.FOUND_GAME_PACKET packetSubType_t.NO_SUBTYPE),
     rxEvent.delivered (demoControl packetType_t.COIN_FLIP_PACKET packetSubType_t.NORMAL_MOVE)]
    [rxEvent.delivered (demoControl packetType_t.COIN_FLIP_PACKET packetSubType_t.NORMAL_MOVE)]
    []
    [Event.available false, Event.available true,
      Event.recv 8 (some (demoControl packetType_t.OFFERING_GAME_PACKET
        packetSubType_t.NO_SUBTYPE))]
    [Event.available true, Event.recv 8 (some (demoMoveDatagram 1 0)),
      Event.available true,
      Event.recv 8 (some (demoControl packetType_t.FOUND_GAME_PACKET
        packetSubType_t.NO_SUBTYPE))]
    [Event.available true,
      Event.recv 8 (some (demoControl packetType_t.COIN_FLIP_PACKET
        packetSubType_t.NORMAL_MOVE))]
    ⟨Event.recvTimeout 8 1000 (some (demoControl packetType_t.ACCEPTING_GAME_PACKET
      packetSubType_t.NO_SUBTYPE)), by decide, rfl⟩
    rfl rfl rfl rfl rfl
    ⟨true, by decide⟩).imp
    fun _ h => ⟨h.1, h.2.1, h.2.2.1⟩

/-! ### Failed sends, the unchecked send, and the end of a game -/

/-- C11. Checked sends are fatal on ack failure. In `doMyTurn` (session `s`), if the Move send
is not acknowledged, and in `seekingGame` (session `u`, whose wait for the offer returns), if
the accept send is not acknowledged: the step returns; `fatalError` was called exactly once; the
step made no receive attempt after the failed send (in `doMyTurn` none at all, in `seekingGame`
the trace ends with the failed send and the call of `fatalError`, and the inbox is what the
wait for the offer left); `foundGame`, `processFlip` and `processResults` were not called; and
the final game object is what the `fatalError` handler made of a game object whose `gameState`
and `currentMoveNum` are those at the start of the step. -/
theorem checked_sends_fatal {G W : Type} (H : Handlers G W) (L : Layout)
    (s u : Session G W) (p1 : basePacket) (rest1 : List (rxEvent W)) (evs1 : List (Event W))
    (hs : s.Radio.acks.head? ≠ some true)
    (hoffer : basePacket.requireTypeLoop (basePacketClass W) L
      packetType_t.OFFERING_GAME_PACKET u.Radio.inbox (packetLen L L.sizeof_basePacket)
      { type := packetType_t.NO_PACKET_TYPE, subType := packetSubType_t.NO_SUBTYPE }
      = some (p1, rest1, evs1))
    (hu : u.Radio.acks.head? ≠ some true) :
    (∃ t : Session G W, baseGame.doMyTurn H L s = some t ∧
      (s.traceSince t).filter Event.isFatal = [Event.fatalError "No ack from send move"] ∧
      (s.traceSince t).countP Event.isRx = 0 ∧
      (s.traceSince t).countP Event.isProcessResults = 0 ∧
      t.Radio.inbox = s.Radio.inbox ∧
      ∃ g : baseGame G W, t.game = H.fatalError "No ack from send move" g ∧
        g.gameState = s.game.gameState ∧ g.currentMoveNum = s.game.currentMoveNum) ∧
    (∃ t : Session G W, baseGame.seekingGame H L u = some t ∧
      u.traceSince t = evs1 ++
        [Event.send (controlDatagram W L packetType_t.ACCEPTING_GAME_PACKET p1.subType) false,
         Event.fatalError "No ack during Accepting Game"] ∧
      (u.traceSince t).filter Event.isFatal =
        [Event.fatalError "No ack during Accepting Game"] ∧
      (u.traceSince t).countP Event.isFoundOrFlip = 0 ∧
      t.Radio.inbox = rest1 ∧
      t.game = H.fatalError "No ack during Accepting Game" u.game) := by
  constructor
  · generalize hdo : baseGame.doMyTurn H L s = r
    rcases hacks : s.Radio.acks with _ | ⟨a, acks⟩
    · simp only [baseGame.doMyTurn, basePacket.send, baseRadio.send, baseRadio.log, hacks,
        Session.fatalError] at hdo
      subst hdo
      refine ⟨_, rfl, ?_, ?_, ?_, rfl, _, rfl, rfl, rfl⟩
      · simp [Session.traceSince, Event.isFatal]
      · simp [Session.traceSince, Event.isRx]
      · simp [Session.traceSince, Event.isProcessResults]
    · cases a with
      | true => simp [hacks] at hs
      | false =>
        simp only [baseGame.doMyTurn, basePacket.send, baseRadio.send, baseRadio.log, hacks,
          Session.fatalError] at hdo
        subst hdo
        refine ⟨_, rfl, ?_, ?_, ?_, rfl, _, rfl, rfl, rfl⟩
        · simp [Session.traceSince, Event.isFatal]
        · simp [Session.traceSince, Event.isRx]
        · simp [Session.traceSince, Event.isProcessResults]
  · obtain ⟨-, hrx⟩ := requireTypeLoop_exit _ L _ _ _ _ _ _ _ hoffer
    have h1 : basePacket.requireTypeLoop (basePacketClass W) L
        packetType_t.OFFERING_GAME_PACKET u.Radio.inbox
        (packetLen L ((basePacketClass W).my_size L))
        { type := packetType_t.NO_PACKET_TYPE, subType := packetSubType_t.NO_SUBTYPE }
        = some (p1, rest1, evs1) := hoffer
    generalize hdo : baseGame.seekingGame H L u = r
    rcases hacks : u.Radio.acks with _ | ⟨a, acks⟩
    · simp only [baseGame.seekingGame, basePacket.requireType, h1, basePacket.sendTyped,
        basePacket.send, baseRadio.send, hacks, baseRadio.log, Session.fatalError] at hdo
      subst hdo
      refine ⟨_, rfl, ?_, ?_, ?_, rfl, rfl⟩
      · simp [Session.traceSince, PacketClass.image, controlDatagram, basePacketClass]
      · simp [Session.traceSince, List.filter_append, Event.isFatal,
          filter_of_isRx _ evs1 isRx_not_fatal hrx]
      · have hq : ∀ e : Event W, e.isRx = true → e.isFoundOrFlip = false := by
          intro e he; cases e <;> simp_all [Event.isRx, Event.isFoundOrFlip]
        simp [Session.traceSince, Event.isFoundOrFlip, countP_of_isRx _ evs1 hq hrx]
    · cases a with
      | true => simp [hacks] at hu
      | false =>
        simp only [baseGame.seekingGame, basePacket.requireType, h1, basePacket.sendTyped,
          basePacket.send, baseRadio.send, hacks, baseRadio.log, Session.fatalError] at hdo
        subst hdo
        refine ⟨_, rfl, ?_, ?_, ?_, rfl, rfl⟩
        · simp [Session.traceSince, PacketClass.image, controlDatagram, basePacketClass]
        · simp [Session.traceSince, List.filter_append, Event.isFatal,
            filter_of_isRx _ evs1 isRx_not_fatal hrx]
        · have hq : ∀ e : Event W, e.isRx = true → e.isFoundOrFlip = false := by
            intro e he; cases e <;> simp_all [Event.isRx, Event.isFoundOrFlip]
          simp [Session.traceSince, Event.isFoundOrFlip, countP_of_isRx _ evs1 hq hrx]

/-- Witness for C11: a move whose send is not acknowledged, and a seeker whose accept is not
acknowledged; each step calls `fatalError` once and the engine leaves the counter at 3. -/
theorem checked_sends_fatal_witness :
    (∃ t : Session Nat Nat,
      baseGame.doMyTurn demoHandlers demoLayout
        (demoSession gameState_t.MY_TURN 3 [false] []) = some t ∧
      t.game.currentMoveNum = 3) ∧
    (∃ t : Session Nat Nat,
      baseGame.seekingGame demoHandlers demoLayout
        (demoSession gameState_t.SEEKING_GAME 3 [false]
          (seekerInbox packetSubType_t.NORMAL_MOVE)) = some t ∧
      t.game.currentMoveNum = 3) :=
  have h := checked_sends_fatal demoHandlers demoLayout
    (demoSession gameState_t.MY_TURN 3 [false] [])
    (demoSession gameState_t.SEEKING_GAME 3 [false] (seekerInbox packetSubType_t.NORMAL_MOVE))
    { type := packetType_t.OFFERING_GAME_PACKET, subType := packetSubType_t.NO_SUBTYPE }
    [rxEvent.delivered (demoMoveDatagram 1 0),
     rxEvent.delivered (demoControl packetType_t.FOUND_GAME_PACKET packetSubType_t.NO_SUBTYPE),
     rxEvent.delivered (demoControl packetType_t.COIN_FLIP_PACKET packetSubType_t.NORMAL_MOVE)]
    [Event.available false, Event.available true,
      Event.recv 8 (some (demoControl packetType_t.OFFERING_GAME_PACKET
        packetSubType_t.NO_SUBTYPE))]
    (by decide) rfl (by decide)
  ⟨h.1.imp fun _ k => ⟨k.1, by
      obtain ⟨g, hg, -, hn⟩ := k.2.2.2.2.2
      rw [hg]; exact hn⟩,
   h.2.imp fun _ k => ⟨k.1, by rw [k.2.2.2.2.2]; rfl⟩⟩

/-- C12. The Result send is not escalated. Take a session whose wait for the move returns a
Move that the engine accepts (numbered 0 or with the counter value), and run `doOpponentsTurn`
on it with any two lists of acknowledgements `acks1` and `acks2` (in particular the Result send
acknowledged in one and not in the other): both runs return, with the same game object, hence
the same `gameState` and `currentMoveNum`, and `fatalError` is called in neither. -/
theorem results_send_not_escalated {G W : Type} (H : Handlers G W) (L : Layout)
    (g : baseGame G W) (inbox : List (rxEvent W)) (tr : List (Event W))
    (acks1 acks2 : List Bool)
    (mv : baseMove W) (rest : List (rxEvent W)) (evs : List (Event W))
    (hrecv : basePacket.requireTypeLoop (baseMoveClass W) L packetType_t.MOVE_PACKET
      inbox (packetLen L L.sizeof_Move) g.Move = some (mv, rest, evs))
    (hnum : mv.moveNum = 0 ∨ mv.moveNum = g.currentMoveNum) :
    ∃ t1 t2 : Session G W,
      baseGame.doOpponentsTurn H L ⟨g, ⟨acks1, inbox, tr⟩⟩ = some t1 ∧
      baseGame.doOpponentsTurn H L ⟨g, ⟨acks2, inbox, tr⟩⟩ = some t2 ∧
      t1.game = t2.game ∧
      t1.game.gameState = t2.game.gameState ∧
      t1.game.currentMoveNum = t2.game.currentMoveNum ∧
      (t1.Radio.trace.drop tr.length).countP Event.isFatal = 0 ∧
      (t2.Radio.trace.drop tr.length).countP Event.isFatal = 0 := by
  obtain ⟨-, hrx⟩ := requireTypeLoop_exit _ L _ _ _ _ _ _ _ hrecv
  have hrecv2 : basePacket.requireTypeLoop (baseMoveClass W) L packetType_t.MOVE_PACKET
      inbox (packetLen L ((baseMoveClass W).my_size L)) g.Move
      = some (mv, rest, evs) := hrecv
  have hok : ¬ (mv.moveNum ≠ (if mv.moveNum = 0 then 0 else g.currentMoveNum) ∧
      mv.moveNum > 0) := by
    rcases hnum with h | h
    · simp [h]
    · intro hc
      have hne : ¬ mv.moveNum = 0 := Nat.pos_iff_ne_zero.mp hc.2
      rw [if_neg hne] at hc
      exact hc.1 h
  have key : ∀ acks : List Bool, ∃ (t : Session G W) (R : baseRadio W),
      baseGame.doOpponentsTurn H L ⟨g, ⟨acks, inbox, tr⟩⟩ = some t ∧
      t = ⟨{ g with
              Move := mv
              currentMoveNum := ((if mv.moveNum = 0 then 0 else g.currentMoveNum) + 1) % 65536
              derived := (H.generateResults g.derived mv g.Results).1
              Results := (H.generateResults g.derived mv g.Results).2.1
              gameState := if (H.generateResults g.derived mv g.Results).2.2
                then gameState_t.GAME_OVER else gameState_t.MY_TURN }, R⟩ ∧
      (R.trace.drop tr.length).countP Event.isFatal = 0 := by
    intro acks
    generalize hdo : baseGame.doOpponentsTurn H L ⟨g, ⟨acks, inbox, tr⟩⟩ = r
    rcases acks with _ | ⟨a, acks⟩
    · simp only [baseGame.doOpponentsTurn, baseMove.require, basePacket.requireType, hrecv2,
        hok, if_false, basePacket.send, baseRadio.send, baseRadio.log] at hdo
      subst hdo
      refine ⟨_, _, rfl, rfl, ?_⟩
      simp [Event.isFatal, countP_of_isRx _ evs isRx_not_fatal hrx]
    · simp only [baseGame.doOpponentsTurn, baseMove.require, basePacket.requireType, hrecv2,
        hok, if_false, basePacket.send, baseRadio.send, baseRadio.log] at hdo
      subst hdo
      refine ⟨_, _, rfl, rfl, ?_⟩
      simp [Event.isFatal, countP_of_isRx _ evs isRx_not_fatal hrx]
  obtain ⟨t1, R1, h1, e1, f1⟩ := key acks1
  obtain ⟨t2, R2, h2, e2, f2⟩ := key acks2
  subst e1 e2
  exact ⟨_, _, h1, h2, rfl, rfl, rfl, f1, f2⟩

/-- Witness for C12: move 3 arrives at counter 3; the Result send is acknowledged in one run
and not in the other, and both end in `MY_TURN` with counter 4. -/
theorem results_send_not_escalated_witness :
    ∃ t1 t2 : Session Nat Nat,
      baseGame.doOpponentsTurn demoHandlers demoLayout
        (demoSession gameState_t.OPPONENTS_TURN 3 [true]
          [rxEvent.delivered (demoMoveDatagram 3 5)]) = some t1 ∧
      baseGame.doOpponentsTurn demoHandlers demoLayout
        (demoSession gameState_t.OPPONENTS_TURN 3 [false]
          [rxEvent.delivered (demoMoveDatagram 3 5)]) = some t2 ∧
      t1.game.gameState = t2.game.gameState ∧
      t1.game.currentMoveNum = t2.game.currentMoveNum :=
  (results_send_not_escalated demoHandlers demoLayout
    (baseGame.new (demoMove 0) (demoResults 0) true 3 gameState_t.OPPONENTS_TURN 0)
    [rxEvent.delivered (demoMoveDatagram 3 5)] [] [true] [false]
    { type := packetType_t.MOVE_PACKET, subType := packetSubType_t.NORMAL_MOVE, moveNum := 3,
      payload := 5 }
    []
    [Event.available true, Event.recv 12 (some (demoMoveDatagram 3 5))]
    rfl (Or.inr rfl)).imp
    fun _ h => h.imp fun _ k => ⟨k.1, k.2.1, k.2.2.2.1, k.2.2.2.2.1⟩

/-- C13. A step taken in `GAME_OVER`, for every value of the other fields of the session: the
step returns; its trace is the one call of `processGameOver`, so it made no send and no receive
and the link is as it was; and the final game object is what `processGameOver` left with
`gameState` then set to `OFFERING_GAME`. The state `GAME_OVER` is not kept. -/
theorem game_over_step {G W : Type} (H : Handlers G W) (L : Layout) (s : Session G W)
    (hst : s.game.gameState = gameState_t.GAME_OVER) :
    ∃ t : Session G W, baseGame.loopContents H L s = some t ∧
      s.traceSince t = [Event.processGameOver] ∧
      (s.traceSince t).countP Event.isProcessGameOver = 1 ∧
      (s.traceSince t).countP Event.isRadio = 0 ∧
      t.Radio.acks = s.Radio.acks ∧ t.Radio.inbox = s.Radio.inbox ∧
      t.game = { H.processGameOver s.game with gameState := gameState_t.OFFERING_GAME } ∧
      t.game.gameState = gameState_t.OFFERING_GAME ∧
      t.game.gameState ≠ gameState_t.GAME_OVER := by
  refine ⟨baseGame.gameOver H s, ?_, ?_, ?_, ?_, rfl, rfl, rfl, rfl, ?_⟩
  · simp [baseGame.loopContents, hst]
  · simp [Session.traceSince, baseGame.gameOver, baseRadio.log]
  · simp [Session.traceSince, baseGame.gameOver, baseRadio.log, Event.isProcessGameOver]
  · simp [Session.traceSince, baseGame.gameOver, baseRadio.log, Event.isRadio, Event.isSend,
      Event.isRx]
  · simp [baseGame.gameOver]

/-- Witness for C13: a session in `GAME_OVER` with counter 9 and packets waiting. -/
theorem game_over_step_witness :
    ∃ t : Session Nat Nat,
      baseGame.loopContents demoHandlers demoLayout
        (demoSession gameState_t.GAME_OVER 9 [true]
          [rxEvent.delivered (demoMoveDatagram 9 0)]) = some t ∧
      t.game.gameState = gameState_t.OFFERING_GAME ∧
      t.Radio.inbox = [rxEvent.delivered (demoMoveDatagram 9 0)] :=
  (game_over_step demoHandlers demoLayout
    (demoSession gameState_t.GAME_OVER 9 [true] [rxEvent.delivered (demoMoveDatagram 9 0)])
    rfl).imp
    fun _ h => ⟨h.1, h.2.2.2.2.2.2.2.1, h.2.2.2.2.2.1⟩

/-! ### The packet methods -/

/-- C14. `requireTypeTimeout(t, timeout)` on an object of any packet class: it appends exactly
one entry to the trace, the one timed receive with the buffer length
`my_size()-PACKET_OFFSET` and the given timeout, and makes no send (the acknowledgements are
untouched); it returns true if and only if that receive brought a datagram and the type tag
read from the object after the receive is `t`; so on a timeout and on a packet of another type
it returns false; and what the attempt met has been consumed from the inbox, a packet of
another type included. For the three packet classes the tag read after the receive is the tag
of the datagram. -/
theorem requireTypeTimeout_spec {P W : Type} (C : PacketClass P W) (L : Layout)
    (t : packetType_t) (timeout : Nat) (p : P) (R : baseRadio W) :
    (∃ got : Option (Datagram W),
      (basePacket.requireTypeTimeout C L t timeout p R).2.2.trace =
        R.trace ++ [Event.recvTimeout (packetLen L (C.my_size L)) timeout got] ∧
      (got.isSome ↔ ∃ d rest, R.inbox = rxEvent.delivered d :: rest)) ∧
    (basePacket.requireTypeTimeout C L t timeout p R).2.2.acks = R.acks ∧
    (basePacket.requireTypeTimeout C L t timeout p R).2.2.inbox = R.inbox.tail ∧
    ((basePacket.requireTypeTimeout C L t timeout p R).1 = true ↔
      ∃ d rest, R.inbox = rxEvent.delivered d :: rest ∧
        C.type (C.store L p d (min (packetLen L (C.my_size L)) d.len)) = t) ∧
    (∀ (q : basePacket) (d : Datagram W) (n : Nat),
      (basePacketClass W).type ((basePacketClass W).store L q d n) = d.type) ∧
    (∀ (q : baseMove W) (d : Datagram W) (n : Nat),
      (baseMoveClass W).type ((baseMoveClass W).store L q d n) = d.type) ∧
    (∀ (q : baseResults W) (d : Datagram W) (n : Nat),
      (baseResultsClass W).type ((baseResultsClass W).store L q d n) = d.type) := by
  refine ⟨?_, ?_, ?_, ?_, fun _ _ _ => rfl, ?_, ?_⟩
  · rcases hin : R.inbox with _ | ⟨x, rest⟩
    · exact ⟨none, by simp [basePacket.requireTypeTimeout, baseRadio.recvTimeout, hin], by simp⟩
    · cases x with
      | idle =>
        exact ⟨none, by simp [basePacket.requireTypeTimeout, baseRadio.recvTimeout, hin],
          by simp⟩
      | failed =>
        exact ⟨none, by simp [basePacket.requireTypeTimeout, baseRadio.recvTimeout, hin],
          by simp⟩
      | delivered d =>
        refine ⟨some d, ?_, by simp⟩
        simp only [basePacket.requireTypeTimeout, baseRadio.recvTimeout, hin]
        split <;> rfl
  · rcases hin : R.inbox with _ | ⟨x, rest⟩
    · simp [basePacket.requireTypeTimeout, baseRadio.recvTimeout, hin]
    · cases x with
      | idle => simp [basePacket.requireTypeTimeout, baseRadio.recvTimeout, hin]
      | failed => simp [basePacket.requireTypeTimeout, baseRadio.recvTimeout, hin]
      | delivered d =>
        simp only [basePacket.requireTypeTimeout, baseRadio.recvTimeout, hin]
        split <;> rfl
  · rcases hin : R.inbox with _ | ⟨x, rest⟩
    · simp [basePacket.requireTypeTimeout, baseRadio.recvTimeout, hin]
    · cases x with
      | idle => simp [basePacket.requireTypeTimeout, baseRadio.recvTimeout, hin]
      | failed => simp [basePacket.requireTypeTimeout, baseRadio.recvTimeout, hin]
      | delivered d =>
        simp only [basePacket.requireTypeTimeout, baseRadio.recvTimeout, hin]
        split <;> rfl
  · rcases hin : R.inbox with _ | ⟨x, rest⟩
    · simp [basePacket.requireTypeTimeout, baseRadio.recvTimeout, hin]
    · cases x with
      | idle => simp [basePacket.requireTypeTimeout, baseRadio.recvTimeout, hin]
      | failed => simp [basePacket.requireTypeTimeout, baseRadio.recvTimeout, hin]
      | delivered d =>
        simp only [basePacket.requireTypeTimeout, baseRadio.recvTimeout, hin]
        split
        · rename_i h; simp [h]
        · rename_i h; simp [h]
  · intro q d n
    simp only [baseMoveClass]
    split
    · split <;> rfl
    · rfl
  · intro q d n
    simp only [baseResultsClass]
    split
    · split <;> rfl
    · rfl

/-- C16. `basePacket::send()` on an object of any packet class: it appends exactly one entry to
the trace, one `Radio->send` of the object's bytes past the offset (its tags and the fields
after them), with the length `my_size()-PACKET_OFFSET` converted to the `uint8_t` parameter,
which is `my_size()-PACKET_OFFSET` itself for every object shorter than 256 bytes past the
offset; the value returned is the acknowledgement of that one send; one answer of the link is
used up and nothing is received. There is no second send after a failed one. -/
theorem send_spec {P W : Type} (C : PacketClass P W) (L : Layout) (p : P) (R : baseRadio W) :
    (basePacket.send C L p R).2.trace =
      R.trace ++ [Event.send (C.image L p) (basePacket.send C L p R).1] ∧
    (C.image L p).type = C.type p ∧ (C.image L p).subType = C.subType p ∧
    (C.image L p).body = C.body p ∧
    (C.image L p).len = (C.my_size L - PACKET_OFFSET L) % 256 ∧
    (C.my_size L - PACKET_OFFSET L < 256 →
      (C.image L p).len = C.my_size L - PACKET_OFFSET L) ∧
    (basePacket.send C L p R).1 = R.acks.headD false ∧
    (basePacket.send C L p R).2.acks = R.acks.tail ∧
    (basePacket.send C L p R).2.inbox = R.inbox := by
  refine ⟨?_, rfl, rfl, rfl, rfl, fun h => Nat.mod_eq_of_lt h, ?_, ?_, ?_⟩
  · rcases hacks : R.acks with _ | ⟨a, acks⟩ <;> simp [basePacket.send, baseRadio.send, hacks]
  · rcases hacks : R.acks with _ | ⟨a, acks⟩ <;> simp [basePacket.send, baseRadio.send, hacks]
  · rcases hacks : R.acks with _ | ⟨a, acks⟩ <;> simp [basePacket.send, baseRadio.send, hacks]
  · rcases hacks : R.acks with _ | ⟨a, acks⟩ <;> simp [basePacket.send, baseRadio.send, hacks]

/-- C17. `send(t)` on an object of any packet class: the object is left with `type=t` written,
exactly one datagram is sent, the bytes of that object, and the value returned is the
acknowledgement of that one send. For the three packet classes the datagram sent carries type
`t` and the subtype and the fields after the tags that the object had before the call. -/
theorem sendTyped_spec {P W : Type} (C : PacketClass P W) (L : Layout) (t : packetType_t)
    (p : P) (R : baseRadio W) :
    (basePacket.sendTyped C L t p R).2.1 = C.setType t p ∧
    (basePacket.sendTyped C L t p R).2.2.trace =
      R.trace ++ [Event.send (C.image L (C.setType t p))
        (basePacket.sendTyped C L t p R).1] ∧
    (basePacket.sendTyped C L t p R).1 = R.acks.headD false ∧
    (∀ q : basePacket, (basePacketClass W).image L ((basePacketClass W).setType t q) =
      { (basePacketClass W).image L q with type := t }) ∧
    (∀ q : baseMove W, (baseMoveClass W).image L ((baseMoveClass W).setType t q) =
      { (baseMoveClass W).image L q with type := t }) ∧
    (∀ q : baseResults W, (baseResultsClass W).image L ((baseResultsClass W).setType t q) =
      { (baseResultsClass W).image L q with type := t }) := by
  refine ⟨rfl, ?_, ?_, fun _ => rfl, fun _ => rfl, fun _ => rfl⟩
  · rcases hacks : R.acks with _ | ⟨a, acks⟩ <;>
      simp [basePacket.sendTyped, basePacket.send, baseRadio.send, hacks]
  · rcases hacks : R.acks with _ | ⟨a, acks⟩ <;>
      simp [basePacket.sendTyped, basePacket.send, baseRadio.send, hacks]

/-- The tags of every datagram land in an object of each of the three packet classes. -/
theorem basePacketClass_tags {W : Type} (L : Layout) (q : basePacket) (d : Datagram W)
    (n : Nat) : (basePacketClass W).type ((basePacketClass W).store L q d n) = d.type :=
  rfl

theorem baseMoveClass_tags {W : Type} (L : Layout) (q : baseMove W) (d : Datagram W)
    (n : Nat) : (baseMoveClass W).type ((baseMoveClass W).store L q d n) = d.type := by
  simp only [baseMoveClass]
  split
  · split <;> rfl
  · rfl

theorem baseResultsClass_tags {W : Type} (L : Layout) (q : baseResults W) (d : Datagram W)
    (n : Nat) : (baseResultsClass W).type ((baseResultsClass W).store L q d n) = d.type := by
  simp only [baseResultsClass]
  split
  · split <;> rfl
  · rfl

/-- The loop of `requireType` goes through an inbox free of type `t` up to the first datagram
of type `t`, and exits there. -/
theorem requireTypeLoop_consumes {P W : Type} (C : PacketClass P W) (L : Layout)
    (t : packetType_t) (htags : ∀ (q : P) (d : Datagram W) (n : Nat),
      C.type (C.store L q d n) = d.type)
    (d : Datagram W) (rest : List (rxEvent W)) (hd : d.type = t) :
    ∀ (pre : List (rxEvent W)) (len : Nat) (p : P),
      (∀ e, rxEvent.delivered e ∈ pre → e.type ≠ t) →
      ∃ (p1 : P) (evs : List (Event W)),
        basePacket.requireTypeLoop C L t (pre ++ rxEvent.delivered d :: rest) len p =
          some (p1, rest, evs) ∧
        C.type p1 = t ∧ receivedPackets evs = deliveredPackets pre ++ [d] ∧
        (∀ e ∈ evs, e.isRx = true) := by
  intro pre
  induction pre with
  | nil =>
    intro len p _
    refine ⟨C.store L p d (min len d.len),
      [Event.available true, Event.recv len (some d)], ?_, ?_, rfl, ?_⟩
    · simp [basePacket.requireTypeLoop, htags, hd]
    · rw [htags, hd]
    · intro e he
      simp only [List.mem_cons, List.mem_singleton, List.not_mem_nil, or_false] at he
      rcases he with he | he <;> subst he <;> rfl
  | cons x xs ih =>
    intro len p hpre
    have hxs : ∀ e, rxEvent.delivered e ∈ xs → e.type ≠ t :=
      fun e he => hpre e (List.mem_cons_of_mem _ he)
    cases x with
    | idle =>
      obtain ⟨p1, evs, h1, h2, h3, h4⟩ := ih len p hxs
      refine ⟨p1, Event.available false :: evs, ?_, h2, ?_, ?_⟩
      · simp [basePacket.requireTypeLoop, h1]
      · simpa [receivedPackets, deliveredPackets] using h3
      · intro e he
        rcases List.mem_cons.mp he with he | he
        · subst he; rfl
        · exact h4 e he
    | failed =>
      obtain ⟨p1, evs, h1, h2, h3, h4⟩ := ih len p hxs
      refine ⟨p1, Event.available true :: Event.recv len none :: evs, ?_, h2, ?_, ?_⟩
      · simp [basePacket.requireTypeLoop, h1]
      · simpa [receivedPackets, deliveredPackets] using h3
      · intro e he
        rcases List.mem_cons.mp he with he | he
        · subst he; rfl
        · rcases List.mem_cons.mp he with he | he
          · subst he; rfl
          · exact h4 e he
    | delivered e0 =>
      have hne : ¬ e0.type = t := hpre e0 (List.mem_cons_self _ _)
      obtain ⟨p1, evs, h1, h2, h3, h4⟩ := ih (min len e0.len) (C.store L p e0 (min len e0.len))
        hxs
      refine ⟨p1, Event.available true :: Event.recv len (some e0) :: evs, ?_, h2, ?_, ?_⟩
      · simp [basePacket.requireTypeLoop, htags, hne, h1]
      · simp [receivedPackets, deliveredPackets, h3]
      · intro e he
        rcases List.mem_cons.mp he with he | he
        · subst he; rfl
        · rcases List.mem_cons.mp he with he | he
          · subst he; rfl
          · exact h4 e he

/-- The loop of `requireType` never exits on an inbox free of type `t`. -/
theorem requireTypeLoop_blocks {P W : Type} (C : PacketClass P W) (L : Layout)
    (t : packetType_t) (htags : ∀ (q : P) (d : Datagram W) (n : Nat),
      C.type (C.store L q d n) = d.type) :
    ∀ (junk : List (rxEvent W)) (len : Nat) (p : P),
      (∀ e, rxEvent.delivered e ∈ junk → e.type ≠ t) →
      basePacket.requireTypeLoop C L t junk len p = none := by
  intro junk
  induction junk with
  | nil => intro len p _; rfl
  | cons x xs ih =>
    intro len p hj
    have hxs : ∀ e, rxEvent.delivered e ∈ xs → e.type ≠ t :=
      fun e he => hj e (List.mem_cons_of_mem _ he)
    cases x with
    | idle => simp [basePacket.requireTypeLoop, ih len p hxs]
    | failed => simp [basePacket.requireTypeLoop, ih len p hxs]
    | delivered e0 =>
      have hne : ¬ e0.type = t := hj e0 (List.mem_cons_self _ _)
      simp [basePacket.requireTypeLoop, htags, hne, ih _ _ hxs]

/-- C15. `requireType(t)` on an object of each of the three packet classes. Let the inbox be
`pre ++ delivered d :: rest` where `d` has type `t` and no datagram in `pre` has: the call
returns, having received exactly the datagrams of `pre` and then `d`, nothing of `rest`; the
packets of `pre` did not make it return (they are discarded); and on return the object's type
is `t`. On an inbox `junk` without any datagram of type `t` the call does not return. -/
theorem requireType_spec {W : Type} (L : Layout) (t : packetType_t) (acks : List Bool)
    (pre : List (rxEvent W)) (d : Datagram W) (rest junk : List (rxEvent W))
    (tr : List (Event W))
    (hd : d.type = t)
    (hpre : ∀ e, rxEvent.delivered e ∈ pre → e.type ≠ t)
    (hjunk : ∀ e, rxEvent.delivered e ∈ junk → e.type ≠ t) :
    (∀ p : basePacket, requireTypeConsumes (basePacketClass W) L t p acks pre d rest tr) ∧
    (∀ m : baseMove W, requireTypeConsumes (baseMoveClass W) L t m acks pre d rest tr) ∧
    (∀ r : baseResults W, requireTypeConsumes (baseResultsClass W) L t r acks pre d rest tr) ∧
    (∀ p : basePacket,
      basePacket.requireType (basePacketClass W) L t p ⟨acks, junk, tr⟩ = none) ∧
    (∀ m : baseMove W,
      basePacket.requireType (baseMoveClass W) L t m ⟨acks, junk, tr⟩ = none) ∧
    (∀ r : baseResults W,
      basePacket.requireType (baseResultsClass W) L t r ⟨acks, junk, tr⟩ = none) := by
  refine ⟨?_, ?_, ?_, ?_, ?_, ?_⟩
  · intro p
    obtain ⟨p1, evs, h1, h2, h3, h4⟩ := requireTypeLoop_consumes (basePacketClass W) L t
      (basePacketClass_tags L) d rest hd pre (packetLen L ((basePacketClass W).my_size L)) p hpre
    exact ⟨p1, evs, by simp [basePacket.requireType, h1], h2, h3, h4⟩
  · intro p
    obtain ⟨p1, evs, h1, h2, h3, h4⟩ := requireTypeLoop_consumes (baseMoveClass W) L t
      (baseMoveClass_tags L) d rest hd pre (packetLen L ((baseMoveClass W).my_size L)) p hpre
    exact ⟨p1, evs, by simp [basePacket.requireType, h1], h2, h3, h4⟩
  · intro p
    obtain ⟨p1, evs, h1, h2, h3, h4⟩ := requireTypeLoop_consumes (baseResultsClass W) L t
      (baseResultsClass_tags L) d rest hd pre (packetLen L ((baseResultsClass W).my_size L)) p
      hpre
    exact ⟨p1, evs, by simp [basePacket.requireType, h1], h2, h3, h4⟩
  · intro p
    simp [basePacket.requireType,
      requireTypeLoop_blocks (basePacketClass W) L t (basePacketClass_tags L) junk _ p hjunk]
  · intro p
    simp [basePacket.requireType,
      requireTypeLoop_blocks (baseMoveClass W) L t (baseMoveClass_tags L) junk _ p hjunk]
  · intro p
    simp [basePacket.requireType,
      requireTypeLoop_blocks (baseResultsClass W) L t (baseResultsClass_tags L) junk _ p hjunk]

/-- Witness for C15: a Move object waits for a move; an idle poll and a found packet come
first, then move 3, then another packet, which stays in the inbox. A lone found packet does
not make the wait return. -/
theorem requireType_spec_witness :
    (∃ (m1 : baseMove Nat) (R1 : baseRadio Nat),
      basePacket.requireType (baseMoveClass Nat) demoLayout packetType_t.MOVE_PACKET
        (demoMove 0)
        ⟨[], [rxEvent.idle,
              rxEvent.delivered (demoControl packetType_t.FOUND_GAME_PACKET
                packetSubType_t.NO_SUBTYPE)] ++
            rxEvent.delivered (demoMoveDatagram 3 5) ::
              [rxEvent.delivered (demoMoveDatagram 4 0)], []⟩ = some (m1, R1) ∧
      m1.type = packetType_t.MOVE_PACKET ∧
      R1.inbox = [rxEvent.delivered (demoMoveDatagram 4 0)]) ∧
    basePacket.requireType (baseMoveClass Nat) demoLayout packetType_t.MOVE_PACKET
      (demoMove 0)
      ⟨[], [rxEvent.delivered (demoControl packetType_t.FOUND_GAME_PACKET
        packetSubType_t.NO_SUBTYPE)], []⟩ = none :=
  have h := requireType_spec demoLayout packetType_t.MOVE_PACKET []
    [rxEvent.idle,
      rxEvent.delivered (demoControl packetType_t.FOUND_GAME_PACKET packetSubType_t.NO_SUBTYPE)]
    (demoMoveDatagram 3 5) [rxEvent.delivered (demoMoveDatagram 4 0)]
    [rxEvent.delivered (demoControl packetType_t.FOUND_GAME_PACKET packetSubType_t.NO_SUBTYPE)]
    [] rfl
    (by
      intro e he
      simp only [List.mem_cons, rxEvent.delivered.injEq, List.mem_singleton,
        List.not_mem_nil, or_false, false_or, reduceCtorEq] at he
      subst he
      decide)
    (by
      intro e he
      simp only [List.mem_singleton, rxEvent.delivered.injEq] at he
      subst he
      decide)
  ⟨(h.2.1 (demoMove 0)).elim fun m1 k => k.elim fun _ k => ⟨m1, _, k.1, k.2.1, rfl⟩,
   h.2.2.2.2.1 (demoMove 0)⟩

/-! ### Every run of a step -/

/-- When the loop of `requireType` exits on an object whose tags land, its last two entries are
an `available` answered true and the `recv` of a datagram of the required type. -/
theorem requireTypeLoop_last {P W : Type} (C : PacketClass P W) (L : Layout)
    (t : packetType_t) (htags : ∀ (q : P) (d : Datagram W) (n : Nat),
      C.type (C.store L q d n) = d.type) :
    ∀ (inbox : List (rxEvent W)) (len : Nat) (p p1 : P) (rest : List (rxEvent W))
      (evs : List (Event W)),
      basePacket.requireTypeLoop C L t inbox len p = some (p1, rest, evs) →
      ∃ (evs0 : List (Event W)) (len0 : Nat) (d : Datagram W),
        evs = evs0 ++ [Event.available true, Event.recv len0 (some d)] ∧ d.type = t := by
  intro inbox
  induction inbox with
  | nil => intro len p p1 rest evs h; simp [basePacket.requireTypeLoop] at h
  | cons x xs ih =>
    intro len p p1 rest evs h
    cases x with
    | idle =>
      simp only [basePacket.requireTypeLoop, Option.map_eq_some'] at h
      obtain ⟨⟨q1, q2, q3⟩, hr, heq⟩ := h
      simp only [Prod.mk.injEq] at heq
      obtain ⟨-, -, h3⟩ := heq
      obtain ⟨evs0, len0, d, he, hd⟩ := ih len p q1 q2 q3 hr
      exact ⟨Event.available false :: evs0, len0, d, by rw [← h3, he]; rfl, hd⟩
    | failed =>
      simp only [basePacket.requireTypeLoop, Option.map_eq_some'] at h
      obtain ⟨⟨q1, q2, q3⟩, hr, heq⟩ := h
      simp only [Prod.mk.injEq] at heq
      obtain ⟨-, -, h3⟩ := heq
      obtain ⟨evs0, len0, d, he, hd⟩ := ih len p q1 q2 q3 hr
      exact ⟨Event.available true :: Event.recv len none :: evs0, len0, d,
        by rw [← h3, he]; rfl, hd⟩
    | delivered e0 =>
      simp only [basePacket.requireTypeLoop] at h
      split at h
      · rename_i hty
        simp only [Option.some.injEq, Prod.mk.injEq] at h
        obtain ⟨-, -, h3⟩ := h
        exact ⟨[], len, e0, h3.symm, by rw [← htags p e0 (min len e0.len)]; exact hty⟩
      · simp only [Option.map_eq_some'] at h
        obtain ⟨⟨q1, q2, q3⟩, hr, heq⟩ := h
        simp only [Prod.mk.injEq] at heq
        obtain ⟨-, -, h3⟩ := heq
        obtain ⟨evs0, len0, d, he, hd⟩ := ih _ _ q1 q2 q3 hr
        exact ⟨Event.available true :: Event.recv len (some e0) :: evs0, len0, d,
          by rw [← h3, he]; rfl, hd⟩

/-- Every returning run of `doMyTurn`: the call of `decideMyMove`, one send, then receive
entries only (none when the send was not acknowledged), then one callback; and the state is
the one before the step handed to `fatalError`, or `GAME_OVER`, or `OPPONENTS_TURN`. -/
theorem doMyTurn_cases {G W : Type} (H : Handlers G W) (L : Layout) (s t : Session G W)
    (h : baseGame.doMyTurn H L s = some t) :
    ∃ (a : Bool) (rxs : List (Event W)) (e : Event W),
      t.Radio.trace = s.Radio.trace ++
        (Event.decideMyMove ::
          Event.send ((baseMoveClass W).image L (baseGame.sentMove H s.game)) a ::
          (rxs ++ [e])) ∧
      (∀ x ∈ rxs, x.isRx = true) ∧ e.isRadio = false ∧ (a = false → rxs = []) ∧
      ((∃ (msg : String) (g : baseGame G W), t.game = H.fatalError msg g ∧
          g.gameState = s.game.gameState) ∨
        t.game.gameState = gameState_t.GAME_OVER ∨
        t.game.gameState = gameState_t.OPPONENTS_TURN) := by
  rcases hacks : s.Radio.acks with _ | ⟨a, acks⟩
  · simp only [baseGame.doMyTurn, basePacket.send, baseRadio.send, baseRadio.log, hacks,
      Session.fatalError, Option.some.injEq] at h
    subst h
    refine ⟨false, [], Event.fatalError "No ack from send move", ?_, by simp, rfl,
      fun _ => rfl, Or.inl ⟨_, _, rfl, rfl⟩⟩
    simp only [List.append_assoc, List.cons_append, List.nil_append]; rfl
  · cases a with
    | false =>
      simp only [baseGame.doMyTurn, basePacket.send, baseRadio.send, baseRadio.log, hacks,
        Session.fatalError, Option.some.injEq] at h
      subst h
      refine ⟨false, [], Event.fatalError "No ack from send move", ?_, by simp, rfl,
        fun _ => rfl, Or.inl ⟨_, _, rfl, rfl⟩⟩
      simp only [List.append_assoc, List.cons_append, List.nil_append]; rfl
    | true =>
      rcases hreq : basePacket.requireTypeLoop (baseResultsClass W) L
          packetType_t.RESULTS_PACKET s.Radio.inbox
          (packetLen L ((baseResultsClass W).my_size L)) s.game.Results with _ | ⟨res, rest, evs⟩
      · simp [baseGame.doMyTurn, basePacket.send, baseRadio.send, baseRadio.log, hacks,
          baseResults.require, basePacket.requireType, hreq] at h
      · obtain ⟨-, hrx⟩ := requireTypeLoop_exit _ L _ _ _ _ _ _ _ hreq
        by_cases hnum : res.resultsNum = s.game.currentMoveNum
        · simp only [baseGame.doMyTurn, basePacket.send, baseRadio.send, baseRadio.log, hacks,
            baseResults.require, basePacket.requireType, hreq, hnum, ne_eq, not_true_eq_false,
            if_false, Option.some.injEq] at h
          subst h
          refine ⟨true, evs, Event.processResults (H.processResults
            (H.decideMyMove s.game.derived
              { s.game.Move with moveNum := s.game.currentMoveNum }).1 res).2.2, ?_, hrx, rfl,
            by simp, Or.inr ?_⟩
          · simp only [List.append_assoc, List.cons_append, List.nil_append]; rfl
          · by_cases hov : (H.processResults (H.decideMyMove s.game.derived
                { s.game.Move with moveNum := s.game.currentMoveNum }).1 res).2.2 = true
            · exact Or.inl (by simp [hov])
            · exact Or.inr (by simp [hov])
        · simp only [baseGame.doMyTurn, basePacket.send, baseRadio.send, baseRadio.log, hacks,
            baseResults.require, basePacket.requireType, hreq, hnum, if_true, ne_eq,
            not_false_eq_true, Session.fatalError, Option.some.injEq] at h
          subst h
          refine ⟨true, evs, Event.fatalError "Results number mismatch error.", ?_, hrx, rfl,
            by simp, Or.inl ⟨_, _, rfl, rfl⟩⟩
          simp only [List.append_assoc, List.cons_append, List.nil_append]; rfl

/-- Every returning run of `doOpponentsTurn`: receive entries ending with the `recv` of a
datagram of type `MOVE_PACKET`, then either one call of `fatalError` on a game object in the
state before the step, or one call of `generateResults` and one send, with the state
`GAME_OVER` or `MY_TURN`. -/
theorem doOpponentsTurn_cases {G W : Type} (H : Handlers G W) (L : Layout)
    (s t : Session G W) (h : baseGame.doOpponentsTurn H L s = some t) :
    ∃ (rxs tail : List (Event W)),
      t.Radio.trace = s.Radio.trace ++ (rxs ++ tail) ∧
      (∀ x ∈ rxs, x.isRx = true) ∧
      (∃ (rxs0 : List (Event W)) (len0 : Nat) (d : Datagram W),
        rxs = rxs0 ++ [Event.available true, Event.recv len0 (some d)] ∧
        d.type = packetType_t.MOVE_PACKET) ∧
      ((∃ msg : String, tail = [Event.fatalError msg] ∧
          ∃ g : baseGame G W, t.game = H.fatalError msg g ∧
            g.gameState = s.game.gameState) ∨
        (∃ (mv : baseMove W) (over : Bool) (dd : Datagram W) (a : Bool),
          tail = [Event.generateResults mv over, Event.send dd a] ∧
          (t.game.gameState = gameState_t.GAME_OVER ∨
            t.game.gameState = gameState_t.MY_TURN))) := by
  rcases hreq : basePacket.requireTypeLoop (baseMoveClass W) L packetType_t.MOVE_PACKET
      s.Radio.inbox (packetLen L ((baseMoveClass W).my_size L)) s.game.Move
    with _ | ⟨mv, rest, evs⟩
  · simp [baseGame.doOpponentsTurn, baseMove.require, basePacket.requireType, hreq] at h
  · obtain ⟨-, hrx⟩ := requireTypeLoop_exit _ L _ _ _ _ _ _ _ hreq
    have hlast := requireTypeLoop_last (baseMoveClass W) L _ (baseMoveClass_tags L)
      _ _ _ _ _ _ hreq
    by_cases hbad : mv.moveNum ≠ (if mv.moveNum = 0 then 0 else s.game.currentMoveNum) ∧
        mv.moveNum > 0
    · simp only [baseGame.doOpponentsTurn, baseMove.require, basePacket.requireType, hreq]
        at h
      rw [if_pos hbad] at h
      simp only [Session.fatalError, baseRadio.log, Option.some.injEq] at h
      subst h
      exact ⟨evs, [Event.fatalError _], by simp, hrx, hlast,
        Or.inl ⟨_, rfl, _, rfl, rfl⟩⟩
    · have hstate : ∀ b : Bool,
          (if b = true then gameState_t.GAME_OVER else gameState_t.MY_TURN) =
            gameState_t.GAME_OVER ∨
          (if b = true then gameState_t.GAME_OVER else gameState_t.MY_TURN) =
            gameState_t.MY_TURN := by
        intro b; cases b <;> simp
      rcases hacks : s.Radio.acks with _ | ⟨a, acks⟩
      · simp only [baseGame.doOpponentsTurn, baseMove.require, basePacket.requireType, hreq]
          at h
        rw [if_neg hbad] at h
        simp only [basePacket.send, baseRadio.send, baseRadio.log, hacks,
          Option.some.injEq] at h
        subst h
        exact ⟨evs, [Event.generateResults mv
            (H.generateResults s.game.derived mv s.game.Results).2.2,
          Event.send ((baseResultsClass W).image L
            (H.generateResults s.game.derived mv s.game.Results).2.1) false],
          by simp, hrx, hlast, Or.inr ⟨_, _, _, _, rfl, hstate _⟩⟩
      · simp only [baseGame.doOpponentsTurn, baseMove.require, basePacket.requireType, hreq]
          at h
        rw [if_neg hbad] at h
        simp only [basePacket.send, baseRadio.send, baseRadio.log, hacks,
          Option.some.injEq] at h
        subst h
        exact ⟨evs, [Event.generateResults mv
            (H.generateResults s.game.derived mv s.game.Results).2.2,
          Event.send ((baseResultsClass W).image L
            (H.generateResults s.game.derived mv s.game.Results).2.1) a],
          by simp, hrx, hlast, Or.inr ⟨_, _, _, _, rfl, hstate _⟩⟩

theorem filter_isRadio_of_isRx {W : Type} (rxs : List (Event W))
    (h : ∀ x ∈ rxs, x.isRx = true) : rxs.filter Event.isRadio = rxs := by
  rw [List.filter_eq_self]
  intro x hx
  simp [Event.isRadio, h x hx]

theorem countP_isSend_of_isRx {W : Type} (rxs : List (Event W))
    (h : ∀ x ∈ rxs, x.isRx = true) : rxs.countP Event.isSend = 0 := by
  apply countP_of_isRx _ _ _ h
  intro e he
  cases e <;> simp_all [Event.isRx, Event.isSend]

/-- A run of `doMyTurn` that never returns: the Move send was acknowledged and the wait for the
results that follows it never ends. -/
theorem doMyTurn_none {G W : Type} (H : Handlers G W) (L : Layout) (s : Session G W)
    (h : baseGame.doMyTurn H L s = none) :
    (basePacket.send (baseMoveClass W) L (baseGame.sentMove H s.game)
      (s.Radio.log Event.decideMyMove)).1 = true ∧
    baseResults.require L s.game.Results
      (basePacket.send (baseMoveClass W) L (baseGame.sentMove H s.game)
        (s.Radio.log Event.decideMyMove)).2 = none := by
  rcases hacks : s.Radio.acks with _ | ⟨a, acks⟩
  · simp [baseGame.doMyTurn, basePacket.send, baseRadio.send, baseRadio.log, hacks] at h
  · cases a with
    | false =>
      simp [baseGame.doMyTurn, basePacket.send, baseRadio.send, baseRadio.log, hacks] at h
    | true =>
      rcases hreq : basePacket.requireTypeLoop (baseResultsClass W) L
          packetType_t.RESULTS_PACKET s.Radio.inbox
          (packetLen L ((baseResultsClass W).my_size L)) s.game.Results with _ | ⟨res, rest, evs⟩
      · simp [basePacket.send, baseRadio.send, baseRadio.log, hacks, baseResults.require,
          basePacket.requireType, hreq]
      · by_cases hnum : res.resultsNum = s.game.currentMoveNum
        · simp [baseGame.doMyTurn, basePacket.send, baseRadio.send, baseRadio.log, hacks,
            baseResults.require, basePacket.requireType, hreq, hnum] at h
        · simp [baseGame.doMyTurn, basePacket.send, baseRadio.send, baseRadio.log, hacks,
            baseResults.require, basePacket.requireType, hreq, hnum] at h

/-- A run of `doOpponentsTurn` that never returns: the wait for the move, with which the step
starts, never ends. -/
theorem doOpponentsTurn_none {G W : Type} (H : Handlers G W) (L : Layout) (s : Session G W)
    (h : baseGame.doOpponentsTurn H L s = none) :
    baseMove.require L s.game.Move s.Radio = none := by
  rcases hreq : baseMove.require L s.game.Move s.Radio with _ | ⟨mv, R1⟩
  · rfl
  · simp only [baseGame.doOpponentsTurn, hreq] at h
    exfalso
    split at h
    all_goals (split at h <;> cases h)

/-- C20. Ordering without pipelining. In every run of `doMyTurn` that returns (from `s` to `t`)
the radio operations are one send, of the Move, followed by receiving operations only; a run
that does not return has made that one send, acknowledged, and stays in the wait for the
results. In every run of `doOpponentsTurn` that returns (from `u` to `v`) the radio operations
are receiving operations, the last of which brought a datagram of type `MOVE_PACKET`, followed
by at most one send; a run that does not return stays in the wait for the move, with which the
step starts. Neither step makes two sends. -/
theorem no_pipelining {G W : Type} (H : Handlers G W) (L : Layout) (s u : Session G W) :
    (∀ t : Session G W, baseGame.doMyTurn H L s = some t →
      ∃ (a : Bool) (rxs : List (Event W)),
        (s.traceSince t).filter Event.isRadio =
          Event.send ((baseMoveClass W).image L (baseGame.sentMove H s.game)) a :: rxs ∧
        (∀ x ∈ rxs, x.isRx = true) ∧
        (s.traceSince t).countP Event.isSend = 1) ∧
    (baseGame.doMyTurn H L s = none →
      (basePacket.send (baseMoveClass W) L (baseGame.sentMove H s.game)
        (s.Radio.log Event.decideMyMove)).1 = true ∧
      baseResults.require L s.game.Results
        (basePacket.send (baseMoveClass W) L (baseGame.sentMove H s.game)
          (s.Radio.log Event.decideMyMove)).2 = none) ∧
    (∀ v : Session G W, baseGame.doOpponentsTurn H L u = some v →
      ∃ (rxs sends : List (Event W)),
        (u.traceSince v).filter Event.isRadio = rxs ++ sends ∧
        (∀ x ∈ rxs, x.isRx = true) ∧
        (∃ (rxs0 : List (Event W)) (len0 : Nat) (d : Datagram W),
          rxs = rxs0 ++ [Event.available true, Event.recv len0 (some d)] ∧
          d.type = packetType_t.MOVE_PACKET) ∧
        (∀ x ∈ sends, x.isSend = true) ∧ sends.length ≤ 1 ∧
        (u.traceSince v).countP Event.isSend ≤ 1) ∧
    (baseGame.doOpponentsTurn H L u = none →
      baseMove.require L u.game.Move u.Radio = none) := by
  refine ⟨fun t hs => ?_, doMyTurn_none H L s, fun v hu => ?_, doOpponentsTurn_none H L u⟩
  · obtain ⟨a, rxs, e, htr, hrx, he, -, -⟩ := doMyTurn_cases H L s t hs
    have hne : e.isSend = false := by
      simp only [Event.isRadio, Bool.or_eq_false_iff] at he
      exact he.1
    refine ⟨a, rxs, ?_, hrx, ?_⟩
    · rw [traceSince_eq s t _ htr]
      simp [List.filter_cons, List.filter_append, Event.isRadio, Event.isSend, Event.isRx,
        filter_isRadio_of_isRx rxs hrx]
      simpa [Event.isRadio] using he
    · rw [traceSince_eq s t _ htr]
      have h1 : [e].countP Event.isSend = 0 := by simp [hne]
      rw [List.countP_cons, List.countP_cons, List.countP_append,
        countP_isSend_of_isRx rxs hrx, h1]
      rfl
  · obtain ⟨rxs, tail, htr, hrx, hlast, hcase⟩ := doOpponentsTurn_cases H L u v hu
    rcases hcase with ⟨msg, htail, -⟩ | ⟨mv, over, dd, a, htail, -⟩
    · refine ⟨rxs, [], ?_, hrx, hlast, by simp, by simp, ?_⟩
      · rw [traceSince_eq u v _ htr, htail]
        simp [List.filter_append, filter_isRadio_of_isRx rxs hrx, Event.isRadio, Event.isSend,
          Event.isRx]
      · rw [traceSince_eq u v _ htr, htail]
        simp [List.countP_append, countP_isSend_of_isRx rxs hrx, Event.isSend]
    · refine ⟨rxs, [Event.send dd a], ?_, hrx, hlast, by simp [Event.isSend], by simp, ?_⟩
      · rw [traceSince_eq u v _ htr, htail]
        simp [List.filter_append, filter_isRadio_of_isRx rxs hrx, Event.isRadio, Event.isSend,
          Event.isRx, List.filter_cons]
      · rw [traceSince_eq u v _ htr, htail]
        simp [List.countP_append, countP_isSend_of_isRx rxs hrx, Event.isSend,
          List.countP_cons]

/-- Witness for C20: the round trip of move 3 between the two peers. -/
theorem no_pipelining_witness :
    (Session.traceSince (peerA 3)
        { game := { (peerA 3).game with
                      Move := { demoMove 3 with payload := 0 }
                      Results := demoResults 3
                      derived := 1
                      gameState := gameState_t.OPPONENTS_TURN
                      currentMoveNum := 4 }
          Radio := ⟨[], [], [Event.decideMyMove, Event.send (demoMoveDatagram 3 0) true,
            Event.available true,
            Event.recv 12 (some (demoResultsDatagram 3 packetSubType_t.NORMAL_RESULTS)),
            Event.processResults false]⟩ }).countP Event.isSend = 1 ∧
    (Session.traceSince (peerB 3)
        { game := { (peerB 3).game with
                      Move := demoMove 3
                      Results := demoResults 3
                      gameState := gameState_t.MY_TURN
                      currentMoveNum := 4 }
          Radio := ⟨[], [], [Event.available true, Event.recv 12 (some (demoMoveDatagram 3 0)),
            Event.generateResults (demoMove 3) false,
            Event.send (demoResultsDatagram 3 packetSubType_t.NORMAL_RESULTS) true]⟩ }).countP
      Event.isSend ≤ 1 :=
  have h := no_pipelining demoHandlers demoLayout (peerA 3) (peerB 3)
  ⟨(h.1 _ rfl).elim fun _ k => k.elim fun _ k => k.2.2,
    (h.2.2.1 _ rfl).elim fun _ k => k.elim fun _ k => k.2.2.2.2.2⟩

/-! ### One try of the offering loop -/

theorem offeringLoop_noack_nil {G W : Type} (H : Handlers G W) (L : Layout) (k : Nat)
    (p : basePacket) (g : baseGame G W) (i : List (rxEvent W)) (tr : List (Event W)) :
    baseGame.offeringLoop H L (k + 1) p ⟨g, ⟨[], i, tr⟩⟩ =
      baseGame.offeringLoop H L k
        { type := packetType_t.OFFERING_GAME_PACKET, subType := p.subType }
        ⟨g, ⟨[], i, tr ++ [Event.send
          (controlDatagram W L packetType_t.OFFERING_GAME_PACKET p.subType) false]⟩⟩ :=
  rfl

theorem offeringLoop_noack {G W : Type} (H : Handlers G W) (L : Layout) (k : Nat)
    (p : basePacket) (g : baseGame G W) (acks : List Bool) (i : List (rxEvent W))
    (tr : List (Event W)) :
    baseGame.offeringLoop H L (k + 1) p ⟨g, ⟨false :: acks, i, tr⟩⟩ =
      baseGame.offeringLoop H L k
        { type := packetType_t.OFFERING_GAME_PACKET, subType := p.subType }
        ⟨g, ⟨acks, i, tr ++ [Event.send
          (controlDatagram W L packetType_t.OFFERING_GAME_PACKET p.subType) false]⟩⟩ :=
  rfl

theorem offeringLoop_timeout_nil {G W : Type} (H : Handlers G W) (L : Layout) (k : Nat)
    (p : basePacket) (g : baseGame G W) (acks : List Bool) (tr : List (Event W)) :
    baseGame.offeringLoop H L (k + 1) p ⟨g, ⟨true :: acks, [], tr⟩⟩ =
      baseGame.offeringLoop H L k
        { type := packetType_t.OFFERING_GAME_PACKET, subType := p.subType }
        ⟨g, ⟨acks, [], tr ++ [Event.send
            (controlDatagram W L packetType_t.OFFERING_GAME_PACKET p.subType) true] ++
          [Event.recvTimeout (packetLen L L.sizeof_basePacket) OFFERING_TIMEOUT none]⟩⟩ :=
  rfl

theorem offeringLoop_idle {G W : Type} (H : Handlers G W) (L : Layout) (k : Nat)
    (p : basePacket) (g : baseGame G W) (acks : List Bool) (i : List (rxEvent W))
    (tr : List (Event W)) :
    baseGame.offeringLoop H L (k + 1) p ⟨g, ⟨true :: acks, rxEvent.idle :: i, tr⟩⟩ =
      baseGame.offeringLoop H L k
        { type := packetType_t.OFFERING_GAME_PACKET, subType := p.subType }
        ⟨g, ⟨acks, i, tr ++ [Event.send
            (controlDatagram W L packetType_t.OFFERING_GAME_PACKET p.subType) true] ++
          [Event.recvTimeout (packetLen L L.sizeof_basePacket) OFFERING_TIMEOUT none]⟩⟩ :=
  rfl

theorem offeringLoop_failed {G W : Type} (H : Handlers G W) (L : Layout) (k : Nat)
    (p : basePacket) (g : baseGame G W) (acks : List Bool) (i : List (rxEvent W))
    (tr : List (Event W)) :
    baseGame.offeringLoop H L (k + 1) p ⟨g, ⟨true :: acks, rxEvent.failed :: i, tr⟩⟩ =
      baseGame.offeringLoop H L k
        { type := packetType_t.OFFERING_GAME_PACKET, subType := p.subType }
        ⟨g, ⟨acks, i, tr ++ [Event.send
            (controlDatagram W L packetType_t.OFFERING_GAME_PACKET p.subType) true] ++
          [Event.recvTimeout (packetLen L L.sizeof_basePacket) OFFERING_TIMEOUT none]⟩⟩ :=
  rfl

theorem offeringLoop_wrong {G W : Type} (H : Handlers G W) (L : Layout) (k : Nat)
    (p : basePacket) (g : baseGame G W) (acks : List Bool) (d : Datagram W)
    (i : List (rxEvent W)) (tr : List (Event W))
    (hd : d.type ≠ packetType_t.ACCEPTING_GAME_PACKET) :
    baseGame.offeringLoop H L (k + 1) p ⟨g, ⟨true :: acks, rxEvent.delivered d :: i, tr⟩⟩ =
      baseGame.offeringLoop H L k { type := d.type, subType := d.subType }
        ⟨g, ⟨acks, i, tr ++ [Event.send
            (controlDatagram W L packetType_t.OFFERING_GAME_PACKET p.subType) true] ++
          [Event.recvTimeout (packetLen L L.sizeof_basePacket) OFFERING_TIMEOUT
            (some d)]⟩⟩ := by
  simp [baseGame.offeringLoop, basePacket.sendTyped, basePacket.send, baseRadio.send,
    basePacket.requireTypeTimeout, baseRadio.recvTimeout, basePacketClass, hd,
    PacketClass.image, controlDatagram]

/-- A try that gets the accept: the final game object and the number of offers sent. -/
theorem offeringLoop_accept_now {G W : Type} (H : Handlers G W) (L : Layout) (k : Nat)
    (p : basePacket) (g : baseGame G W) (acks : List Bool) (d : Datagram W)
    (i : List (rxEvent W)) (tr : List (Event W))
    (hd : d.type = packetType_t.ACCEPTING_GAME_PACKET) :
    (baseGame.offeringLoop H L (k + 1) p
        ⟨g, ⟨true :: acks, rxEvent.delivered d :: i, tr⟩⟩).game =
      { g with
          derived := (H.coinFlip g.derived).1
          gameState := if (H.coinFlip g.derived).2 then gameState_t.MY_TURN
                       else gameState_t.OPPONENTS_TURN } ∧
    (baseGame.offeringLoop H L (k + 1) p
        ⟨g, ⟨true :: acks, rxEvent.delivered d :: i, tr⟩⟩).Radio.trace.countP Event.isOffer =
      tr.countP Event.isOffer + 1 := by
  rcases acks with _ | ⟨aF, _ | ⟨aC, acks⟩⟩ <;>
    simp [baseGame.offeringLoop, basePacket.sendTyped, basePacket.send, baseRadio.send,
      basePacket.requireTypeTimeout, baseRadio.recvTimeout, basePacketClass, hd,
      PacketClass.image, toBool_ofBool, baseRadio.log, Event.isOffer, List.countP_append,
      List.countP_cons]

theorem countP_isOffer_offer {W : Type} (L : Layout) (tr : List (Event W))
    (st : packetSubType_t) (a : Bool) :
    (tr ++ [Event.send (controlDatagram W L packetType_t.OFFERING_GAME_PACKET st) a]).countP
      Event.isOffer = tr.countP Event.isOffer + 1 := by
  simp [List.countP_append, Event.isOffer, controlDatagram]

theorem countP_isOffer_try {W : Type} (L : Layout) (tr : List (Event W))
    (st : packetSubType_t) (a : Bool) (len T : Nat) (got : Option (Datagram W)) :
    (tr ++ [Event.send (controlDatagram W L packetType_t.OFFERING_GAME_PACKET st) a] ++
      [Event.recvTimeout len T got]).countP Event.isOffer = tr.countP Event.isOffer + 1 := by
  simp [List.countP_append, Event.isOffer, controlDatagram]

/-- The offering loop run on two inboxes that differ at most by a wrong-type packet against
nothing, from any two local packets and traces: the same final game object and the same
number `c` of offers, at most the number of tries. -/
theorem offeringLoop_wrongTypeOrNothing {G W : Type} (H : Handlers G W) (L : Layout) :
    ∀ (k : Nat) (p q : basePacket) (g : baseGame G W) (acks : List Bool)
      (i j : List (rxEvent W)) (tr ts : List (Event W)),
      wrongTypeOrNothing i j →
      ∃ c : Nat, c ≤ k ∧
        (baseGame.offeringLoop H L k p ⟨g, ⟨acks, i, tr⟩⟩).game =
          (baseGame.offeringLoop H L k q ⟨g, ⟨acks, j, ts⟩⟩).game ∧
        (baseGame.offeringLoop H L k p ⟨g, ⟨acks, i, tr⟩⟩).Radio.trace.countP Event.isOffer =
          tr.countP Event.isOffer + c ∧
        (baseGame.offeringLoop H L k q ⟨g, ⟨acks, j, ts⟩⟩).Radio.trace.countP Event.isOffer =
          ts.countP Event.isOffer + c := by
  intro k
  induction k with
  | zero =>
    intro p q g acks i j tr ts _
    exact ⟨0, Nat.le_refl 0, rfl, rfl, rfl⟩
  | succ k ih =>
    intro p q g acks i j tr ts hrel
    -- both runs fail this try and go on
    have lift : ∀ (p1 q1 : basePacket) (acks1 : List Bool) (i1 j1 : List (rxEvent W))
        (T S : List (Event W)), wrongTypeOrNothing i1 j1 →
        T.countP Event.isOffer = tr.countP Event.isOffer + 1 →
        S.countP Event.isOffer = ts.countP Event.isOffer + 1 →
        baseGame.offeringLoop H L (k + 1) p ⟨g, ⟨acks, i, tr⟩⟩ =
          baseGame.offeringLoop H L k p1 ⟨g, ⟨acks1, i1, T⟩⟩ →
        baseGame.offeringLoop H L (k + 1) q ⟨g, ⟨acks, j, ts⟩⟩ =
          baseGame.offeringLoop H L k q1 ⟨g, ⟨acks1, j1, S⟩⟩ →
        ∃ c : Nat, c ≤ k + 1 ∧
          (baseGame.offeringLoop H L (k + 1) p ⟨g, ⟨acks, i, tr⟩⟩).game =
            (baseGame.offeringLoop H L (k + 1) q ⟨g, ⟨acks, j, ts⟩⟩).game ∧
          (baseGame.offeringLoop H L (k + 1) p ⟨g, ⟨acks, i, tr⟩⟩).Radio.trace.countP
            Event.isOffer = tr.countP Event.isOffer + c ∧
          (baseGame.offeringLoop H L (k + 1) q ⟨g, ⟨acks, j, ts⟩⟩).Radio.trace.countP
            Event.isOffer = ts.countP Event.isOffer + c := by
      intro p1 q1 acks1 i1 j1 T S hr hT hS e1 e2
      obtain ⟨c, hc, hg, h1, h2⟩ := ih p1 q1 g acks1 i1 j1 T S hr
      refine ⟨c + 1, Nat.succ_le_succ hc, ?_, ?_, ?_⟩
      · rw [e1, e2]; exact hg
      · rw [e1, h1, hT]; omega
      · rw [e2, h2, hS]; omega
    -- both runs get the accept on this try
    have both : ∀ (acks1 : List Bool) (d : Datagram W) (i1 j1 : List (rxEvent W)),
        d.type = packetType_t.ACCEPTING_GAME_PACKET →
        acks = true :: acks1 → i = rxEvent.delivered d :: i1 → j = rxEvent.delivered d :: j1 →
        ∃ c : Nat, c ≤ k + 1 ∧
          (baseGame.offeringLoop H L (k + 1) p ⟨g, ⟨acks, i, tr⟩⟩).game =
            (baseGame.offeringLoop H L (k + 1) q ⟨g, ⟨acks, j, ts⟩⟩).game ∧
          (baseGame.offeringLoop H L (k + 1) p ⟨g, ⟨acks, i, tr⟩⟩).Radio.trace.countP
            Event.isOffer = tr.countP Event.isOffer + c ∧
          (baseGame.offeringLoop H L (k + 1) q ⟨g, ⟨acks, j, ts⟩⟩).Radio.trace.countP
            Event.isOffer = ts.countP Event.isOffer + c := by
      intro acks1 d i1 j1 hd ha hi hj
      subst ha hi hj
      obtain ⟨a1, a2⟩ := offeringLoop_accept_now H L k p g acks1 d i1 tr hd
      obtain ⟨b1, b2⟩ := offeringLoop_accept_now H L k q g acks1 d j1 ts hd
      exact ⟨1, Nat.succ_le_succ (Nat.zero_le k), a1.trans b1.symm, a2, b2⟩
    rcases acks with _ | ⟨a, acks⟩
    · exact lift _ _ _ _ _ _ _ hrel (countP_isOffer_offer L tr _ _)
        (countP_isOffer_offer L ts _ _) (offeringLoop_noack_nil H L k p g i tr)
        (offeringLoop_noack_nil H L k q g j ts)
    · cases a with
      | false =>
        exact lift _ _ _ _ _ _ _ hrel (countP_isOffer_offer L tr _ _)
          (countP_isOffer_offer L ts _ _) (offeringLoop_noack H L k p g acks i tr)
          (offeringLoop_noack H L k q g acks j ts)
      | true =>
        rcases hrel with hij | ⟨pre, d, post, hi, hj, hd⟩
        · subst hij
          rcases i with _ | ⟨x, i⟩
          · exact lift _ _ _ _ _ _ _ (Or.inl rfl) (countP_isOffer_try L tr _ _ _ _ _)
              (countP_isOffer_try L ts _ _ _ _ _) (offeringLoop_timeout_nil H L k p g acks tr)
              (offeringLoop_timeout_nil H L k q g acks ts)
          · cases x with
            | idle =>
              exact lift _ _ _ _ _ _ _ (Or.inl rfl) (countP_isOffer_try L tr _ _ _ _ _)
                (countP_isOffer_try L ts _ _ _ _ _) (offeringLoop_idle H L k p g acks i tr)
                (offeringLoop_idle H L k q g acks i ts)
            | failed =>
              exact lift _ _ _ _ _ _ _ (Or.inl rfl) (countP_isOffer_try L tr _ _ _ _ _)
                (countP_isOffer_try L ts _ _ _ _ _) (offeringLoop_failed H L k p g acks i tr)
                (offeringLoop_failed H L k q g acks i ts)
            | delivered e =>
              by_cases he : e.type = packetType_t.ACCEPTING_GAME_PACKET
              · exact both acks e i i he rfl rfl rfl
              · exact lift _ _ _ _ _ _ _ (Or.inl rfl) (countP_isOffer_try L tr _ _ _ _ _)
                  (countP_isOffer_try L ts _ _ _ _ _)
                  (offeringLoop_wrong H L k p g acks e i tr he)
                  (offeringLoop_wrong H L k q g acks e i ts he)
        · subst hi hj
          rcases pre with _ | ⟨x, pre⟩
          · -- the place where the two inboxes differ
            exact lift _ _ _ _ _ _ _ (Or.inl rfl) (countP_isOffer_try L tr _ _ _ _ _)
              (countP_isOffer_try L ts _ _ _ _ _)
              (offeringLoop_wrong H L k p g acks d post tr hd)
              (offeringLoop_idle H L k q g acks post ts)
          · cases x with
            | idle =>
              exact lift _ _ _ _ _ _ _ (Or.inr ⟨pre, d, post, rfl, rfl, hd⟩)
                (countP_isOffer_try L tr _ _ _ _ _) (countP_isOffer_try L ts _ _ _ _ _)
                (offeringLoop_idle H L k p g acks _ tr) (offeringLoop_idle H L k q g acks _ ts)
            | failed =>
              exact lift _ _ _ _ _ _ _ (Or.inr ⟨pre, d, post, rfl, rfl, hd⟩)
                (countP_isOffer_try L tr _ _ _ _ _) (countP_isOffer_try L ts _ _ _ _ _)
                (offeringLoop_failed H L k p g acks _ tr)
                (offeringLoop_failed H L k q g acks _ ts)
            | delivered e =>
              by_cases he : e.type = packetType_t.ACCEPTING_GAME_PACKET
              · exact both acks e _ _ he rfl rfl rfl
              · exact lift _ _ _ _ _ _ _ (Or.inr ⟨pre, d, post, rfl, rfl, hd⟩)
                  (countP_isOffer_try L tr _ _ _ _ _) (countP_isOffer_try L ts _ _ _ _ _)
                  (offeringLoop_wrong H L k p g acks e _ tr he)
                  (offeringLoop_wrong H L k q g acks e _ ts he)

/-- C19. A wrong-type reply counts as no reply. Take any run of `offeringGame` whose inbox has,
at some place, a packet `d` of a type other than `ACCEPTING_GAME_PACKET`, and the run from the
same session with nothing (a timeout) at that place: the two runs end with the same game
object, hence the same `gameState` and the same `currentMoveNum`, and send the same number of
offers, which is at most `OFFERING_TRIES = 2`. -/
theorem wrong_type_is_no_reply {G W : Type} (H : Handlers G W) (L : Layout)
    (g : baseGame G W) (acks : List Bool) (tr : List (Event W))
    (pre : List (rxEvent W)) (d : Datagram W) (post : List (rxEvent W))
    (hd : d.type ≠ packetType_t.ACCEPTING_GAME_PACKET) :
    (baseGame.offeringGame H L ⟨g, ⟨acks, pre ++ rxEvent.delivered d :: post, tr⟩⟩).game.gameState
      = (baseGame.offeringGame H L ⟨g, ⟨acks, pre ++ rxEvent.idle :: post, tr⟩⟩).game.gameState ∧
    (baseGame.offeringGame H L
        ⟨g, ⟨acks, pre ++ rxEvent.delivered d :: post, tr⟩⟩).game.currentMoveNum
      = (baseGame.offeringGame H L
        ⟨g, ⟨acks, pre ++ rxEvent.idle :: post, tr⟩⟩).game.currentMoveNum ∧
    (baseGame.offeringGame H L
        ⟨g, ⟨acks, pre ++ rxEvent.delivered d :: post, tr⟩⟩).Radio.trace.countP Event.isOffer
      = (baseGame.offeringGame H L
        ⟨g, ⟨acks, pre ++ rxEvent.idle :: post, tr⟩⟩).Radio.trace.countP Event.isOffer ∧
    (baseGame.offeringGame H L
        ⟨g, ⟨acks, pre ++ rxEvent.delivered d :: post, tr⟩⟩).Radio.trace.countP Event.isOffer
      ≤ tr.countP Event.isOffer + OFFERING_TRIES ∧
    OFFERING_TRIES = 2 := by
  obtain ⟨c, hc, hg, h1, h2⟩ := offeringLoop_wrongTypeOrNothing H L OFFERING_TRIES
    { type := packetType_t.NO_PACKET_TYPE, subType := packetSubType_t.NO_SUBTYPE }
    { type := packetType_t.NO_PACKET_TYPE, subType := packetSubType_t.NO_SUBTYPE }
    { g with currentMoveNum := 1 } acks _ _ tr tr (Or.inr ⟨pre, d, post, rfl, rfl, hd⟩)
  refine ⟨congrArg baseGame.gameState hg, congrArg baseGame.currentMoveNum hg, ?_, ?_, rfl⟩
  · exact h1.trans h2.symm
  · exact h1.trans_le (Nat.add_le_add_left hc _)

/-- Witness for C19: the first offer is answered by a found packet in one run and by nothing in
the other; both runs make two offers and end in `SEEKING_GAME`. -/
theorem wrong_type_is_no_reply_witness :
    (baseGame.offeringGame demoHandlers demoLayout
      (demoSession gameState_t.OFFERING_GAME 7 [true, true]
        ([] ++ rxEvent.delivered (demoControl packetType_t.FOUND_GAME_PACKET
          packetSubType_t.NO_SUBTYPE) :: []))).game.gameState =
    (baseGame.offeringGame demoHandlers demoLayout
      (demoSession gameState_t.OFFERING_GAME 7 [true, true]
        ([] ++ rxEvent.idle :: []))).game.gameState ∧
    (baseGame.offeringGame demoHandlers demoLayout
      (demoSession gameState_t.OFFERING_GAME 7 [true, true]
        ([] ++ rxEvent.idle :: []))).game.gameState = gameState_t.SEEKING_GAME :=
  ⟨(wrong_type_is_no_reply demoHandlers demoLayout
      (baseGame.new (demoMove 0) (demoResults 0) true 7 gameState_t.OFFERING_GAME 0)
      [true, true] [] []
      (demoControl packetType_t.FOUND_GAME_PACKET packetSubType_t.NO_SUBTYPE) []
      (by decide)).1, rfl⟩

/-! ### The transition graph -/

/-- A completed handshake contains an acceptance. -/
theorem handshake_acceptance {W : Type} (evs : List (Event W)) (h : handshake evs = true) :
    evs.any Event.isAcceptance = true := by
  simp only [handshake, Bool.or_eq_true, Bool.and_eq_true, List.any_eq_true] at h
  rw [List.any_eq_true]
  rcases h with ⟨⟨x, hx, hxa⟩, -⟩ | ⟨⟨⟨-, ⟨x, hx, hxa⟩⟩, -⟩, -⟩
  · exact ⟨x, hx, by simp [Event.isAcceptance, hxa]⟩
  · exact ⟨x, hx, by simp [Event.isAcceptance, hxa]⟩

/-- Every returning run of `seekingGame`: either the accept was not acknowledged and the game
object is the one before the step handed to `fatalError`, or the handshake was completed and
the state is a turn state. -/
theorem seekingGame_cases {G W : Type} (H : Handlers G W) (L : Layout) (s t : Session G W)
    (h : baseGame.seekingGame H L s = some t) :
    ∃ evs : List (Event W), t.Radio.trace = s.Radio.trace ++ evs ∧
      ((∃ msg : String, t.game = H.fatalError msg s.game) ∨
        (t.game.gameState.isTurn = true ∧ handshake evs = true)) := by
  rcases hoffer : basePacket.requireTypeLoop (basePacketClass W) L
      packetType_t.OFFERING_GAME_PACKET s.Radio.inbox
      (packetLen L ((basePacketClass W).my_size L))
      { type := packetType_t.NO_PACKET_TYPE, subType := packetSubType_t.NO_SUBTYPE }
    with _ | ⟨p1, rest1, evs1⟩
  · simp [baseGame.seekingGame, basePacket.requireType, hoffer] at h
  · rcases hacks : s.Radio.acks with _ | ⟨a, acks⟩
    · simp only [baseGame.seekingGame, basePacket.requireType, hoffer, basePacket.sendTyped,
        basePacket.send, baseRadio.send, baseRadio.log, hacks, Session.fatalError,
        Option.some.injEq] at h
      subst h
      exact ⟨_, by simp only [List.append_assoc]; rfl, Or.inl ⟨_, rfl⟩⟩
    · cases a with
      | false =>
        simp only [baseGame.seekingGame, basePacket.requireType, hoffer, basePacket.sendTyped,
          basePacket.send, baseRadio.send, baseRadio.log, hacks, Session.fatalError,
          Option.some.injEq] at h
        subst h
        exact ⟨_, by simp only [List.append_assoc]; rfl, Or.inl ⟨_, rfl⟩⟩
      | true =>
        rcases hfound : basePacket.requireTypeLoop (basePacketClass W) L
            packetType_t.FOUND_GAME_PACKET rest1 (packetLen L ((basePacketClass W).my_size L))
            ((basePacketClass W).setType packetType_t.ACCEPTING_GAME_PACKET p1)
          with _ | ⟨p3, rest2, evs2⟩
        · simp [baseGame.seekingGame, basePacket.requireType, hoffer, basePacket.sendTyped,
            basePacket.send, baseRadio.send, baseRadio.log, hacks, hfound] at h
        · rcases hflip : basePacket.requireTypeLoop (basePacketClass W) L
              packetType_t.COIN_FLIP_PACKET rest2 (packetLen L ((basePacketClass W).my_size L))
              p3
            with _ | ⟨p4, rest3, evs3⟩
          · simp [baseGame.seekingGame, basePacket.requireType, hoffer, basePacket.sendTyped,
              basePacket.send, baseRadio.send, baseRadio.log, hacks, hfound, hflip] at h
          · rw [seekingGame_run H L s acks p1 p3 p4 rest1 rest2 rest3 evs1 evs2 evs3 hoffer
              hacks hfound hflip, Option.some.injEq] at h
            subst h
            obtain ⟨a1, l1, d1, he1, hd1⟩ := requireTypeLoop_last (basePacketClass W) L _
              (basePacketClass_tags L) _ _ _ _ _ _ hoffer
            obtain ⟨a2, l2, d2, he2, hd2⟩ := requireTypeLoop_last (basePacketClass W) L _
              (basePacketClass_tags L) _ _ _ _ _ _ hfound
            obtain ⟨a3, l3, d3, he3, hd3⟩ := requireTypeLoop_last (basePacketClass W) L _
              (basePacketClass_tags L) _ _ _ _ _ _ hflip
            refine ⟨_, rfl, Or.inr ⟨?_, ?_⟩⟩
            · show (if p4.subType.toBool then gameState_t.OPPONENTS_TURN
                else gameState_t.MY_TURN).isTurn = true
              cases p4.subType.toBool <;> rfl
            · subst he1 he2 he3
              simp [handshake, Event.isRecvOf, Event.isAcceptAcked, controlDatagram, hd1, hd2,
                hd3]

/-- One returning step of `loopContents` when `fatalError` does not write `gameState`: the
step follows the transition graph, and a step from a state that is not a turn state into a
turn state made a completed handshake. -/
theorem loopContents_step {G W : Type} (H : Handlers G W) (L : Layout)
    (hfatal : ∀ (msg : String) (g : baseGame G W),
      (H.fatalError msg g).gameState = g.gameState)
    (s t : Session G W) (h : baseGame.loopContents H L s = some t) :
    s.game.gameState.mayStepTo t.game.gameState = true ∧
    ∃ evs : List (Event W), t.Radio.trace = s.Radio.trace ++ evs ∧
      (s.game.gameState.isTurn = false → t.game.gameState.isTurn = true →
        handshake evs = true) := by
  rcases hst : s.game.gameState with _ | _ | _ | _ | _
  all_goals simp only [baseGame.loopContents, hst] at h
  · -- OFFERING_GAME
    rw [Option.some.injEq] at h
    subst h
    obtain ⟨evs, htr, hpath⟩ := offeringLoop_outcome H L OFFERING_TRIES
      { type := packetType_t.NO_PACKET_TYPE, subType := packetSubType_t.NO_SUBTYPE }
      { s with game := { s.game with currentMoveNum := 1 } }
    rcases hpath with hp | hp
    · obtain ⟨offers, st, aF, aC, -, -, -, -, hA, hC, -, hg⟩ := hp
      have hg2 : (baseGame.offeringGame H L s).game.gameState =
          if (H.coinFlip s.game.derived).2 then gameState_t.MY_TURN
          else gameState_t.OPPONENTS_TURN := by
        show (baseGame.offeringLoop H L OFFERING_TRIES _ _).game.gameState = _
        rw [hg]
      refine ⟨?_, evs, htr, fun _ _ => ?_⟩
      · rw [hg2]; cases (H.coinFlip s.game.derived).2 <;> rfl
      · have h1 : evs.any Event.isAccept = true := by
          rw [List.any_eq_true]
          have : 0 < evs.countP Event.isAccept := by omega
          obtain ⟨x, hx, hxa⟩ := List.countP_pos_iff.mp this
          exact ⟨x, hx, hxa⟩
        have h2 : evs.any Event.isCoinFlip = true := by
          rw [List.any_eq_true]
          have hm : Event.coinFlip (H.coinFlip s.game.derived).2 ∈
              evs.filter Event.isCoinFlip := by rw [hC]; exact List.mem_singleton.mpr rfl
          exact ⟨_, (List.mem_filter.mp hm).1, (List.mem_filter.mp hm).2⟩
        simp [handshake, h1, h2]
    · obtain ⟨-, -, -, -, -, hg⟩ := hp
      have hg2 : (baseGame.offeringGame H L s).game.gameState = gameState_t.SEEKING_GAME := by
        show (baseGame.offeringLoop H L OFFERING_TRIES _ _).game.gameState = _
        rw [hg]
      refine ⟨by rw [hg2]; rfl, evs, htr, fun _ ht => ?_⟩
      rw [hg2] at ht
      exact absurd ht (by decide)
  · -- SEEKING_GAME
    obtain ⟨evs, htr, hc⟩ := seekingGame_cases H L s t h
    rcases hc with ⟨msg, hg⟩ | ⟨hturn, hh⟩
    · have hg2 : t.game.gameState = gameState_t.SEEKING_GAME := by
        rw [hg, hfatal, hst]
      refine ⟨by rw [hg2]; rfl, evs, htr, fun _ ht => ?_⟩
      rw [hg2] at ht
      exact absurd ht (by decide)
    · refine ⟨?_, evs, htr, fun _ _ => hh⟩
      revert hturn
      cases t.game.gameState <;> decide
  · -- MY_TURN
    obtain ⟨a, rxs, e, htr, -, -, -, hc⟩ := doMyTurn_cases H L s t h
    refine ⟨?_, _, htr, fun hn => absurd hn (by decide)⟩
    rcases hc with ⟨msg, g, hg, hgs⟩ | hc | hc
    · rw [hg, hfatal, hgs, hst]; rfl
    · rw [hc]; rfl
    · rw [hc]; rfl
  · -- OPPONENTS_TURN
    obtain ⟨rxs, tail, htr, -, -, hc⟩ := doOpponentsTurn_cases H L s t h
    refine ⟨?_, _, htr, fun hn => absurd hn (by decide)⟩
    rcases hc with ⟨msg, -, g, hg, hgs⟩ | ⟨-, -, -, -, -, hc | hc⟩
    · rw [hg, hfatal, hgs, hst]; rfl
    · rw [hc]; rfl
    · rw [hc]; rfl
  · -- GAME_OVER
    rw [Option.some.injEq] at h
    subst h
    exact ⟨rfl, [Event.processGameOver], rfl,
      fun _ ht => absurd ht (by simp [baseGame.gameOver, gameState_t.isTurn])⟩

/-- Every returning run of the main loop when `fatalError` does not write `gameState`: if it
ends in a turn state or in `GAME_OVER`, it started in one of them or an offer was accepted on
the way. -/
theorem mainLoop_acceptance {G W : Type} (H : Handlers G W) (L : Layout)
    (hfatal : ∀ (msg : String) (g : baseGame G W),
      (H.fatalError msg g).gameState = g.gameState) :
    ∀ (n : Nat) (s t : Session G W), baseGame.mainLoop H L n s = some t →
      ∃ evs : List (Event W), t.Radio.trace = s.Radio.trace ++ evs ∧
        (t.game.gameState.inGame = true →
          s.game.gameState.inGame = true ∨ evs.any Event.isAcceptance = true) := by
  intro n
  induction n with
  | zero =>
    intro s t h
    simp only [baseGame.mainLoop, Option.some.injEq] at h
    subst h
    exact ⟨[], by simp, fun ht => Or.inl ht⟩
  | succ n ih =>
    intro s t h
    rcases hu : baseGame.loopContents H L s with _ | u
    · simp [baseGame.mainLoop, hu] at h
    · simp only [baseGame.mainLoop, hu, Option.some_bind] at h
      obtain ⟨evs2, htr2, hin2⟩ := ih u t h
      obtain ⟨hgraph, evs1, htr1, hh⟩ := loopContents_step H L hfatal s u hu
      refine ⟨evs1 ++ evs2, by rw [htr2, htr1, List.append_assoc], fun ht => ?_⟩
      rcases hin2 ht with hu2 | hacc
      · by_cases hs : s.game.gameState.inGame = true
        · exact Or.inl hs
        · refine Or.inr ?_
          have hturn : s.game.gameState.isTurn = false ∧ u.game.gameState.isTurn = true := by
            revert hs hu2 hgraph
            cases s.game.gameState <;> cases u.game.gameState <;> decide
          rw [List.any_append, handshake_acceptance evs1 (hh hturn.1 hturn.2)]
          rfl
      · exact Or.inr (by rw [List.any_append, hacc, Bool.or_true])

/-- C18. Transition graph. Let `fatalError` not write `gameState`, and let `initialize` be the
base implementation or an override that calls it, as the header requires, so that it leaves
`gameState = OFFERING_GAME` (`processGameOver` is overwritten by the engine; no other callback
can reach `gameState`). Then

* every returning step of `loopContents` follows the graph `mayStepTo`: `OFFERING_GAME` only to
  `MY_TURN`, `OPPONENTS_TURN` or `SEEKING_GAME`; `SEEKING_GAME` only to `MY_TURN`,
  `OPPONENTS_TURN` or `SEEKING_GAME`; `MY_TURN` only to `OPPONENTS_TURN`, `GAME_OVER` or
  `MY_TURN`; `OPPONENTS_TURN` only to `MY_TURN`, `GAME_OVER` or `OPPONENTS_TURN`; `GAME_OVER`
  only to `OFFERING_GAME`;
* a step from a state that is not a turn state into a turn state made a completed offer/accept
  handshake;
* `setup()` leaves `gameState = OFFERING_GAME`, whatever the constructor left there;
* after `setup()` and any number of returning steps, `gameState` is one of the five states,
  and if it is a turn state or `GAME_OVER`, an offer was accepted since `setup()`. -/
theorem transition_graph {G W : Type} (H : Handlers G W) (L : Layout)
    (hfatal : ∀ (msg : String) (g : baseGame G W),
      (H.fatalError msg g).gameState = g.gameState)
    (hinit : ∀ g : baseGame G W, (H.initialise g).gameState = gameState_t.OFFERING_GAME) :
    (∀ s t : Session G W, baseGame.loopContents H L s = some t →
      s.game.gameState.mayStepTo t.game.gameState = true ∧
      ∃ evs : List (Event W), t.Radio.trace = s.Radio.trace ++ evs ∧
        (s.game.gameState.isTurn = false → t.game.gameState.isTurn = true →
          handshake evs = true)) ∧
    (∀ s0 : Session G W, (baseGame.setup H s0).game.gameState = gameState_t.OFFERING_GAME) ∧
    (∀ (n : Nat) (s0 t : Session G W),
      baseGame.mainLoop H L n (baseGame.setup H s0) = some t →
      (t.game.gameState = gameState_t.OFFERING_GAME ∨
        t.game.gameState = gameState_t.SEEKING_GAME ∨
        t.game.gameState = gameState_t.MY_TURN ∨
        t.game.gameState = gameState_t.OPPONENTS_TURN ∨
        t.game.gameState = gameState_t.GAME_OVER) ∧
      ∃ evs : List (Event W), t.Radio.trace = (baseGame.setup H s0).Radio.trace ++ evs ∧
        (t.game.gameState.inGame = true → evs.any Event.isAcceptance = true)) := by
  refine ⟨fun s t h => loopContents_step H L hfatal s t h, fun s0 => hinit s0.game,
    fun n s0 t h => ⟨?_, ?_⟩⟩
  · cases t.game.gameState <;> simp
  · obtain ⟨evs, htr, hin⟩ := mainLoop_acceptance H L hfatal n (baseGame.setup H s0) t h
    refine ⟨evs, htr, fun ht => ?_⟩
    rcases hin ht with h0 | h1
    · have hs : (baseGame.setup H s0).game.gameState = gameState_t.OFFERING_GAME :=
        hinit s0.game
      rw [hs] at h0
      exact absurd h0 (by decide)
    · exact h1

/-- Witness for C18: `plainHandlers` meet both hypotheses; from a constructor that left
`GAME_OVER`, `setup()` and one step, in which the offer is accepted, end in `MY_TURN`. -/
theorem transition_graph_witness :
    (∀ (msg : String) (g : baseGame Nat Nat),
      (plainHandlers.fatalError msg g).gameState = g.gameState) ∧
    (∀ g : baseGame Nat Nat,
      (plainHandlers.initialise g).gameState = gameState_t.OFFERING_GAME) ∧
    (baseGame.setup plainHandlers freshSession).game.gameState = gameState_t.OFFERING_GAME ∧
    (∃ t : Session Nat Nat,
      baseGame.mainLoop plainHandlers demoLayout 1 (baseGame.setup plainHandlers freshSession)
        = some t ∧
      t.game.gameState = gameState_t.MY_TURN ∧
      ∃ evs : List (Event Nat),
        t.Radio.trace = (baseGame.setup plainHandlers freshSession).Radio.trace ++ evs ∧
        (t.game.gameState.inGame = true → evs.any Event.isAcceptance = true)) :=
  ⟨fun _ _ => rfl, fun _ => rfl,
    (transition_graph plainHandlers demoLayout (fun _ _ => rfl) (fun _ => rfl)).2.1
      freshSession,
    _, rfl, rfl,
    ((transition_graph plainHandlers demoLayout (fun _ _ => rfl) (fun _ => rfl)).2.2
      1 freshSession _ rfl).2⟩

/-! ### The two addresses -/

/-- A returning step of `doMyTurn` leaves the two addresses alone when `fatalError` does. -/
theorem doMyTurn_addresses {G W : Type} (H : Handlers G W) (L : Layout)
    (hfe : ∀ (msg : String) (g : baseGame G W),
      (H.fatalError msg g).myPlayerNum = g.myPlayerNum ∧
      (H.fatalError msg g).otherPlayerNum = g.otherPlayerNum)
    (s t : Session G W) (h : baseGame.doMyTurn H L s = some t) :
    t.game.myPlayerNum = s.game.myPlayerNum ∧
    t.game.otherPlayerNum = s.game.otherPlayerNum := by
  rcases hacks : s.Radio.acks with _ | ⟨a, acks⟩
  · simp only [baseGame.doMyTurn, basePacket.send, baseRadio.send, baseRadio.log, hacks,
      Session.fatalError, Option.some.injEq] at h
    subst h
    exact hfe _ _
  · cases a with
    | false =>
      simp only [baseGame.doMyTurn, basePacket.send, baseRadio.send, baseRadio.log, hacks,
        Session.fatalError, Option.some.injEq] at h
      subst h
      exact hfe _ _
    | true =>
      rcases hreq : basePacket.requireTypeLoop (baseResultsClass W) L
          packetType_t.RESULTS_PACKET s.Radio.inbox
          (packetLen L ((baseResultsClass W).my_size L)) s.game.Results with _ | ⟨res, rest, evs⟩
      · simp [baseGame.doMyTurn, basePacket.send, baseRadio.send, baseRadio.log, hacks,
          baseResults.require, basePacket.requireType, hreq] at h
      · by_cases hnum : res.resultsNum = s.game.currentMoveNum
        · simp only [baseGame.doMyTurn, basePacket.send, baseRadio.send, baseRadio.log, hacks,
            baseResults.require, basePacket.requireType, hreq, hnum, ne_eq, not_true_eq_false,
            if_false, Option.some.injEq] at h
          subst h
          exact ⟨rfl, rfl⟩
        · simp only [baseGame.doMyTurn, basePacket.send, baseRadio.send, baseRadio.log, hacks,
            baseResults.require, basePacket.requireType, hreq, hnum, if_true, ne_eq,
            not_false_eq_true, Session.fatalError, Option.some.injEq] at h
          subst h
          exact hfe _ _

/-- A returning step of `doOpponentsTurn` leaves the two addresses alone when `fatalError`
does. -/
theorem doOpponentsTurn_addresses {G W : Type} (H : Handlers G W) (L : Layout)
    (hfe : ∀ (msg : String) (g : baseGame G W),
      (H.fatalError msg g).myPlayerNum = g.myPlayerNum ∧
      (H.fatalError msg g).otherPlayerNum = g.otherPlayerNum)
    (s t : Session G W) (h : baseGame.doOpponentsTurn H L s = some t) :
    t.game.myPlayerNum = s.game.myPlayerNum ∧
    t.game.otherPlayerNum = s.game.otherPlayerNum := by
  rcases hreq : basePacket.requireTypeLoop (baseMoveClass W) L packetType_t.MOVE_PACKET
      s.Radio.inbox (packetLen L ((baseMoveClass W).my_size L)) s.game.Move
    with _ | ⟨mv, rest, evs⟩
  · simp [baseGame.doOpponentsTurn, baseMove.require, basePacket.requireType, hreq] at h
  · by_cases hbad : mv.moveNum ≠ (if mv.moveNum = 0 then 0 else s.game.currentMoveNum) ∧
        mv.moveNum > 0
    · simp only [baseGame.doOpponentsTurn, baseMove.require, basePacket.requireType, hreq]
        at h
      rw [if_pos hbad] at h
      simp only [Session.fatalError, Option.some.injEq] at h
      subst h
      exact hfe _ _
    · simp only [baseGame.doOpponentsTurn, baseMove.require, basePacket.requireType, hreq]
        at h
      rw [if_neg hbad] at h
      simp only [Option.some.injEq] at h
      subst h
      exact ⟨rfl, rfl⟩

/-- A returning step of `seekingGame` leaves the two addresses alone when `fatalError`
does. -/
theorem seekingGame_addresses {G W : Type} (H : Handlers G W) (L : Layout)
    (hfe : ∀ (msg : String) (g : baseGame G W),
      (H.fatalError msg g).myPlayerNum = g.myPlayerNum ∧
      (H.fatalError msg g).otherPlayerNum = g.otherPlayerNum)
    (s t : Session G W) (h : baseGame.seekingGame H L s = some t) :
    t.game.myPlayerNum = s.game.myPlayerNum ∧
    t.game.otherPlayerNum = s.game.otherPlayerNum := by
  rcases hoffer : basePacket.requireTypeLoop (basePacketClass W) L
      packetType_t.OFFERING_GAME_PACKET s.Radio.inbox
      (packetLen L ((basePacketClass W).my_size L))
      { type := packetType_t.NO_PACKET_TYPE, subType := packetSubType_t.NO_SUBTYPE }
    with _ | ⟨p1, rest1, evs1⟩
  · simp [baseGame.seekingGame, basePacket.requireType, hoffer] at h
  · rcases hacks : s.Radio.acks with _ | ⟨a, acks⟩
    · simp only [baseGame.seekingGame, basePacket.requireType, hoffer, basePacket.sendTyped,
        basePacket.send, baseRadio.send, baseRadio.log, hacks, Session.fatalError,
        Option.some.injEq] at h
      subst h
      exact hfe _ _
    · cases a with
      | false =>
        simp only [baseGame.seekingGame, basePacket.requireType, hoffer, basePacket.sendTyped,
          basePacket.send, baseRadio.send, baseRadio.log, hacks, Session.fatalError,
          Option.some.injEq] at h
        subst h
        exact hfe _ _
      | true =>
        rcases hfound : basePacket.requireTypeLoop (basePacketClass W) L
            packetType_t.FOUND_GAME_PACKET rest1 (packetLen L ((basePacketClass W).my_size L))
            ((basePacketClass W).setType packetType_t.ACCEPTING_GAME_PACKET p1)
          with _ | ⟨p3, rest2, evs2⟩
        · simp [baseGame.seekingGame, basePacket.requireType, hoffer, basePacket.sendTyped,
            basePacket.send, baseRadio.send, baseRadio.log, hacks, hfound] at h
        · rcases hflip : basePacket.requireTypeLoop (basePacketClass W) L
              packetType_t.COIN_FLIP_PACKET rest2 (packetLen L ((basePacketClass W).my_size L))
              p3
            with _ | ⟨p4, rest3, evs3⟩
          · simp [baseGame.seekingGame, basePacket.requireType, hoffer, basePacket.sendTyped,
              basePacket.send, baseRadio.send, baseRadio.log, hacks, hfound, hflip] at h
          · rw [seekingGame_run H L s acks p1 p3 p4 rest1 rest2 rest3 evs1 evs2 evs3 hoffer
              hacks hfound hflip, Option.some.injEq] at h
            subst h
            exact ⟨rfl, rfl⟩

/-- A returning step of `loopContents` leaves the two addresses alone when `fatalError` and
`processGameOver` do. -/
theorem loopContents_addresses {G W : Type} (H : Handlers G W) (L : Layout)
    (hfe : ∀ (msg : String) (g : baseGame G W),
      (H.fatalError msg g).myPlayerNum = g.myPlayerNum ∧
      (H.fatalError msg g).otherPlayerNum = g.otherPlayerNum)
    (hpg : ∀ g : baseGame G W,
      (H.processGameOver g).myPlayerNum = g.myPlayerNum ∧
      (H.processGameOver g).otherPlayerNum = g.otherPlayerNum)
    (s t : Session G W) (h : baseGame.loopContents H L s = some t) :
    t.game.myPlayerNum = s.game.myPlayerNum ∧
    t.game.otherPlayerNum = s.game.otherPlayerNum := by
  rcases hst : s.game.gameState with _ | _ | _ | _ | _
  all_goals simp only [baseGame.loopContents, hst] at h
  · rw [Option.some.injEq] at h
    subst h
    obtain ⟨evs, -, hpath⟩ := offeringLoop_outcome H L OFFERING_TRIES
      { type := packetType_t.NO_PACKET_TYPE, subType := packetSubType_t.NO_SUBTYPE }
      { s with game := { s.game with currentMoveNum := 1 } }
    have hg : (baseGame.offeringGame H L s).game.myPlayerNum = s.game.myPlayerNum ∧
        (baseGame.offeringGame H L s).game.otherPlayerNum = s.game.otherPlayerNum := by
      show (baseGame.offeringLoop H L OFFERING_TRIES _ _).game.myPlayerNum = _ ∧
        (baseGame.offeringLoop H L OFFERING_TRIES _ _).game.otherPlayerNum = _
      rcases hpath with hp | hp
      · obtain ⟨_, _, _, _, -, -, -, -, -, -, -, hg⟩ := hp
        rw [hg]; exact ⟨rfl, rfl⟩
      · obtain ⟨-, -, -, -, -, hg⟩ := hp
        rw [hg]; exact ⟨rfl, rfl⟩
    exact hg
  · exact seekingGame_addresses H L hfe s t h
  · exact doMyTurn_addresses H L hfe s t h
  · exact doOpponentsTurn_addresses H L hfe s t h
  · rw [Option.some.injEq] at h
    subst h
    exact hpg s.game

/-- C21. Session construction fixes the two addresses. The constructor gives
`myPlayerNum = 1`, `otherPlayerNum = 2` with `isPlayer_1 = true` and `myPlayerNum = 2`,
`otherPlayerNum = 1` with false, for every other argument; so the two addresses are distinct
members of {1, 2}, and of two sessions built with opposite flags each addresses the other. The
engine never writes the addresses: when the callbacks that are handed the whole game object
(`initialize`, `fatalError`, `processGameOver`) leave them alone, `setup()` and every returning
step of `loopContents`, hence every returning run of the main loop, leave both as they
were. -/
theorem addresses_fixed {G W : Type} (H : Handlers G W) (L : Layout)
    (hin : ∀ g : baseGame G W,
      (H.initialise g).myPlayerNum = g.myPlayerNum ∧
      (H.initialise g).otherPlayerNum = g.otherPlayerNum)
    (hfe : ∀ (msg : String) (g : baseGame G W),
      (H.fatalError msg g).myPlayerNum = g.myPlayerNum ∧
      (H.fatalError msg g).otherPlayerNum = g.otherPlayerNum)
    (hpg : ∀ g : baseGame G W,
      (H.processGameOver g).myPlayerNum = g.myPlayerNum ∧
      (H.processGameOver g).otherPlayerNum = g.otherPlayerNum) :
    (∀ (m : baseMove W) (r : baseResults W) (n0 : Nat) (st0 : gameState_t) (d : G),
      (baseGame.new m r true n0 st0 d).myPlayerNum = 1 ∧
      (baseGame.new m r true n0 st0 d).otherPlayerNum = 2 ∧
      (baseGame.new m r false n0 st0 d).myPlayerNum = 2 ∧
      (baseGame.new m r false n0 st0 d).otherPlayerNum = 1) ∧
    (∀ (m : baseMove W) (r : baseResults W) (b : Bool) (n0 : Nat) (st0 : gameState_t) (d : G),
      (baseGame.new m r b n0 st0 d).myPlayerNum ≠ (baseGame.new m r b n0 st0 d).otherPlayerNum ∧
      ((baseGame.new m r b n0 st0 d).myPlayerNum = 1 ∨
        (baseGame.new m r b n0 st0 d).myPlayerNum = 2) ∧
      ((baseGame.new m r b n0 st0 d).otherPlayerNum = 1 ∨
        (baseGame.new m r b n0 st0 d).otherPlayerNum = 2)) ∧
    (∀ (m m2 : baseMove W) (r r2 : baseResults W) (b : Bool) (n0 n2 : Nat)
      (st0 st2 : gameState_t) (d d2 : G),
      (baseGame.new m r b n0 st0 d).otherPlayerNum =
        (baseGame.new m2 r2 (!b) n2 st2 d2).myPlayerNum ∧
      (baseGame.new m2 r2 (!b) n2 st2 d2).otherPlayerNum =
        (baseGame.new m r b n0 st0 d).myPlayerNum) ∧
    (∀ s : Session G W,
      (baseGame.setup H s).game.myPlayerNum = s.game.myPlayerNum ∧
      (baseGame.setup H s).game.otherPlayerNum = s.game.otherPlayerNum) ∧
    (∀ s t : Session G W, baseGame.loopContents H L s = some t →
      t.game.myPlayerNum = s.game.myPlayerNum ∧
      t.game.otherPlayerNum = s.game.otherPlayerNum) ∧
    (∀ (n : Nat) (s t : Session G W), baseGame.mainLoop H L n s = some t →
      t.game.myPlayerNum = s.game.myPlayerNum ∧
      t.game.otherPlayerNum = s.game.otherPlayerNum) := by
  refine ⟨fun _ _ _ _ _ => ⟨rfl, rfl, rfl, rfl⟩, ?_, ?_, fun s => hin s.game,
    fun s t h => loopContents_addresses H L hfe hpg s t h, ?_⟩
  · intro m r b n0 st0 d
    cases b <;> simp [baseGame.new]
  · intro m m2 r r2 b n0 n2 st0 st2 d d2
    cases b <;> simp [baseGame.new]
  · intro n
    induction n with
    | zero =>
      intro s t h
      simp only [baseGame.mainLoop, Option.some.injEq] at h
      subst h
      exact ⟨rfl, rfl⟩
    | succ n ih =>
      intro s t h
      rcases hu : baseGame.loopContents H L s with _ | u
      · simp [baseGame.mainLoop, hu] at h
      · simp only [baseGame.mainLoop, hu, Option.some_bind] at h
        obtain ⟨h1, h2⟩ := ih u t h
        obtain ⟨h3, h4⟩ := loopContents_addresses H L hfe hpg s u hu
        exact ⟨h1.trans h3, h2.trans h4⟩

/-- Witness for C21: the toy game's callbacks leave the addresses alone; player 1 keeps
addresses 1 and 2 through `setup()` and a step in which its offer is accepted. -/
theorem addresses_fixed_witness :
    (∀ g : baseGame Nat Nat,
      (plainHandlers.initialise g).myPlayerNum = g.myPlayerNum ∧
      (plainHandlers.initialise g).otherPlayerNum = g.otherPlayerNum) ∧
    (∀ (msg : String) (g : baseGame Nat Nat),
      (plainHandlers.fatalError msg g).myPlayerNum = g.myPlayerNum ∧
      (plainHandlers.fatalError msg g).otherPlayerNum = g.otherPlayerNum) ∧
    (∀ g : baseGame Nat Nat,
      (plainHandlers.processGameOver g).myPlayerNum = g.myPlayerNum ∧
      (plainHandlers.processGameOver g).otherPlayerNum = g.otherPlayerNum) ∧
    (∃ t : Session Nat Nat,
      baseGame.mainLoop plainHandlers demoLayout 1 (baseGame.setup plainHandlers freshSession)
        = some t ∧
      t.game.myPlayerNum = 1 ∧ t.game.otherPlayerNum = 2) :=
  ⟨fun _ => ⟨rfl, rfl⟩, fun _ _ => ⟨rfl, rfl⟩, fun _ => ⟨rfl, rfl⟩, _, rfl,
    (addresses_fixed plainHandlers demoLayout (fun _ => ⟨rfl, rfl⟩) (fun _ _ => ⟨rfl, rfl⟩)
      (fun _ => ⟨rfl, rfl⟩)).2.2.2.2.2 1 (baseGame.setup plainHandlers freshSession) _ rfl⟩

/-! ### The move numbered 0 -/

/-- C22, as amended. A received Move numbered 0 is accepted as the bootstrap pass at every value
of the local counter, not only when it is 1: for every session, if the wait for the move returns
with a Move object whose `moveNum` is 0, the step returns and is the step the same session
makes with counter 1; `fatalError` is not called, the counter is reset to 0 and then incremented,
so the step ends with `currentMoveNum = 1`. -/
theorem zero_move_accepted {G W : Type} (H : Handlers G W) (L : Layout)
    (s : Session G W) (mv : baseMove W) (rest : List (rxEvent W)) (evs : List (Event W))
    (hrecv : basePacket.requireTypeLoop (baseMoveClass W) L packetType_t.MOVE_PACKET
      s.Radio.inbox (packetLen L L.sizeof_Move) s.game.Move = some (mv, rest, evs))
    (h0 : mv.moveNum = 0) :
    ∃ t : Session G W, baseGame.doOpponentsTurn H L s = some t ∧
      baseGame.doOpponentsTurn H L { s with game := { s.game with currentMoveNum := 1 } }
        = some t ∧
      (s.traceSince t).countP Event.isFatal = 0 ∧
      t.game.currentMoveNum = 1 := by
  obtain ⟨-, hrx⟩ := requireTypeLoop_exit _ L _ _ _ _ _ _ _ hrecv
  have hrecv2 : basePacket.requireTypeLoop (baseMoveClass W) L packetType_t.MOVE_PACKET
      s.Radio.inbox (packetLen L ((baseMoveClass W).my_size L)) s.game.Move
      = some (mv, rest, evs) := hrecv
  generalize hdo : baseGame.doOpponentsTurn H L s = r
  generalize hdz : baseGame.doOpponentsTurn H L
    { s with game := { s.game with currentMoveNum := 1 } } = z
  cases hacks : s.Radio.acks with
  | nil =>
    simp only [baseGame.doOpponentsTurn, baseMove.require, basePacket.requireType, hrecv2, h0,
      if_true, ne_eq, not_true_eq_false, false_and, if_false, basePacket.send, baseRadio.send,
      baseRadio.log, hacks] at hdo hdz
    subst hdo hdz
    refine ⟨_, rfl, rfl, ?_, ?_⟩
    · simp [Session.traceSince, Event.isFatal, countP_of_isRx _ evs isRx_not_fatal hrx]
    · simp
  | cons a acks =>
    simp only [baseGame.doOpponentsTurn, baseMove.require, basePacket.requireType, hrecv2, h0,
      if_true, ne_eq, not_true_eq_false, false_and, if_false, basePacket.send, baseRadio.send,
      baseRadio.log, hacks] at hdo hdz
    subst hdo hdz
    refine ⟨_, rfl, rfl, ?_, ?_⟩
    · simp [Session.traceSince, Event.isFatal, countP_of_isRx _ evs isRx_not_fatal hrx]
    · simp

/-- Witness for C22 as amended: four moves have been completed (counter 5) and a Move numbered
0 arrives; the step ends with counter 1. -/
theorem zero_move_accepted_witness :
    ∃ t : Session Nat Nat,
      baseGame.doOpponentsTurn demoHandlers demoLayout
        (demoSession gameState_t.OPPONENTS_TURN 5 [true]
          [rxEvent.delivered (demoMoveDatagram 0 0)]) = some t ∧
      t.game.currentMoveNum = 1 :=
  (zero_move_accepted demoHandlers demoLayout
    (demoSession gameState_t.OPPONENTS_TURN 5 [true] [rxEvent.delivered (demoMoveDatagram 0 0)])
    { type := packetType_t.MOVE_PACKET, subType := packetSubType_t.NORMAL_MOVE, moveNum := 0,
      payload := 0 }
    []
    [Event.available true, Event.recv 12 (some (demoMoveDatagram 0 0))]
    rfl rfl).imp
    fun _ h => ⟨h.1, h.2.2.2⟩

/-- Counterexample to C22 as stated: the local counter is 5, greater than 1, a Move numbered 0
is received, and the step calls no `fatalError`: it ends in `MY_TURN`. -/
theorem zero_move_counterexample :
    ∃ t : Session Nat Nat,
      baseGame.doOpponentsTurn demoHandlers demoLayout
        (demoSession gameState_t.OPPONENTS_TURN 5 [true]
          [rxEvent.delivered (demoMoveDatagram 0 0)]) = some t ∧
      1 < (demoSession gameState_t.OPPONENTS_TURN 5 [true]
          [rxEvent.delivered (demoMoveDatagram 0 0)]).game.currentMoveNum ∧
      t.Radio.trace.countP Event.isFatal = 0 ∧
      t.game.gameState = gameState_t.MY_TURN :=
  ⟨_, rfl, by decide, rfl, rfl⟩

/-! ### Offers and timed waits -/

/-- The trace entries of two stretches of a run, put together. -/
theorem WaitsMatchAcks_append {W : Type} (a b : List (Event W)) (ha : WaitsMatchAcks a)
    (hb : WaitsMatchAcks b) : WaitsMatchAcks (a ++ b) := by
  refine ⟨by rw [List.countP_append, List.countP_append, ha.1, hb.1], fun e he T hT => ?_⟩
  rcases List.mem_append.mp he with h | h
  · exact ha.2 e h T hT
  · exact hb.2 e h T hT

/-- An offer that is not acknowledged: no wait. -/
theorem WaitsMatchAcks_noack {W : Type} (L : Layout) (st : packetSubType_t) :
    WaitsMatchAcks
      [(Event.send (controlDatagram W L packetType_t.OFFERING_GAME_PACKET st) false :
        Event W)] := by
  refine ⟨rfl, fun e he T hT => ?_⟩
  rw [List.mem_singleton] at he
  subst he
  simp [Event.waitTimeout] at hT

/-- An acknowledged offer and its wait. -/
theorem WaitsMatchAcks_try {W : Type} (L : Layout) (st : packetSubType_t) (len : Nat)
    (got : Option (Datagram W)) :
    WaitsMatchAcks
      ([Event.send (controlDatagram W L packetType_t.OFFERING_GAME_PACKET st) true] ++
        [Event.recvTimeout len OFFERING_TIMEOUT got]) := by
  refine ⟨by simp [Event.isTimedWait, Event.isOfferAcked, controlDatagram],
    fun e he T hT => ?_⟩
  simp only [List.singleton_append, List.mem_cons, List.mem_singleton, List.mem_nil_iff,
    or_false] at he
  rcases he with he | he
  · subst he; simp [Event.waitTimeout] at hT
  · subst he
    simp only [Event.waitTimeout, Option.some.injEq] at hT
    exact hT.symm

/-- The trace of a try that gets the accept. -/
theorem offeringLoop_accept_trace {G W : Type} (H : Handlers G W) (L : Layout) (k : Nat)
    (p : basePacket) (g : baseGame G W) (acks : List Bool) (d : Datagram W)
    (i : List (rxEvent W)) (tr : List (Event W))
    (hd : d.type = packetType_t.ACCEPTING_GAME_PACKET) :
    (baseGame.offeringLoop H L (k + 1) p
        ⟨g, ⟨true :: acks, rxEvent.delivered d :: i, tr⟩⟩).Radio.trace =
      tr ++ ([Event.send (controlDatagram W L packetType_t.OFFERING_GAME_PACKET p.subType)
          true] ++
        [Event.recvTimeout (packetLen L L.sizeof_basePacket) OFFERING_TIMEOUT (some d)] ++
        [Event.send (controlDatagram W L packetType_t.FOUND_GAME_PACKET d.subType)
          (acks.headD false),
         Event.coinFlip (H.coinFlip g.derived).2,
         Event.send (controlDatagram W L packetType_t.COIN_FLIP_PACKET
           (packetSubType_t.ofBool (H.coinFlip g.derived).2)) (acks.tail.headD false)]) := by
  rcases acks with _ | ⟨aF, _ | ⟨aC, acks⟩⟩ <;>
    simp [baseGame.offeringLoop, basePacket.sendTyped, basePacket.send, baseRadio.send,
      basePacket.requireTypeTimeout, baseRadio.recvTimeout, basePacketClass, hd,
      PacketClass.image, baseRadio.log, controlDatagram]

/-- Every run of the offering loop makes as many timed waits as it had offers acknowledged,
each with the timeout `OFFERING_TIMEOUT`. -/
theorem offeringLoop_waits {G W : Type} (H : Handlers G W) (L : Layout) :
    ∀ (k : Nat) (p : basePacket) (g : baseGame G W) (acks : List Bool)
      (i : List (rxEvent W)) (tr : List (Event W)),
      ∃ evs : List (Event W),
        (baseGame.offeringLoop H L k p ⟨g, ⟨acks, i, tr⟩⟩).Radio.trace = tr ++ evs ∧
        WaitsMatchAcks evs := by
  intro k
  induction k with
  | zero =>
    intro p g acks i tr
    exact ⟨[], by simp [baseGame.offeringLoop], rfl, fun e he => by simp at he⟩
  | succ k ih =>
    intro p g acks i tr
    have lift : ∀ (p1 : basePacket) (acks1 : List Bool) (i1 : List (rxEvent W))
        (e1 : List (Event W)), WaitsMatchAcks e1 →
        baseGame.offeringLoop H L (k + 1) p ⟨g, ⟨acks, i, tr⟩⟩ =
          baseGame.offeringLoop H L k p1 ⟨g, ⟨acks1, i1, tr ++ e1⟩⟩ →
        ∃ evs : List (Event W),
          (baseGame.offeringLoop H L (k + 1) p ⟨g, ⟨acks, i, tr⟩⟩).Radio.trace = tr ++ evs ∧
          WaitsMatchAcks evs := by
      intro p1 acks1 i1 e1 h1 he
      obtain ⟨evs, htr, hw⟩ := ih p1 g acks1 i1 (tr ++ e1)
      exact ⟨e1 ++ evs, by rw [he, htr, List.append_assoc], WaitsMatchAcks_append _ _ h1 hw⟩
    rcases acks with _ | ⟨a, acks⟩
    · exact lift _ _ _ _ (WaitsMatchAcks_noack L p.subType) (offeringLoop_noack_nil H L k p g i tr)
    · cases a with
      | false =>
        exact lift _ _ _ _ (WaitsMatchAcks_noack L p.subType)
          (offeringLoop_noack H L k p g acks i tr)
      | true =>
        rcases i with _ | ⟨x, i⟩
        · exact lift _ _ _ _ (WaitsMatchAcks_try L p.subType _ none)
            (by rw [offeringLoop_timeout_nil, List.append_assoc])
        · cases x with
          | idle =>
            exact lift _ _ _ _ (WaitsMatchAcks_try L p.subType _ none)
              (by rw [offeringLoop_idle, List.append_assoc])
          | failed =>
            exact lift _ _ _ _ (WaitsMatchAcks_try L p.subType _ none)
              (by rw [offeringLoop_failed, List.append_assoc])
          | delivered d =>
            by_cases hd : d.type = packetType_t.ACCEPTING_GAME_PACKET
            · refine ⟨_, offeringLoop_accept_trace H L k p g acks d i tr hd, ?_⟩
              refine WaitsMatchAcks_append _ _ (WaitsMatchAcks_try L p.subType _ (some d)) ?_
              have hF : ∀ a : Bool, (Event.send (controlDatagram W L
                  packetType_t.FOUND_GAME_PACKET d.subType) a).isOfferAcked = false :=
                fun a => by cases a <;> rfl
              have hC : ∀ a : Bool, (Event.send (controlDatagram W L
                  packetType_t.COIN_FLIP_PACKET
                  (packetSubType_t.ofBool (H.coinFlip g.derived).2)) a).isOfferAcked = false :=
                fun a => by cases a <;> rfl
              have hK : (Event.coinFlip (H.coinFlip g.derived).2 : Event W).isOfferAcked
                  = false := rfl
              refine ⟨by simp [List.countP_cons, hF, hC, hK, Event.isTimedWait],
                fun e he T hT => ?_⟩
              simp only [List.mem_cons, List.mem_singleton, List.mem_nil_iff, or_false] at he
              rcases he with he | he | he <;> subst he <;> simp [Event.waitTimeout] at hT
            · exact lift _ _ _ _ (WaitsMatchAcks_try L p.subType _ (some d))
                (by rw [offeringLoop_wrong H L k p g acks d i tr hd, List.append_assoc])

/-- C23, as amended. In `offeringGame` each try sends one offer and, only when that offer is
acknowledged, makes one timed wait of `OFFERING_TIMEOUT = 1000` for an accept. For every
session, whatever the acknowledgements and the replies: the number of timed waits equals the
number of acknowledged offers, which is at most the number of offers sent, and every timed
wait has the timeout 1000. -/
theorem waits_match_acknowledged_offers {G W : Type} (H : Handlers G W) (L : Layout)
    (s : Session G W) :
    ∃ evs : List (Event W),
      (baseGame.offeringGame H L s).Radio.trace = s.Radio.trace ++ evs ∧
      evs.countP Event.isTimedWait = evs.countP Event.isOfferAcked ∧
      evs.countP Event.isOfferAcked ≤ evs.countP Event.isOffer ∧
      (∀ e ∈ evs, ∀ T : Nat, e.waitTimeout = some T → T = 1000) ∧
      OFFERING_TIMEOUT = 1000 := by
  obtain ⟨g, ⟨acks, i, tr⟩⟩ := s
  obtain ⟨evs, htr, hw⟩ := offeringLoop_waits H L OFFERING_TRIES
    { type := packetType_t.NO_PACKET_TYPE, subType := packetSubType_t.NO_SUBTYPE }
    { g with currentMoveNum := 1 } acks i tr
  refine ⟨evs, htr, hw.1, ?_, hw.2, rfl⟩
  apply List.countP_mono_left
  intro e _ he
  cases e with
  | send d a =>
    cases a with
    | true => simpa [Event.isOfferAcked, Event.isOffer] using he
    | false => simp [Event.isOfferAcked] at he
  | _ => simp [Event.isOfferAcked] at he

/-- Counterexample to C23 as stated: neither offer is acknowledged; two offers are sent and no
timed wait is made. -/
theorem waits_counterexample :
    (baseGame.offeringGame demoHandlers demoLayout
      (demoSession gameState_t.OFFERING_GAME 7 [false, false] [])).Radio.trace.countP
        Event.isOffer = 2 ∧
    (baseGame.offeringGame demoHandlers demoLayout
      (demoSession gameState_t.OFFERING_GAME 7 [false, false] [])).Radio.trace.countP
        Event.isTimedWait = 0 :=
  ⟨rfl, rfl⟩

/-! ### The buffer length of `requireType` -/

/-- C24, the code at the failing input. `Move->require()` on a 12-byte Move object, when a stray
8-byte control packet comes before the Move numbered 4: the first `recv` is offered 12 bytes,
the second only 8, the number of bytes the first one passed back through `len`. The call
returns with the type of the Move but with the sequence number and the payload the object had
before, 3 and 0, not 4 and 7; and `doOpponentsTurn`, whose counter is 4, calls `fatalError`. -/
theorem requireType_buffer_shrinks :
    PACKET_OFFSET demoLayout = 8 ∧ demoLayout.sizeof_Move - PACKET_OFFSET demoLayout = 12 ∧
    (∃ (mv : baseMove Nat) (R : baseRadio Nat),
      baseMove.require demoLayout (demoMove 3) ⟨[true], strayThenMove, []⟩ = some (mv, R) ∧
      R.trace =
        [Event.available true,
         Event.recv 12 (some (demoControl packetType_t.OFFERING_GAME_PACKET
           packetSubType_t.NO_SUBTYPE)),
         Event.available true,
         Event.recv 8 (some (demoMoveDatagram 4 7))] ∧
      mv.type = packetType_t.MOVE_PACKET ∧ mv.moveNum = 3 ∧ mv.payload = 0) ∧
    (∃ t : Session Nat Nat,
      baseGame.doOpponentsTurn demoHandlers demoLayout midGameSession = some t ∧
      t.Radio.trace.filter Event.isFatal =
        [Event.fatalError "Opponents move number mismatch error."] ∧
      t.Radio.trace.countP Event.isGenerateResults = 0) :=
  ⟨rfl, rfl, ⟨_, _, rfl, rfl, rfl, rfl, rfl⟩, ⟨_, rfl, rfl, rfl⟩⟩

/-! ### The end of a game and `initialize` -/

/-- C27, the code at the failing input. From `GAME_OVER`, with a game whose `processGameOver`
does not itself call `initialize` (as that of the demo game), two steps of the main loop: the
first calls `processGameOver` and sets `OFFERING_GAME`, the second sends the offers of the next
game; `initialize` is not called in between, nor at all. -/
theorem gameOver_skips_initialise :
    ∃ t : Session Nat Nat,
      baseGame.mainLoop demoHandlers demoLayout 2
        (demoSession gameState_t.GAME_OVER 9 [true, true] []) = some t ∧
      t.Radio.trace =
        [Event.processGameOver,
         Event.send (demoControl packetType_t.OFFERING_GAME_PACKET packetSubType_t.NO_SUBTYPE)
           true,
         Event.recvTimeout 8 1000 none,
         Event.send (demoControl packetType_t.OFFERING_GAME_PACKET packetSubType_t.NO_SUBTYPE)
           true,
         Event.recvTimeout 8 1000 none] ∧
      t.Radio.trace.countP Event.isInitialise = 0 ∧
      t.Radio.trace.countP Event.isOffer = 2 ∧
      ∀ (H : Handlers Nat Nat) (s : Session Nat Nat),
        (baseGame.gameOver H s).Radio.trace = s.Radio.trace ++ [Event.processGameOver] :=
  ⟨_, rfl, rfl, rfl, rfl, fun _ _ => rfl⟩

/-! ### Tic-tac-toe: the last square -/

/-- C28, the code at the failing input. Player O holds `lastSquareBoard` and receives the ninth
move, X on square 6. After `generateResults` has put the X on the board, X occupies the
squares 2, 4 and 6, the ascending diagonal, and no square is empty: `checkForWin` counts the
empty squares first and returns `TIE`, and `generateResults` answers `TIE_RESULTS`, not
`WIN_RESULTS`. With an empty square left on the board the same diagonal is found. -/
theorem checkForWin_full_board_line :
    (TTT_Results.generateResults lastSquareBoard lastSquareMove (demoResults 8)).1.board =
      [squares_t.SQUARE_X, squares_t.SQUARE_O, squares_t.SQUARE_X,
       squares_t.SQUARE_O, squares_t.SQUARE_X, squares_t.SQUARE_O,
       squares_t.SQUARE_X, squares_t.SQUARE_X, squares_t.SQUARE_O] ∧
    (TTT_Results.generateResults lastSquareBoard lastSquareMove
      (demoResults 8)).1.opponentsSymbol = squares_t.SQUARE_X ∧
    checkForWin (TTT_Results.generateResults lastSquareBoard lastSquareMove
      (demoResults 8)).1 = win_t.TIE ∧
    (TTT_Results.generateResults lastSquareBoard lastSquareMove (demoResults 8)).2.1.subType =
      packetSubType_t.TIE_RESULTS ∧
    (TTT_Results.generateResults lastSquareBoard lastSquareMove (demoResults 8)).2.1.subType ≠
      packetSubType_t.WIN_RESULTS ∧
    checkForWin
      { lastSquareBoard with
          board := [squares_t.SQUARE_X, squares_t.SQUARE_O, squares_t.SQUARE_X,
                    squares_t.SQUARE_O, squares_t.SQUARE_X, squares_t.SQUARE_EMPTY,
                    squares_t.SQUARE_X, squares_t.SQUARE_EMPTY, squares_t.SQUARE_O] } =
      win_t.ASCENDING_DIAGONAL :=
  ⟨rfl, rfl, rfl, rfl, by decide, rfl⟩

/-! ### Battleship: the bottom edge -/

/-- C29, the code at the failing input. The Carrier, 5 squares long, is tested vertical at index
60 on an empty sea: its last square has index 100, beyond the bottom of the board, the test
`60 + 10*(5-1) > 100` fails, no other ship is compared with ship 0, and `testLoc(0)` returns
false; `placeShip(0)` then writes the squares 60, 70, 80, 90 and 100 of `sea[100]`. One square
to the right, at index 61, the same test returns true. -/
theorem testLoc_misses_bottom_edge :
    (emptySea carrierAtSixty).ship 0 =
      { index := 60, hits := 0, vertical := true, sunk := false, length := 5 } ∧
    testLoc (emptySea carrierAtSixty) 0 = false ∧
    (List.range ((emptySea carrierAtSixty).ship 0).length).map
      ((emptySea carrierAtSixty).ship 0).square = [60, 70, 80, 90, 100] ∧
    (emptySea carrierAtSixty).sea.length = 100 ∧
    testLoc (emptySea
      [{ index := 61, hits := 0, vertical := true, sunk := false, length := 5 }]) 0 = true :=
  ⟨rfl, rfl, rfl, rfl, rfl⟩

/-! ### The Results methods of the bundled games -/

/-- A `doOpponentsTurn` on a Move the engine accepts: it returns without `fatalError`, sends one
datagram, the Results object `generateResults` made, and the flag decides the state. -/
theorem doOpponentsTurn_accepts {G W : Type} (H : Handlers G W) (L : Layout)
    (s : Session G W) (mv : baseMove W) (rest : List (rxEvent W)) (evs : List (Event W))
    (hrecv : basePacket.requireTypeLoop (baseMoveClass W) L packetType_t.MOVE_PACKET
      s.Radio.inbox (packetLen L L.sizeof_Move) s.game.Move = some (mv, rest, evs))
    (hnum : mv.moveNum = 0 ∨ mv.moveNum = s.game.currentMoveNum) :
    ∃ (t : Session G W) (a : Bool), baseGame.doOpponentsTurn H L s = some t ∧
      sentPackets (s.traceSince t) =
        [((baseResultsClass W).image L
          (H.generateResults s.game.derived mv s.game.Results).2.1, a)] ∧
      (s.traceSince t).countP Event.isFatal = 0 ∧
      t.game.gameState =
        if (H.generateResults s.game.derived mv s.game.Results).2.2 then gameState_t.GAME_OVER
        else gameState_t.MY_TURN := by
  obtain ⟨-, hrx⟩ := requireTypeLoop_exit _ L _ _ _ _ _ _ _ hrecv
  have hrecv2 : basePacket.requireTypeLoop (baseMoveClass W) L packetType_t.MOVE_PACKET
      s.Radio.inbox (packetLen L ((baseMoveClass W).my_size L)) s.game.Move
      = some (mv, rest, evs) := hrecv
  have hok : ¬ (mv.moveNum ≠ (if mv.moveNum = 0 then 0 else s.game.currentMoveNum) ∧
      mv.moveNum > 0) := by
    rcases hnum with h | h
    · simp [h]
    · intro hc
      have hne : ¬ mv.moveNum = 0 := Nat.pos_iff_ne_zero.mp hc.2
      rw [if_neg hne] at hc
      exact hc.1 h
  generalize hdo : baseGame.doOpponentsTurn H L s = r
  cases hacks : s.Radio.acks with
  | nil =>
    simp only [baseGame.doOpponentsTurn, baseMove.require, basePacket.requireType, hrecv2,
      hok, if_false, basePacket.send, baseRadio.send, baseRadio.log, hacks] at hdo
    subst hdo
    refine ⟨_, false, rfl, ?_, ?_, rfl⟩
    · simp [Session.traceSince, sentPackets_append, sentPackets, sentPackets_of_isRx evs hrx]
    · simp [Session.traceSince, Event.isFatal, countP_of_isRx _ evs isRx_not_fatal hrx]
  | cons a acks =>
    simp only [baseGame.doOpponentsTurn, baseMove.require, basePacket.requireType, hrecv2,
      hok, if_false, basePacket.send, baseRadio.send, baseRadio.log, hacks] at hdo
    subst hdo
    refine ⟨_, a, rfl, ?_, ?_, rfl⟩
    · simp [Session.traceSince, sentPackets_append, sentPackets, sentPackets_of_isRx evs hrx]
    · simp [Session.traceSince, Event.isFatal, countP_of_isRx _ evs isRx_not_fatal hrx]

/-- A `doMyTurn` whose Move is acknowledged and whose results carry the counter value: it
returns, and the flag of `processResults` decides the state. -/
theorem doMyTurn_completes {G W : Type} (H : Handlers G W) (L : Layout) (s : Session G W)
    (acks : List Bool) (res : baseResults W) (rest : List (rxEvent W)) (evs : List (Event W))
    (hack : s.Radio.acks = true :: acks)
    (hrecv : basePacket.requireTypeLoop (baseResultsClass W) L packetType_t.RESULTS_PACKET
      s.Radio.inbox (packetLen L L.sizeof_Results) s.game.Results = some (res, rest, evs))
    (hnum : res.resultsNum = s.game.currentMoveNum) :
    ∃ t : Session G W, baseGame.doMyTurn H L s = some t ∧
      t.game.gameState =
        if (H.processResults (H.decideMyMove s.game.derived
            { s.game.Move with moveNum := s.game.currentMoveNum }).1 res).2.2
        then gameState_t.GAME_OVER else gameState_t.OPPONENTS_TURN := by
  have hrecv2 : basePacket.requireTypeLoop (baseResultsClass W) L packetType_t.RESULTS_PACKET
      s.Radio.inbox (packetLen L ((baseResultsClass W).my_size L)) s.game.Results
      = some (res, rest, evs) := hrecv
  generalize hdo : baseGame.doMyTurn H L s = r
  simp only [baseGame.doMyTurn, basePacket.send, baseRadio.send, baseRadio.log, hack,
    baseResults.require, basePacket.requireType, hrecv2, hnum, ne_eq, not_true_eq_false,
    if_false] at hdo
  subst hdo
  exact ⟨_, rfl, rfl⟩

/-- C25. A Result answers the Move of the same sequence number. Take any handler set whose
`generateResults` is that of tic-tac-toe, of Battleship, or of the demonstration game. For
every session and every Move that `doOpponentsTurn` accepts (numbered 0 or with the counter
value), the step returns and sends exactly one datagram, the Results object, and the sequence
number in it, `resultsNum`, is the `moveNum` of that Move, whatever the Move's subtype and
payload. -/
theorem result_answers_move (L : Layout) :
    (∀ (H : Handlers TTT_Globals Nat) (s : Session TTT_Globals Nat) (mv : baseMove Nat)
      (rest : List (rxEvent Nat)) (evs : List (Event Nat)),
      H.generateResults = TTT_Results.generateResults →
      basePacket.requireTypeLoop (baseMoveClass Nat) L packetType_t.MOVE_PACKET
        s.Radio.inbox (packetLen L L.sizeof_Move) s.game.Move = some (mv, rest, evs) →
      (mv.moveNum = 0 ∨ mv.moveNum = s.game.currentMoveNum) →
      ∃ (t : Session TTT_Globals Nat) (d : Datagram Nat) (a : Bool) (w : Nat),
        baseGame.doOpponentsTurn H L s = some t ∧ sentPackets (s.traceSince t) = [(d, a)] ∧
        d.body = some (mv.moveNum, w)) ∧
    (∀ (H : Handlers BShip_Globals BShip_Fields) (s : Session BShip_Globals BShip_Fields)
      (mv : baseMove BShip_Fields) (rest : List (rxEvent BShip_Fields))
      (evs : List (Event BShip_Fields)),
      H.generateResults = BShip_Results.generateResults →
      basePacket.requireTypeLoop (baseMoveClass BShip_Fields) L packetType_t.MOVE_PACKET
        s.Radio.inbox (packetLen L L.sizeof_Move) s.game.Move = some (mv, rest, evs) →
      (mv.moveNum = 0 ∨ mv.moveNum = s.game.currentMoveNum) →
      ∃ (t : Session BShip_Globals BShip_Fields) (d : Datagram BShip_Fields) (a : Bool)
        (w : BShip_Fields),
        baseGame.doOpponentsTurn H L s = some t ∧ sentPackets (s.traceSince t) = [(d, a)] ∧
        d.body = some (mv.moveNum, w)) ∧
    (∀ (H : Handlers myDemo_Globals (List Int)) (s : Session myDemo_Globals (List Int))
      (mv : baseMove (List Int)) (rest : List (rxEvent (List Int)))
      (evs : List (Event (List Int))),
      H.generateResults = myDemoResults.generateResults →
      basePacket.requireTypeLoop (baseMoveClass (List Int)) L packetType_t.MOVE_PACKET
        s.Radio.inbox (packetLen L L.sizeof_Move) s.game.Move = some (mv, rest, evs) →
      (mv.moveNum = 0 ∨ mv.moveNum = s.game.currentMoveNum) →
      ∃ (t : Session myDemo_Globals (List Int)) (d : Datagram (List Int)) (a : Bool)
        (w : List Int),
        baseGame.doOpponentsTurn H L s = some t ∧ sentPackets (s.traceSince t) = [(d, a)] ∧
        d.body = some (mv.moveNum, w)) := by
  have hT : ∀ (g : TTT_Globals) (M : baseMove Nat) (r : baseResults Nat),
      (TTT_Results.generateResults g M r).2.1.resultsNum = M.moveNum := by
    intro g M r
    simp only [TTT_Results.generateResults]
    split
    · split <;> rfl
    · rfl
    · rfl
  have hB : ∀ (g : BShip_Globals) (M : baseMove BShip_Fields) (r : baseResults BShip_Fields),
      (BShip_Results.generateResults g M r).2.1.resultsNum = M.moveNum := by
    intro g M r
    simp only [BShip_Results.generateResults]
    split
    · split
      · split
        · split <;> rfl
        · split <;> rfl
      · rfl
    · rfl
    · rfl
  have hD : ∀ (g : myDemo_Globals) (M : baseMove (List Int)) (r : baseResults (List Int)),
      (myDemoResults.generateResults g M r).2.1.resultsNum = M.moveNum := by
    intro g M r
    simp only [myDemoResults.generateResults]
    split
    · split
      · rfl
      · split
        · rfl
        · split <;> rfl
    · rfl
    · rfl
    · rfl
  refine ⟨?_, ?_, ?_⟩
  · intro H s mv rest evs hH hrecv hnum
    obtain ⟨t, a, ht, hsent, -, -⟩ := doOpponentsTurn_accepts H L s mv rest evs hrecv hnum
    refine ⟨t, _, a, (H.generateResults s.game.derived mv s.game.Results).2.1.payload, ht,
      hsent, ?_⟩
    show some (_, _) = some (_, _)
    rw [hH, hT]
  · intro H s mv rest evs hH hrecv hnum
    obtain ⟨t, a, ht, hsent, -, -⟩ := doOpponentsTurn_accepts H L s mv rest evs hrecv hnum
    refine ⟨t, _, a, (H.generateResults s.game.derived mv s.game.Results).2.1.payload, ht,
      hsent, ?_⟩
    show some (_, _) = some (_, _)
    rw [hH, hB]
  · intro H s mv rest evs hH hrecv hnum
    obtain ⟨t, a, ht, hsent, -, -⟩ := doOpponentsTurn_accepts H L s mv rest evs hrecv hnum
    refine ⟨t, _, a, (H.generateResults s.game.derived mv s.game.Results).2.1.payload, ht,
      hsent, ?_⟩
    show some (_, _) = some (_, _)
    rw [hH, hD]

/-- Witness for C25: player O receives the ninth move of a tic-tac-toe game; the one datagram it
sends carries the number 9. -/
theorem result_answers_move_witness :
    ∃ (t : Session TTT_Globals Nat) (d : Datagram Nat) (a : Bool) (w : Nat),
      baseGame.doOpponentsTurn tttHandlers demoLayout tttAnswerer = some t ∧
      sentPackets (tttAnswerer.traceSince t) = [(d, a)] ∧ d.body = some (9, w) :=
  (result_answers_move demoLayout).1 tttHandlers tttAnswerer
    { type := packetType_t.MOVE_PACKET, subType := packetSubType_t.NORMAL_MOVE, moveNum := 9,
      payload := 6 }
    [] [Event.available true, Event.recv 12 (some (demoMoveDatagram 9 6))] rfl rfl (Or.inr rfl)

/-- The Results methods of tic-tac-toe agree on the end of the game. -/
theorem TTT_EndAgreed :
    EndAgreed TTT_Results.generateResults TTT_Results.processResults normalOrQuit := by
  intro g M r g2 res hh hsub
  rcases hM : M.subType <;> simp [normalOrQuit, hM] at hh
  · simp only [TTT_Results.generateResults, hM] at hsub ⊢
    rcases hw : checkForWin { g with board := g.board.set M.payload g.opponentsSymbol } <;>
      simp only [hw] at hsub ⊢ <;> simp [TTT_Results.processResults, hsub]
  · simp only [TTT_Results.generateResults, hM] at hsub ⊢
    simp [TTT_Results.processResults, hsub]

/-- The Results methods of the demonstration game agree on the end of the game. -/
theorem myDemo_EndAgreed :
    EndAgreed myDemoResults.generateResults myDemoResults.processResults normalPassOrQuit := by
  intro g M r g2 res hh hsub
  rcases hM : M.subType <;> simp [normalPassOrQuit, hM] at hh
  · simp only [myDemoResults.generateResults, hM] at hsub ⊢
    split at hsub
    · rename_i h1
      rw [if_pos h1]
      simp [myDemoResults.processResults, hsub]
    · rename_i h1
      split at hsub
      · rename_i h2
        rw [if_neg h1, if_pos h2]
        simp [myDemoResults.processResults, hsub]
      · rename_i h2
        split at hsub
        · rename_i h3
          rw [if_neg h1, if_neg h2, if_pos h3]
          simp [myDemoResults.processResults, hsub]
        · rename_i h3
          have hlt : g.randoms.headD 0 % 3 < 3 := Nat.mod_lt _ (by decide)
          rw [if_neg h1, if_neg h2, if_neg h3]
          have hc : g.randoms.headD 0 % 3 = 0 ∨ g.randoms.headD 0 % 3 = 1 ∨
              g.randoms.headD 0 % 3 = 2 := by omega
          rcases hc with hc | hc | hc
          · rw [hc] at hsub
            have hs : res.subType = packetSubType_t.NORMAL_RESULTS := hsub
            simp [myDemoResults.processResults, hs]
          · rw [hc] at hsub
            have hs : res.subType = packetSubType_t.HIT_RESULTS := hsub
            simp [myDemoResults.processResults, hs]
          · rw [hc] at hsub
            have hs : res.subType = packetSubType_t.MISS_RESULTS := hsub
            simp [myDemoResults.processResults, hs]
  · simp only [myDemoResults.generateResults, hM] at hsub ⊢
    simp [myDemoResults.processResults, hsub]
  · simp only [myDemoResults.generateResults, hM] at hsub ⊢
    simp [myDemoResults.processResults, hsub]

/-- The Results methods of Battleship agree on the end of the game. -/
theorem BShip_EndAgreed :
    EndAgreed BShip_Results.generateResults BShip_Results.processResults normalOrQuit := by
  intro g M r g2 res hh hsub
  rcases hM : M.subType <;> simp [normalOrQuit, hM] at hh
  · simp only [BShip_Results.generateResults, hM] at hsub ⊢
    split at hsub
    · rename_i h1
      rw [if_pos h1]
      split at hsub
      · rename_i h2
        rw [if_pos h2]
        simp [BShip_Results.processResults, hsub]
      · rename_i h2
        rw [if_neg h2]
        simp [BShip_Results.processResults, hsub]
    · rename_i h1
      rw [if_neg h1]
      simp [BShip_Results.processResults, hsub]
  · simp only [BShip_Results.generateResults, hM] at hsub ⊢
    simp [BShip_Results.processResults, hsub]

/-- C26. Both peers agree on the end of the game. In each bundled game, for every Move whose
subtype its `generateResults` handles (`NORMAL_MOVE` and `QUIT_MOVE`; also `PASS_MOVE` in the
demonstration game), the flag `generateResults` returns is the flag the same game's
`processResults` returns on a Results object with the subtype `generateResults` produced. And
with any two handler sets that agree in this way, a round in which the answerer accepts such a
Move and the mover gets back a Results object with the counter value and the subtype the
answerer produced ends with both in `GAME_OVER`, or with the mover in `OPPONENTS_TURN` and the
answerer in `MY_TURN`. -/
theorem end_of_game_agreed :
    EndAgreed TTT_Results.generateResults TTT_Results.processResults normalOrQuit ∧
    EndAgreed BShip_Results.generateResults BShip_Results.processResults normalOrQuit ∧
    EndAgreed myDemoResults.generateResults myDemoResults.processResults normalPassOrQuit ∧
    (∀ (G W : Type) (HA HB : Handlers G W) (L : Layout) (handled : packetSubType_t → Bool)
      (sA sB : Session G W) (acksA : List Bool)
      (mv : baseMove W) (restB : List (rxEvent W)) (evsB : List (Event W))
      (res : baseResults W) (restA : List (rxEvent W)) (evsA : List (Event W)),
      EndAgreed HB.generateResults HA.processResults handled →
      basePacket.requireTypeLoop (baseMoveClass W) L packetType_t.MOVE_PACKET
        sB.Radio.inbox (packetLen L L.sizeof_Move) sB.game.Move = some (mv, restB, evsB) →
      (mv.moveNum = 0 ∨ mv.moveNum = sB.game.currentMoveNum) →
      handled mv.subType = true →
      sA.Radio.acks = true :: acksA →
      basePacket.requireTypeLoop (baseResultsClass W) L packetType_t.RESULTS_PACKET
        sA.Radio.inbox (packetLen L L.sizeof_Results) sA.game.Results
        = some (res, restA, evsA) →
      res.resultsNum = sA.game.currentMoveNum →
      res.subType = (HB.generateResults sB.game.derived mv sB.game.Results).2.1.subType →
      ∃ tA tB : Session G W,
        baseGame.doMyTurn HA L sA = some tA ∧ baseGame.doOpponentsTurn HB L sB = some tB ∧
        ((tA.game.gameState = gameState_t.GAME_OVER ∧
            tB.game.gameState = gameState_t.GAME_OVER) ∨
          (tA.game.gameState = gameState_t.OPPONENTS_TURN ∧
            tB.game.gameState = gameState_t.MY_TURN))) := by
  refine ⟨TTT_EndAgreed, BShip_EndAgreed, myDemo_EndAgreed, ?_⟩
  intro G W HA HB L handled sA sB acksA mv restB evsB res restA evsA hag hrecvB hnumB hh hackA
    hrecvA hnumA hsub
  obtain ⟨tB, a, htB, -, -, hgB⟩ := doOpponentsTurn_accepts HB L sB mv restB evsB hrecvB hnumB
  obtain ⟨tA, htA, hgA⟩ := doMyTurn_completes HA L sA acksA res restA evsA hackA hrecvA hnumA
  have hflag := hag sB.game.derived mv sB.game.Results
    (HA.decideMyMove sA.game.derived { sA.game.Move with moveNum := sA.game.currentMoveNum }).1
    res hh hsub
  refine ⟨tA, tB, htA, htB, ?_⟩
  rw [hgA, hgB, hflag]
  cases (HB.generateResults sB.game.derived mv sB.game.Results).2.2
  · exact Or.inr ⟨rfl, rfl⟩
  · exact Or.inl ⟨rfl, rfl⟩

/-- Witness for C26: the ninth move of a tic-tac-toe game fills the board; the answerer
produces `TIE_RESULTS`, the mover receives it, and both devices end the game. -/
theorem end_of_game_agreed_witness :
    ∃ tA tB : Session TTT_Globals Nat,
      baseGame.doMyTurn tttHandlers demoLayout (tttMover packetSubType_t.TIE_RESULTS)
        = some tA ∧
      baseGame.doOpponentsTurn tttHandlers demoLayout tttAnswerer = some tB ∧
      ((tA.game.gameState = gameState_t.GAME_OVER ∧
          tB.game.gameState = gameState_t.GAME_OVER) ∨
        (tA.game.gameState = gameState_t.OPPONENTS_TURN ∧
          tB.game.gameState = gameState_t.MY_TURN)) :=
  end_of_game_agreed.2.2.2 TTT_Globals Nat tttHandlers tttHandlers demoLayout normalOrQuit
    (tttMover packetSubType_t.TIE_RESULTS) tttAnswerer []
    { type := packetType_t.MOVE_PACKET, subType := packetSubType_t.NORMAL_MOVE, moveNum := 9,
      payload := 6 }
    [] [Event.available true, Event.recv 12 (some (demoMoveDatagram 9 6))]
    { type := packetType_t.RESULTS_PACKET, subType := packetSubType_t.TIE_RESULTS,
      resultsNum := 9, payload := 0 }
    [] [Event.available true,
        Event.recv 12 (some (demoResultsDatagram 9 packetSubType_t.TIE_RESULTS))]
    end_of_game_agreed.1 rfl (Or.inr rfl) rfl rfl rfl rfl rfl

/-! ### Battleship: hits, sunk ships and the end of the game -/

/-- A grid value from `GRID_SHIP_0` on is the value of one of the five ships. -/
theorem grid_ship_cases (sq : grid_t) (h : grid_t.GRID_SHIP_0.toNat ≤ sq.toNat) :
    ∃ i : Nat, i < 5 ∧ sq = grid_t.cast (grid_t.GRID_SHIP_0.toNat + i) ∧
      sq.toNat - grid_t.GRID_SHIP_0.toNat = i := by
  cases sq <;> simp [grid_t.toNat] at h
  · exact ⟨0, by decide, rfl, rfl⟩
  · exact ⟨1, by decide, rfl, rfl⟩
  · exact ⟨2, by decide, rfl, rfl⟩
  · exact ⟨3, by decide, rfl, rfl⟩
  · exact ⟨4, by decide, rfl, rfl⟩

/-- The five ships have five different grid values. -/
theorem grid_cast_inj (i j : Nat) (hi : i < 5) (hj : j < 5)
    (h : grid_t.cast (grid_t.GRID_SHIP_0.toNat + i) = grid_t.cast (grid_t.GRID_SHIP_0.toNat + j)) :
    i = j := by
  interval_cases i <;> interval_cases j <;> first | rfl | (exact absurd h (by decide))

/-- The integer value of the grid value of ship `j`. -/
theorem grid_cast_toNat (j : Nat) (hj : j < 5) :
    (grid_t.cast (grid_t.GRID_SHIP_0.toNat + j)).toNat = grid_t.GRID_SHIP_0.toNat + j := by
  interval_cases j <;> rfl

/-- The read `Ships[j]` after the store `Ships[i] = s`. -/
theorem ship_set (g : BShip_Globals) (i j : Nat) (s : ship_t) (hi : i < g.Ships.length)
    (sea : List grid_t) (eh : Nat) :
    ({ g with sea := sea, Ships := g.Ships.set i s, EnemyHits := eh } : BShip_Globals).ship j =
      if i = j then s else g.ship j := by
  simp only [BShip_Globals.ship, List.getD_eq_getElem?_getD, List.getElem?_set]
  split
  · rename_i h
    subst h
    simp [hi]
  · rfl

/-- Marking a square of ship `i` as hit takes one square from ship `i` and none from the
others. -/
theorem afloat_set_hit (sea : List grid_t) (shot i j : Nat) (hs : shot < sea.length)
    (hi : i < 5) (hj : j < 5)
    (hsq : sea.getD shot grid_t.GRID_EMPTY = grid_t.cast (grid_t.GRID_SHIP_0.toNat + i)) :
    (sea.set shot grid_t.GRID_HIT).count (grid_t.cast (grid_t.GRID_SHIP_0.toNat + j)) =
      sea.count (grid_t.cast (grid_t.GRID_SHIP_0.toNat + j)) - (if i = j then 1 else 0) := by
  have hget : sea[shot] = grid_t.cast (grid_t.GRID_SHIP_0.toNat + i) := by
    simpa [List.getD_eq_getElem?_getD, List.getElem?_eq_getElem hs] using hsq
  rw [List.count_set _ _ _ _ hs, hget]
  have h1 : (grid_t.GRID_HIT == grid_t.cast (grid_t.GRID_SHIP_0.toNat + j)) = false := by
    interval_cases j <;> rfl
  rw [h1]
  by_cases hij : i = j
  · subst hij; simp
  · have h2 : (grid_t.cast (grid_t.GRID_SHIP_0.toNat + i) ==
        grid_t.cast (grid_t.GRID_SHIP_0.toNat + j)) = false := by
      rw [beq_eq_false_iff_ne]
      exact fun h => hij (grid_cast_inj i j hi hj h)
    simp [h2, hij]

/-- Marking a square without a ship as missed takes no square from any ship. -/
theorem afloat_set_miss (sea : List grid_t) (shot j : Nat) (hs : shot < sea.length)
    (hj : j < 5)
    (hsq : ¬ grid_t.GRID_SHIP_0.toNat ≤ (sea.getD shot grid_t.GRID_EMPTY).toNat) :
    (sea.set shot grid_t.GRID_MISS).count (grid_t.cast (grid_t.GRID_SHIP_0.toNat + j)) =
      sea.count (grid_t.cast (grid_t.GRID_SHIP_0.toNat + j)) := by
  have hget : sea.getD shot grid_t.GRID_EMPTY = sea[shot] := by
    simp [List.getD_eq_getElem?_getD, List.getElem?_eq_getElem hs]
  rw [hget] at hsq
  rw [List.count_set _ _ _ _ hs]
  have h1 : (grid_t.GRID_MISS == grid_t.cast (grid_t.GRID_SHIP_0.toNat + j)) = false := by
    interval_cases j <;> rfl
  have h2 : (sea[shot] == grid_t.cast (grid_t.GRID_SHIP_0.toNat + j)) = false := by
    rw [beq_eq_false_iff_ne]
    intro h
    rw [h, grid_cast_toNat j hj] at hsq
    omega
  simp [h1, h2]

/-- A value read from the sea occurs on the sea. -/
theorem afloat_pos (sea : List grid_t) (shot : Nat) (hs : shot < sea.length) (x : grid_t)
    (hsq : sea.getD shot grid_t.GRID_EMPTY = x) : 0 < sea.count x := by
  have hget : sea[shot] = x := by
    simpa [List.getD_eq_getElem?_getD, List.getElem?_eq_getElem hs] using hsq
  rw [List.count_pos_iff]
  rw [← hget]
  exact List.getElem_mem _

/-- The lengths of the five ships, read one by one. -/
theorem Fleet_lengths (g : BShip_Globals) (h : g.Ships.map ship_t.length = [5, 4, 3, 3, 2]) :
    g.Ships.length = 5 ∧ (g.ship 0).length = 5 ∧ (g.ship 1).length = 4 ∧
    (g.ship 2).length = 3 ∧ (g.ship 3).length = 3 ∧ (g.ship 4).length = 2 := by
  have hl : g.Ships.length = 5 := by
    have := congrArg List.length h
    simpa using this
  rcases hS : g.Ships with _ | ⟨a, _ | ⟨b, _ | ⟨c, _ | ⟨d, _ | ⟨e, _ | ⟨f, l⟩⟩⟩⟩⟩⟩ <;>
    simp [hS] at hl
  rw [hS] at h
  simp only [List.map_cons, List.map_nil, List.cons.injEq, and_true] at h
  simp [BShip_Globals.ship, hS, h]

/-- The globals after a hit on ship `i`. -/
theorem generateResults_hit (g : BShip_Globals) (M : baseMove BShip_Fields)
    (r : baseResults BShip_Fields) (hM : M.subType = packetSubType_t.NORMAL_MOVE) (i : Nat)
    (hi : i < 5)
    (hsq : g.sea.getD M.payload.shot grid_t.GRID_EMPTY =
      grid_t.cast (grid_t.GRID_SHIP_0.toNat + i)) :
    (BShip_Results.generateResults g M r).1 =
      { g with
          sea := g.sea.set M.payload.shot grid_t.GRID_HIT
          Ships := g.Ships.set i
            (if (g.ship i).length = ((g.ship i).hits + 1) % 256 then
              { g.ship i with hits := ((g.ship i).hits + 1) % 256, sunk := true }
             else { g.ship i with hits := ((g.ship i).hits + 1) % 256 })
          EnemyHits := (g.EnemyHits + 1) % 256 } ∧
    (BShip_Results.generateResults g M r).2.1.subType =
      (if (g.EnemyHits + 1) % 256 = 17 then packetSubType_t.WIN_RESULTS
       else packetSubType_t.HIT_RESULTS) ∧
    (BShip_Results.generateResults g M r).2.2 = decide ((g.EnemyHits + 1) % 256 = 17) := by
  have hge : grid_t.GRID_SHIP_0.toNat ≤ (g.sea.getD M.payload.shot grid_t.GRID_EMPTY).toNat := by
    rw [hsq, grid_cast_toNat i hi]; omega
  have hidx : (g.sea.getD M.payload.shot grid_t.GRID_EMPTY).toNat - grid_t.GRID_SHIP_0.toNat
      = i := by
    rw [hsq, grid_cast_toNat i hi]; omega
  simp only [BShip_Results.generateResults, hM]
  rw [if_pos hge, hidx]
  by_cases hw : (g.EnemyHits + 1) % 256 = 17
  · rw [if_pos hw, if_pos hw]
    refine ⟨?_, rfl, by simp [hw]⟩
    by_cases hk : (g.ship i).length = ((g.ship i).hits + 1) % 256 <;> simp [hk]
  · rw [if_neg hw, if_neg hw]
    refine ⟨?_, rfl, by simp [hw]⟩
    by_cases hk : (g.ship i).length = ((g.ship i).hits + 1) % 256 <;> simp [hk]

/-- The globals after a miss. -/
theorem generateResults_miss (g : BShip_Globals) (M : baseMove BShip_Fields)
    (r : baseResults BShip_Fields) (hM : M.subType = packetSubType_t.NORMAL_MOVE)
    (hsq : ¬ grid_t.GRID_SHIP_0.toNat ≤
      (g.sea.getD M.payload.shot grid_t.GRID_EMPTY).toNat) :
    (BShip_Results.generateResults g M r).1 =
      { g with sea := g.sea.set M.payload.shot grid_t.GRID_MISS } ∧
    (BShip_Results.generateResults g M r).2.1.subType = packetSubType_t.MISS_RESULTS ∧
    (BShip_Results.generateResults g M r).2.2 = false := by
  simp only [BShip_Results.generateResults, hM]
  rw [if_neg hsq]
  exact ⟨rfl, rfl, rfl⟩

/-- A board in play has 17 ship squares in all, hit or afloat, and no ship has more hits than
squares. -/
theorem Fleet_bounds (g : BShip_Globals) (hF : Fleet g) :
    g.EnemyHits + g.afloatAll = 17 ∧ g.EnemyHits ≤ 17 ∧
    ∀ i : Nat, i < 5 → (g.ship i).hits ≤ (g.ship i).length := by
  obtain ⟨-, hmap, hsum, -, heh⟩ := hF
  obtain ⟨-, l0, l1, l2, l3, l4⟩ := Fleet_lengths g hmap
  have h0 := hsum 0 (by decide)
  have h1 := hsum 1 (by decide)
  have h2 := hsum 2 (by decide)
  have h3 := hsum 3 (by decide)
  have h4 := hsum 4 (by decide)
  refine ⟨?_, ?_, fun i hi => ?_⟩
  · rw [heh]; simp only [BShip_Globals.hitsAll, BShip_Globals.afloatAll]; omega
  · rw [heh]; simp only [BShip_Globals.hitsAll]; omega
  · have := hsum i hi; omega

/-- A hit keeps the board in play. -/
theorem Fleet_hit (g : BShip_Globals) (hF : Fleet g) (shot i : Nat) (hs : shot < 100)
    (hi : i < 5)
    (hsq : g.sea.getD shot grid_t.GRID_EMPTY = grid_t.cast (grid_t.GRID_SHIP_0.toNat + i)) :
    Fleet
      { g with
          sea := g.sea.set shot grid_t.GRID_HIT
          Ships := g.Ships.set i
            (if (g.ship i).length = ((g.ship i).hits + 1) % 256 then
              { g.ship i with hits := ((g.ship i).hits + 1) % 256, sunk := true }
             else { g.ship i with hits := ((g.ship i).hits + 1) % 256 })
          EnemyHits := (g.EnemyHits + 1) % 256 } ∧
    (g.EnemyHits + 1) % 256 = g.EnemyHits + 1 := by
  obtain ⟨-, hle17, -⟩ := Fleet_bounds g hF
  obtain ⟨hlen, hmap, hsum, hsunk, heh⟩ := hF
  obtain ⟨hL, l0, l1, l2, l3, l4⟩ := Fleet_lengths g hmap
  have hs2 : shot < g.sea.length := by rw [hlen]; exact hs
  have hpos : 0 < g.afloat i := afloat_pos g.sea shot hs2 _ hsq
  have hsi := hsum i hi
  have hli : (g.ship i).length ≤ 5 := by interval_cases i <;> omega
  have hmod : ((g.ship i).hits + 1) % 256 = (g.ship i).hits + 1 := by
    apply Nat.mod_eq_of_lt; omega
  have hiL : i < g.Ships.length := by rw [hL]; exact hi
  have hship : ∀ j : Nat,
      ({ g with
          sea := g.sea.set shot grid_t.GRID_HIT
          Ships := g.Ships.set i
            (if (g.ship i).length = ((g.ship i).hits + 1) % 256 then
              { g.ship i with hits := ((g.ship i).hits + 1) % 256, sunk := true }
             else { g.ship i with hits := ((g.ship i).hits + 1) % 256 })
          EnemyHits := (g.EnemyHits + 1) % 256 } : BShip_Globals).ship j =
      if i = j then
        (if (g.ship i).length = ((g.ship i).hits + 1) % 256 then
          { g.ship i with hits := ((g.ship i).hits + 1) % 256, sunk := true }
         else { g.ship i with hits := ((g.ship i).hits + 1) % 256 })
      else g.ship j := fun j => ship_set g i j _ hiL _ _
  have hhits : ∀ j : Nat,
      (({ g with
          sea := g.sea.set shot grid_t.GRID_HIT
          Ships := g.Ships.set i
            (if (g.ship i).length = ((g.ship i).hits + 1) % 256 then
              { g.ship i with hits := ((g.ship i).hits + 1) % 256, sunk := true }
             else { g.ship i with hits := ((g.ship i).hits + 1) % 256 })
          EnemyHits := (g.EnemyHits + 1) % 256 } : BShip_Globals).ship j).hits =
      (g.ship j).hits + (if i = j then 1 else 0) := by
    intro j
    rw [hship j]
    by_cases hij : i = j
    · subst hij
      rw [if_pos rfl, if_pos rfl]
      split <;> exact hmod
    · rw [if_neg hij, if_neg hij]; rfl
  have hlens : ∀ j : Nat,
      (({ g with
          sea := g.sea.set shot grid_t.GRID_HIT
          Ships := g.Ships.set i
            (if (g.ship i).length = ((g.ship i).hits + 1) % 256 then
              { g.ship i with hits := ((g.ship i).hits + 1) % 256, sunk := true }
             else { g.ship i with hits := ((g.ship i).hits + 1) % 256 })
          EnemyHits := (g.EnemyHits + 1) % 256 } : BShip_Globals).ship j).length =
      (g.ship j).length := by
    intro j
    rw [hship j]
    by_cases hij : i = j
    · subst hij
      rw [if_pos rfl]
      split <;> rfl
    · rw [if_neg hij]
  have hmodE : (g.EnemyHits + 1) % 256 = g.EnemyHits + 1 := by
    apply Nat.mod_eq_of_lt; omega
  refine ⟨⟨?_, ?_, ?_, ?_, ?_⟩, hmodE⟩
  · simp [hlen]
  · show (g.Ships.set i _).map ship_t.length = _
    rw [List.map_set]
    have : (if (g.ship i).length = ((g.ship i).hits + 1) % 256 then
              ({ g.ship i with hits := ((g.ship i).hits + 1) % 256, sunk := true } : ship_t)
             else { g.ship i with hits := ((g.ship i).hits + 1) % 256 }).length =
        (g.ship i).length := by split <;> rfl
    rw [this, hmap]
    interval_cases i <;> simp [l0, l1, l2, l3, l4]
  · intro j hj
    rw [hhits j, hlens j]
    show _ + (g.sea.set shot grid_t.GRID_HIT).count _ = _
    rw [afloat_set_hit g.sea shot i j hs2 hi hj hsq]
    have hsj := hsum j hj
    simp only [BShip_Globals.afloat] at hsj hpos
    by_cases hij : i = j
    · subst hij; simp only [if_true]; omega
    · simp only [if_neg hij]; omega
  · intro j hj
    rw [hhits j, hlens j, hship j]
    by_cases hij : i = j
    · subst hij
      rw [if_pos rfl, if_pos rfl]
      by_cases hk : (g.ship i).length = ((g.ship i).hits + 1) % 256
      · rw [if_pos hk]
        rw [hmod] at hk
        simp [hk]
      · rw [if_neg hk]
        rw [hmod] at hk
        have hns : ¬ (g.ship i).sunk = true := by
          rw [hsunk i hi]; omega
        constructor
        · intro h; exact absurd h hns
        · intro h; omega
    · rw [if_neg hij, if_neg hij, Nat.add_zero]
      exact hsunk j hj
  · show (g.EnemyHits + 1) % 256 = _
    simp only [BShip_Globals.hitsAll, hhits]
    rw [hmodE, heh]
    simp only [BShip_Globals.hitsAll]
    interval_cases i <;> simp <;> omega

/-- A miss keeps the board in play. -/
theorem Fleet_miss (g : BShip_Globals) (hF : Fleet g) (shot : Nat) (hs : shot < 100)
    (hsq : ¬ grid_t.GRID_SHIP_0.toNat ≤ (g.sea.getD shot grid_t.GRID_EMPTY).toNat) :
    Fleet { g with sea := g.sea.set shot grid_t.GRID_MISS } := by
  obtain ⟨hlen, hmap, hsum, hsunk, heh⟩ := hF
  have hs2 : shot < g.sea.length := by rw [hlen]; exact hs
  refine ⟨by simp [hlen], hmap, fun j hj => ?_, hsunk, heh⟩
  show _ + (g.sea.set shot grid_t.GRID_MISS).count _ = _
  rw [afloat_set_miss g.sea shot j hs2 hj hsq]
  exact hsum j hj

/-- On a Move that is not a `NORMAL_MOVE` the globals stay as they are. -/
theorem generateResults_other (g : BShip_Globals) (M : baseMove BShip_Fields)
    (r : baseResults BShip_Fields) (hM : M.subType ≠ packetSubType_t.NORMAL_MOVE) :
    (BShip_Results.generateResults g M r).1 = g := by
  rcases hS : M.subType <;> first
    | exact absurd hS hM
    | simp only [BShip_Results.generateResults, hS]

/-- Every call of `generateResults` with a shot on the board keeps the board in play. -/
theorem generateResults_Fleet (g : BShip_Globals) (M : baseMove BShip_Fields)
    (r : baseResults BShip_Fields) (hF : Fleet g) (hs : M.payload.shot < 100) :
    Fleet (BShip_Results.generateResults g M r).1 := by
  by_cases hM : M.subType = packetSubType_t.NORMAL_MOVE
  · by_cases hsq : grid_t.GRID_SHIP_0.toNat ≤
        (g.sea.getD M.payload.shot grid_t.GRID_EMPTY).toNat
    · obtain ⟨i, hi, hc, -⟩ := grid_ship_cases _ hsq
      rw [(generateResults_hit g M r hM i hi hc).1]
      exact (Fleet_hit g hF M.payload.shot i hs hi hc).1
    · rw [(generateResults_miss g M r hM hsq).1]
      exact Fleet_miss g hF M.payload.shot hs hsq
  · rw [generateResults_other g M r hM]
    exact hF

/-- A fresh board is a board in play. -/
theorem FreshFleet_Fleet (g : BShip_Globals) (h : FreshFleet g) : Fleet g := by
  obtain ⟨hlen, hmap, hall, heh⟩ := h
  refine ⟨hlen, hmap, fun i hi => ?_, fun i hi => ?_, ?_⟩
  · obtain ⟨h0, -, ha⟩ := hall i hi
    rw [h0, ha, Nat.zero_add]
  · obtain ⟨h0, hns, -⟩ := hall i hi
    obtain ⟨-, l0, l1, l2, l3, l4⟩ := Fleet_lengths g hmap
    rw [hns, h0]
    constructor
    · intro hc; cases hc
    · intro hc; interval_cases i <;> omega
  · rw [heh]
    simp only [BShip_Globals.hitsAll, (hall 0 (by decide)).1, (hall 1 (by decide)).1,
      (hall 2 (by decide)).1, (hall 3 (by decide)).1, (hall 4 (by decide)).1]

/-- Any number of calls with shots on the board keep the board in play. -/
theorem BShip_play_Fleet :
    ∀ (moves : List (baseMove BShip_Fields)) (g : BShip_Globals)
      (r : baseResults BShip_Fields), Fleet g →
      (∀ m ∈ moves, m.payload.shot < 100) → Fleet (BShip_play g r moves).1 := by
  intro moves
  induction moves with
  | nil => intro g r hF _; exact hF
  | cons M moves ih =>
    intro g r hF hin
    exact ih _ _ (generateResults_Fleet g M r hF (hin M (List.mem_cons_self _ _)))
      fun m hm => hin m (List.mem_cons_of_mem _ hm)

/-- On a board in play with 17 hits every ship is marked sunk. -/
theorem Fleet_all_sunk (g : BShip_Globals) (hF : Fleet g) (h17 : g.EnemyHits = 17) :
    ∀ i : Nat, i < 5 → (g.ship i).sunk = true := by
  obtain ⟨hsum17, -, hle⟩ := Fleet_bounds g hF
  obtain ⟨-, hmap, hsum, hsunk, heh⟩ := hF
  intro i hi
  rw [hsunk i hi]
  have h0 := hsum 0 (by decide)
  have h1 := hsum 1 (by decide)
  have h2 := hsum 2 (by decide)
  have h3 := hsum 3 (by decide)
  have h4 := hsum 4 (by decide)
  simp only [BShip_Globals.afloatAll] at hsum17
  interval_cases i <;> omega

/-- The answer of `generateResults` to a Move of the game on a board in play. -/
theorem generateResults_win (g : BShip_Globals) (M : baseMove BShip_Fields)
    (r : baseResults BShip_Fields) (hF : Fleet g) (hs : M.payload.shot < 100)
    (hM : normalOrQuit M.subType = true) :
    (((BShip_Results.generateResults g M r).2.1.subType = packetSubType_t.WIN_RESULTS ∧
        (BShip_Results.generateResults g M r).2.2 = true) ↔
      (M.subType = packetSubType_t.NORMAL_MOVE ∧ g.isShipSquare M.payload.shot = true ∧
        g.afloatAll = 1)) ∧
    ((BShip_Results.generateResults g M r).2.1.subType = packetSubType_t.WIN_RESULTS ↔
      (M.subType = packetSubType_t.NORMAL_MOVE ∧ g.isShipSquare M.payload.shot = true ∧
        (BShip_Results.generateResults g M r).1.EnemyHits = 17)) := by
  obtain ⟨h17, -, -⟩ := Fleet_bounds g hF
  by_cases hN : M.subType = packetSubType_t.NORMAL_MOVE
  · by_cases hsq : grid_t.GRID_SHIP_0.toNat ≤
        (g.sea.getD M.payload.shot grid_t.GRID_EMPTY).toNat
    · obtain ⟨i, hi, hc, -⟩ := grid_ship_cases _ hsq
      obtain ⟨e1, e2, e3⟩ := generateResults_hit g M r hN i hi hc
      have hmod := (Fleet_hit g hF M.payload.shot i hs hi hc).2
      have hship : g.isShipSquare M.payload.shot = true := decide_eq_true hsq
      rw [e1, e2, e3, hmod]
      by_cases hw : g.EnemyHits + 1 = 17
      · simp [hw, hN, hship]; omega
      · simp [hw, hN, hship]; omega
    · obtain ⟨e1, e2, e3⟩ := generateResults_miss g M r hN hsq
      have hship : g.isShipSquare M.payload.shot = false := decide_eq_false hsq
      rw [e2, e3]
      simp [hship]
  · have hQ : M.subType = packetSubType_t.QUIT_MOVE := by
      rcases hS : M.subType <;> simp [normalOrQuit, hS] at hM hN ⊢
    have e2 : (BShip_Results.generateResults g M r).2.1.subType =
        packetSubType_t.LOSE_RESULTS := by
      simp only [BShip_Results.generateResults, hQ]
    rw [e2]
    simp [hN]

/-- A store does not change the size of the array. -/
theorem storeAt_length {α : Type} (a : List α) (i : Int) (v : α) :
    (storeAt a i v).length = a.length := by
  unfold storeAt
  split <;> simp

/-- Writes of values at distinct squares of the board that were empty: each value is counted
as often as it was written. -/
theorem count_writes (v : grid_t) (hv : v ≠ grid_t.GRID_EMPTY) :
    ∀ (ws : List (Int × grid_t)) (sea : List grid_t), (ws.map Prod.fst).Nodup →
      (∀ w ∈ ws, 0 ≤ w.1 ∧ w.1.toNat < sea.length ∧
        sea.getD w.1.toNat grid_t.GRID_EMPTY = grid_t.GRID_EMPTY) →
      (ws.foldl (fun s w => storeAt s w.1 w.2) sea).count v =
        sea.count v + ws.countP (fun w => decide (w.2 = v)) ∧
      (ws.foldl (fun s w => storeAt s w.1 w.2) sea).length = sea.length := by
  intro ws
  induction ws with
  | nil => intro sea _ _; simp
  | cons w ws ih =>
    intro sea hnd hall
    rw [List.map_cons, List.nodup_cons] at hnd
    obtain ⟨hw0, hwlt, hwe⟩ := hall w (List.mem_cons_self _ _)
    have hstore : storeAt sea w.1 w.2 = sea.set w.1.toNat w.2 := by
      unfold storeAt; rw [if_pos hw0]
    have hget : sea[w.1.toNat] = grid_t.GRID_EMPTY := by
      simpa [List.getD_eq_getElem?_getD, List.getElem?_eq_getElem hwlt] using hwe
    have hrest : ∀ u ∈ ws, 0 ≤ u.1 ∧ u.1.toNat < (storeAt sea w.1 w.2).length ∧
        (storeAt sea w.1 w.2).getD u.1.toNat grid_t.GRID_EMPTY = grid_t.GRID_EMPTY := by
      intro u hu
      obtain ⟨hu0, hult, hue⟩ := hall u (List.mem_cons_of_mem _ hu)
      refine ⟨hu0, by rw [storeAt_length]; exact hult, ?_⟩
      have hne : w.1 ≠ u.1 := by
        intro h
        exact hnd.1 (h ▸ List.mem_map_of_mem Prod.fst hu)
      have hne2 : w.1.toNat ≠ u.1.toNat := by
        intro h
        apply hne
        have := congrArg (fun n : Nat => (n : Int)) h
        simp only [Int.toNat_of_nonneg hw0, Int.toNat_of_nonneg hu0] at this
        exact this
      rw [hstore, List.getD_eq_getElem?_getD, List.getElem?_set_ne hne2,
        ← List.getD_eq_getElem?_getD]
      exact hue
    obtain ⟨ih1, ih2⟩ := ih (storeAt sea w.1 w.2) hnd.2 hrest
    rw [List.foldl_cons, ih1, ih2, storeAt_length]
    refine ⟨?_, rfl⟩
    rw [hstore, List.count_set _ _ _ _ hwlt, hget, List.countP_cons]
    have h1 : (grid_t.GRID_EMPTY == v) = false := by
      rw [beq_eq_false_iff_ne]; exact fun h => hv h.symm
    rw [h1]
    by_cases hx : w.2 = v
    · simp [hx]; omega
    · have h2 : (w.2 == v) = false := by rw [beq_eq_false_iff_ne]; exact hx
      simp [h2, hx]

/-- The index expression of `initialize` is that of `placeShip`. -/
theorem square_eq (s : ship_t) (j : Nat) :
    s.index + (j : Int) * (if s.vertical then 10 else 1) = s.square j := by
  unfold ship_t.square
  cases s.vertical <;> simp

/-- The sea after `initialize`, for five ships none of which is marked sunk: the writes of the
loop on an empty sea. -/
theorem newGame_sea (a b c d e : ship_t) (g0 : BShip_Globals)
    (ha : a.sunk = false) (hb : b.sunk = false) (hc : c.sunk = false) (hd : d.sunk = false)
    (he : e.sunk = false) :
    (BShip_Game.newGame [a, b, c, d, e] g0).sea =
      (((List.range a.length).map fun j => (a.square j, grid_t.GRID_SHIP_0)) ++
        (((List.range b.length).map fun j => (b.square j, grid_t.GRID_SHIP_1)) ++
        (((List.range c.length).map fun j => (c.square j, grid_t.GRID_SHIP_2)) ++
        (((List.range d.length).map fun j => (d.square j, grid_t.GRID_SHIP_3)) ++
        ((List.range e.length).map fun j => (e.square j, grid_t.GRID_SHIP_4)))))).foldl
        (fun s w => storeAt s w.1 w.2) (List.replicate 100 grid_t.GRID_EMPTY) := by
  have h5 : List.range 5 = [0, 1, 2, 3, 4] := rfl
  simp only [BShip_Game.newGame, h5, List.foldl_cons, List.foldl_nil, BShip_Globals.ship,
    List.getD_eq_getElem?_getD, List.foldl_append, List.foldl_map, square_eq]
  simp only [List.getElem?_cons_zero, List.getElem?_cons_succ, Option.getD_some, ha, hb, hc, hd,
    he, Bool.false_eq_true, if_false]
  rfl

/-- Every read of an array filled with one value gives that value. -/
theorem replicate_getD {α : Type} (n k : Nat) (x : α) : (List.replicate n x).getD k x = x := by
  induction n generalizing k with
  | zero => rfl
  | succ n ih =>
    cases k with
    | zero => rfl
    | succ k => exact ih k

/-- The board `initialize` makes from five unhit ships placed on distinct squares of the board
is a fresh board. -/
theorem newGame_fresh (placed : List ship_t) (g0 : BShip_Globals)
    (hlen : placed.map ship_t.length = [5, 4, 3, 3, 2])
    (hnew : ∀ s ∈ placed, s.hits = 0 ∧ s.sunk = false)
    (hnd : (shipSquares placed).Nodup)
    (hin : ∀ q ∈ shipSquares placed, 0 ≤ q ∧ q < 100) :
    FreshFleet (BShip_Game.newGame placed g0) := by
  rcases placed with _ | ⟨a, _ | ⟨b, _ | ⟨c, _ | ⟨d, _ | ⟨e, _ | ⟨f, l⟩⟩⟩⟩⟩⟩ <;>
    simp only [List.map_cons, List.map_nil, List.cons.injEq, and_true, reduceCtorEq,
      and_false, false_and] at hlen
  obtain ⟨la, lb, lc, ld, le⟩ := hlen
  obtain ⟨ha0, has⟩ := hnew a (by simp)
  obtain ⟨hb0, hbs⟩ := hnew b (by simp)
  obtain ⟨hc0, hcs⟩ := hnew c (by simp)
  obtain ⟨hd0, hds⟩ := hnew d (by simp)
  obtain ⟨he0, hes⟩ := hnew e (by simp)
  have hsea := newGame_sea a b c d e g0 has hbs hcs hds hes
  have hships : (BShip_Game.newGame [a, b, c, d, e] g0).Ships = [a, b, c, d, e] := rfl
  have hfst : ((((List.range a.length).map fun j => (a.square j, grid_t.GRID_SHIP_0)) ++
        (((List.range b.length).map fun j => (b.square j, grid_t.GRID_SHIP_1)) ++
        (((List.range c.length).map fun j => (c.square j, grid_t.GRID_SHIP_2)) ++
        (((List.range d.length).map fun j => (d.square j, grid_t.GRID_SHIP_3)) ++
        ((List.range e.length).map fun j => (e.square j, grid_t.GRID_SHIP_4)))))).map
          Prod.fst) = shipSquares [a, b, c, d, e] := by
    simp [shipSquares, List.map_append, List.map_map, Function.comp_def]
  have hall : ∀ w ∈ (((List.range a.length).map fun j => (a.square j, grid_t.GRID_SHIP_0)) ++
        (((List.range b.length).map fun j => (b.square j, grid_t.GRID_SHIP_1)) ++
        (((List.range c.length).map fun j => (c.square j, grid_t.GRID_SHIP_2)) ++
        (((List.range d.length).map fun j => (d.square j, grid_t.GRID_SHIP_3)) ++
        ((List.range e.length).map fun j => (e.square j, grid_t.GRID_SHIP_4)))))),
      0 ≤ w.1 ∧ w.1.toNat < (List.replicate 100 grid_t.GRID_EMPTY).length ∧
        (List.replicate 100 grid_t.GRID_EMPTY).getD w.1.toNat grid_t.GRID_EMPTY =
          grid_t.GRID_EMPTY := by
    intro w hw
    have hm : w.1 ∈ shipSquares [a, b, c, d, e] := by
      rw [← hfst]; exact List.mem_map_of_mem Prod.fst hw
    obtain ⟨h0, h100⟩ := hin w.1 hm
    have hlt : w.1.toNat < 100 := by omega
    exact ⟨h0, by rw [List.length_replicate]; exact hlt, replicate_getD _ _ _⟩
  have hcount : ∀ v : grid_t, v ≠ grid_t.GRID_EMPTY →
      (BShip_Game.newGame [a, b, c, d, e] g0).sea.count v =
        ((((List.range a.length).map fun j => (a.square j, grid_t.GRID_SHIP_0)) ++
        (((List.range b.length).map fun j => (b.square j, grid_t.GRID_SHIP_1)) ++
        (((List.range c.length).map fun j => (c.square j, grid_t.GRID_SHIP_2)) ++
        (((List.range d.length).map fun j => (d.square j, grid_t.GRID_SHIP_3)) ++
        ((List.range e.length).map fun j => (e.square j, grid_t.GRID_SHIP_4)))))).countP
          fun w => decide (w.2 = v)) := by
    intro v hv
    rw [hsea, (count_writes v hv _ _ (by rw [hfst]; exact hnd) hall).1,
      List.count_replicate]
    have : (grid_t.GRID_EMPTY == v) = false := by
      rw [beq_eq_false_iff_ne]; exact fun h => hv h.symm
    rw [this]; simp
  refine ⟨?_, by rw [hships]; simp [la, lb, lc, ld, le], ?_, rfl⟩
  · rw [hsea, (count_writes grid_t.GRID_SHIP_0 (by decide) _ _
      (by rw [hfst]; exact hnd) hall).2]
    exact List.length_replicate _ _
  · intro i hi
    have hc := hcount (grid_t.cast (grid_t.GRID_SHIP_0.toNat + i))
      (by interval_cases i <;> decide)
    simp only [BShip_Globals.afloat, BShip_Globals.ship, hships]
    rw [hc]
    interval_cases i <;>
      simp [List.countP_append, List.countP_map, Function.comp_def, grid_t.cast,
        grid_t.toNat, ha0, has, hb0, hbs, hc0, hcs, hd0, hds, he0, hes, la, lb, lc, ld, le]

/-- C30. Battleship win detection. Let `initialize` set up the board from five ships of the
lengths 5, 4, 3, 3, 2, none hit or marked sunk, placed on distinct squares of the board; it
sets `EnemyHits = 0`. After any number of `generateResults` calls with shots on the board, and
after one more call on a Move `M` of the game (`NORMAL_MOVE` or `QUIT_MOVE`) with a shot on the
board: `EnemyHits` is the sum of the hit counts of the ships, each hit count is at most the
length of its ship, and the call answers `WIN_RESULTS` with the game-ended flag true exactly
when `M` is a `NORMAL_MOVE` that hits the last ship square not yet hit, which is exactly when
`EnemyHits` reaches 17; all five ships are then marked sunk. That no square is shot twice is
not needed. -/
theorem battleship_win_detection (placed : List ship_t) (g0 : BShip_Globals)
    (r : baseResults BShip_Fields) (moves : List (baseMove BShip_Fields))
    (M : baseMove BShip_Fields)
    (hlen : placed.map ship_t.length = [5, 4, 3, 3, 2])
    (hnew : ∀ s ∈ placed, s.hits = 0 ∧ s.sunk = false)
    (hnd : (shipSquares placed).Nodup)
    (hin : ∀ q ∈ shipSquares placed, 0 ≤ q ∧ q < 100)
    (hshots : ∀ m ∈ moves, m.payload.shot < 100)
    (hM : M.payload.shot < 100)
    (hsub : normalOrQuit M.subType = true) :
    (BShip_Game.newGame placed g0).EnemyHits = 0 ∧
    (BShip_Results.generateResults (BShip_play (BShip_Game.newGame placed g0) r moves).1 M
        (BShip_play (BShip_Game.newGame placed g0) r moves).2).1.EnemyHits =
      (BShip_Results.generateResults (BShip_play (BShip_Game.newGame placed g0) r moves).1 M
        (BShip_play (BShip_Game.newGame placed g0) r moves).2).1.hitsAll ∧
    (∀ i : Nat, i < 5 →
      ((BShip_Results.generateResults (BShip_play (BShip_Game.newGame placed g0) r moves).1 M
        (BShip_play (BShip_Game.newGame placed g0) r moves).2).1.ship i).hits ≤
      ((BShip_Results.generateResults (BShip_play (BShip_Game.newGame placed g0) r moves).1 M
        (BShip_play (BShip_Game.newGame placed g0) r moves).2).1.ship i).length) ∧
    (((BShip_Results.generateResults (BShip_play (BShip_Game.newGame placed g0) r moves).1 M
          (BShip_play (BShip_Game.newGame placed g0) r moves).2).2.1.subType =
        packetSubType_t.WIN_RESULTS ∧
      (BShip_Results.generateResults (BShip_play (BShip_Game.newGame placed g0) r moves).1 M
          (BShip_play (BShip_Game.newGame placed g0) r moves).2).2.2 = true) ↔
      (M.subType = packetSubType_t.NORMAL_MOVE ∧
        (BShip_play (BShip_Game.newGame placed g0) r moves).1.isShipSquare M.payload.shot
          = true ∧
        (BShip_play (BShip_Game.newGame placed g0) r moves).1.afloatAll = 1)) ∧
    ((BShip_Results.generateResults (BShip_play (BShip_Game.newGame placed g0) r moves).1 M
          (BShip_play (BShip_Game.newGame placed g0) r moves).2).2.1.subType =
        packetSubType_t.WIN_RESULTS ↔
      (M.subType = packetSubType_t.NORMAL_MOVE ∧
        (BShip_play (BShip_Game.newGame placed g0) r moves).1.isShipSquare M.payload.shot
          = true ∧
        (BShip_Results.generateResults (BShip_play (BShip_Game.newGame placed g0) r moves).1 M
          (BShip_play (BShip_Game.newGame placed g0) r moves).2).1.EnemyHits = 17)) ∧
    ((BShip_Results.generateResults (BShip_play (BShip_Game.newGame placed g0) r moves).1 M
          (BShip_play (BShip_Game.newGame placed g0) r moves).2).2.1.subType =
        packetSubType_t.WIN_RESULTS →
      ∀ i : Nat, i < 5 →
        ((BShip_Results.generateResults (BShip_play (BShip_Game.newGame placed g0) r moves).1 M
          (BShip_play (BShip_Game.newGame placed g0) r moves).2).1.ship i).sunk = true) := by
  have hF0 : Fleet (BShip_Game.newGame placed g0) :=
    FreshFleet_Fleet _ (newGame_fresh placed g0 hlen hnew hnd hin)
  have hF : Fleet (BShip_play (BShip_Game.newGame placed g0) r moves).1 :=
    BShip_play_Fleet moves _ r hF0 hshots
  have hF1 := generateResults_Fleet _ M (BShip_play (BShip_Game.newGame placed g0) r moves).2
    hF hM
  obtain ⟨hw1, hw2⟩ := generateResults_win _ M
    (BShip_play (BShip_Game.newGame placed g0) r moves).2 hF hM hsub
  refine ⟨rfl, hF1.2.2.2.2, (Fleet_bounds _ hF1).2.2, hw1, hw2, fun hwin i hi => ?_⟩
  exact Fleet_all_sunk _ hF1 (hw2.mp hwin).2.2 i hi

/-- Witness for C30: on the board of `rowFleet`, after the sixteen hits of `sixteenHits`, the
shot at square 41 is answered with `WIN_RESULTS` and the game-ended flag. -/
theorem battleship_win_detection_witness :
    (BShip_Results.generateResults
        (BShip_play (BShip_Game.newGame rowFleet (emptySea [])) BShip_noResults sixteenHits).1
        (shotAt 17 41)
        (BShip_play (BShip_Game.newGame rowFleet (emptySea [])) BShip_noResults
          sixteenHits).2).2.1.subType = packetSubType_t.WIN_RESULTS ∧
    (BShip_Results.generateResults
        (BShip_play (BShip_Game.newGame rowFleet (emptySea [])) BShip_noResults sixteenHits).1
        (shotAt 17 41)
        (BShip_play (BShip_Game.newGame rowFleet (emptySea [])) BShip_noResults
          sixteenHits).2).2.2 = true := by
  set_option maxRecDepth 20000 in
  exact (battleship_win_detection rowFleet (emptySea []) BShip_noResults sixteenHits (shotAt 17 41)
    rfl (by simp [rowFleet])
    (by
      rw [show shipSquares rowFleet =
        [0, 1, 2, 3, 4, 10, 11, 12, 13, 20, 21, 22, 30, 31, 32, 40, 41] from rfl]
      simp)
    (by
      rw [show shipSquares rowFleet =
        [0, 1, 2, 3, 4, 10, 11, 12, 13, 20, 21, 22, 30, 31, 32, 40, 41] from rfl]
      simp)
    (by simp [sixteenHits, shotAt]) (by decide) rfl).2.2.2.1.mpr
    ⟨rfl, rfl, rfl⟩

end TwoPlayerGame
